import Mathlib

set_option maxRecDepth 16000

/-
  Verification development for the langfuse repository excerpts:
  - packages/shared/prisma/seed.ts  (seed orchestrator `main`, entity
    generators, `createObjects`, bulk uploader)
  - the SCIM Users API route handler (GET/POST on the Users resource)

  The TypeScript is shallowly embedded: `Math.random()` and `v4()`/
  `randomUUID()` are modelled as explicit streams of rationals / strings
  indexed by counters that are threaded through the code in source order;
  dates are integer millisecond timestamps; Prisma writes are modelled as
  operations on an explicit list-of-rows database with unique-constraint
  checks.  All definitions follow the source; deviations forced by the
  embedding (e.g. `x ** 1.5` kept as an abstract function on rationals)
  are noted in the doc comments of the definitions concerned.
-/

namespace Langfuse

/-! ### JavaScript-flavoured helpers -/

/-- `Math.floor` on the rationals (JS numbers are modelled as `ℚ`). -/
def jsFloor (q : ℚ) : Int := ⌊q⌋


/-- Multiplication on `ℚ`, written through `mkRat` so that it reduces in
the kernel (`Rat.mul` is `@[irreducible]`); `qMul_eq` proves it equal to
`*`. -/
def qMul (a b : ℚ) : ℚ := mkRat (a.num * b.num) (a.den * b.den)

/-- Subtraction on `ℚ` through `mkRat`; `qSub_eq` proves it equal to
`-`. -/
def qSub (a b : ℚ) : ℚ := mkRat (a.num * b.den - b.num * a.den) (a.den * b.den)

/-- JS array indexing `xs[n]`: `undefined` (here `none`) when out of range. -/
def jsGet {α : Type} (xs : List α) (n : Int) : Option α :=
  if h : 0 ≤ n ∧ n.toNat < xs.length then some (xs.get ⟨n.toNat, h.2⟩) else none

/-! ### Randomness / environment model

A run of the seed script consumes a stream `g` of `Math.random()` results,
a stream `uuid` of `v4()` / `randomUUID()` results, the (fixed) clock value
`now = Date.now()`, and `pow32`, an abstract model of the real-valued
function `x ↦ x ** 1.5` used once per trace for the timestamp bias (it is
irrational on most rationals, so it is kept abstract; no claim depends on
timestamps). -/

structure RandEnv where
  g : Nat → ℚ
  uuid : Nat → String
  pow32 : ℚ → ℚ
  now : Int

/-- Positions in the two random streams. -/
structure Ctr where
  r : Nat
  u : Nat
deriving DecidableEq

/-- Consume one `Math.random()` draw. -/
def draw (re : RandEnv) (c : Ctr) : ℚ × Ctr :=
  (re.g c.r, ⟨c.r + 1, c.u⟩)

/-- Consume one `v4()` / `randomUUID()` draw. -/
def drawU (re : RandEnv) (c : Ctr) : String × Ctr :=
  (re.uuid c.u, ⟨c.r, c.u + 1⟩)

/-! ### createObjects: object shapes

These mirror the in-memory objects that `createObjects` builds (seed.ts).
`metadata: { user: ... }` is kept as the single `metadataUser` string it
always is in the source; `modelParameters` values are kept numeric
(`Math.random().toFixed(2)` string formatting is elided, values unchanged);
`ModelUsageUnit.Tokens` is the string "TOKENS". -/

/-- `ScoreDataType` from the shared package. `BOOL` stands for the source
enum member for boolean scores. -/
inductive ScoreDataType where
  | NUMERIC
  | CATEGORICAL
  | BOOL
deriving DecidableEq

structure ConfigCategory where
  label : String
  value : Int
deriving DecidableEq

/-- The per-config record that `generateConfigs` returns and
`createObjects` receives through `configParams`. -/
structure ConfigParam where
  name : String
  id : String
  dataType : ScoreDataType
  categories : Option (List ConfigCategory)
deriving DecidableEq

/-- The fields of a Prisma `Project` used by the seed. -/
structure Proj where
  id : String
  name : String
  orgId : String
deriving DecidableEq

structure TraceObj where
  id : String
  timestamp : Int
  createdAt : Int
  projectId : String
  name : String
  metadataUser : String
  tags : List String
  userId : Option String
  input : Option String
  output : Option String
  sessionId : Option String
deriving DecidableEq, Inhabited

/-- Discriminates the three constant payload shapes that
`getGenerationInputOutput` can build for `input` (the constant message
objects themselves carry no information a claim touches, so they are
represented by which of the three source branches produced them). -/
inductive GenInput where
  | vision
  | chat
  | retrieval
deriving DecidableEq

structure Obs where
  type : String
  id : String
  startTime : Int
  createdAt : Int
  endTime : Option Int := none
  completionStartTime : Option Int := none
  name : String
  metadataUser : String
  projectId : String
  traceId : String
  parentObservationId : Option String := none
  promptId : Option String := none
  input : Option GenInput := none
  output : Option String := none
  model : Option String := none
  internalModel : Option String := none
  temperature : Option Rat := none
  topP : Option Rat := none
  maxTokens : Option Int := none
  promptTokens : Option Int := none
  completionTokens : Option Int := none
  totalTokens : Option Int := none
  unit : Option String := none
deriving DecidableEq, Inhabited

structure ScoreObj where
  traceId : String
  observationId : Option String := none
  name : String
  value : Option Rat := none
  stringValue : Option String := none
  dataType : Option ScoreDataType := none
  source : String
  projectId : String
  configId : Option String := none
  authorUserId : Option String := none
  timestamp : Int
  createdAt : Int
deriving DecidableEq, Inhabited

structure Session where
  id : String
  projectId : String
deriving DecidableEq

structure CommentObj where
  projectId : String
  objectId : String
  objType : String
  content : String
  authorUserId : Option String := none
deriving DecidableEq

structure QueueItemObj where
  queueId : String
  objectId : String
  objType : String
  projectId : String
deriving DecidableEq, Inhabited

/-- Output string of the `Math.random() > 0.9` (vision) branch of
`getGenerationInputOutput`. -/
def visionOutput : String :=
  "The image depicts a serene landscape featuring a wooden pathway or boardwalk that winds through a lush green field. The field is filled with tall grass and surrounded by trees and shrubs. Above, the sky is bright with scattered clouds, suggesting a clear and pleasant day. The scene conveys a sense of tranquility and natural beauty."

/-- Output string of the main branch of `getGenerationInputOutput`
(braces and apostrophes written with hex escapes; the string value is
exactly the source constant). -/
def mdOutput : String :=
  "Creating a React component can be done in two ways: as a functional component or as a class component. Let\x27s start with a basic example of both.\n\n**Image**\n\n![Languse Example Image](https://static.langfuse.com/langfuse-dev/langfuse-example-image.jpeg)\n\n1.  **Functional Component**:\n\nA functional component is just a plain JavaScript function that accepts props as an argument, and returns a React element. Here\x27s how you can create one:\n\n```javascript\nimport React from \x27react\x27;\nfunction Greeting(props) \x7b\n  return <h1>Hello, \x7bprops.name\x7d</h1>;\n\x7d\nexport default Greeting;\n```\n\nTo use this component in another file, you can do:\n\n```javascript\nimport Greeting from \x27./Greeting\x27;\nfunction App() \x7b\n  return (\n    <div>\n      <Greeting name=\"John\" />\n    </div>\n  );\n\x7d\nexport default App;\n```\n\n2.  **Class Component**:\n\nYou can also define components as classes in React. These have some additional features compared to functional components:\n\n```javascript\nimport React, \x7b Component \x7d from \x27react\x27;\nclass Greeting extends Component \x7b\n  render() \x7b\n    return <h1>Hello, \x7bthis.props.name\x7d</h1>;\n  \x7d\n\x7d\nexport default Greeting;\n```\n\nAnd here\x27s how to use this component:\n\n```javascript\nimport Greeting from \x27./Greeting\x27;\nclass App extends Component \x7b\n  render() \x7b\n    return (\n      <div>\n        <Greeting name=\"John\" />\n      </div>\n    );\n  \x7d\n\x7d\nexport default App;\n```\n\nWith the advent of hooks in React, functional components can do everything that class components can do and hence, the community has been favoring functional components over class components.\n\nRemember to import React at the top of your file whenever you\x27re creating a component, because JSX transpiles to `React.createElement` calls under the hood."

/-- `getGenerationInputOutput` from seed.ts. -/
def getGenerationInputOutput (re : RandEnv) (c : Ctr) : (GenInput × String) × Ctr :=
  let (r1, c) := draw re c
  if r1 > mkRat 9 10 then ((GenInput.vision, visionOutput), c)
  else
    let (r2, c) := draw re c
    ((if r2 > mkRat 1 2 then GenInput.chat else GenInput.retrieval, mdOutput), c)

/-- The `Math.random() > 0.9 ? undefined : f (Math.random())` pattern used
for each of the three `modelParameters` fields. -/
def jsOptDraw {a : Type} (re : RandEnv) (c : Ctr) (f : Rat -> a) : Option a × Ctr :=
  let (r1, c) := draw re c
  if r1 > mkRat 9 10 then (none, c)
  else
    let (r2, c) := draw re c
    (some (f r2), c)

/-! ### createObjects: inner loops

All JS `for` loops whose condition re-draws `Math.random()` each test
(`j < Math.floor(Math.random() * 10) + 1` etc.) are written as fuelled
recursion; the fuel equals the largest possible iteration count for
in-range draws (`floor(r*10)+1 ≤ 10`, `floor(r*2)+1 ≤ 2`, `floor(r*2) ≤ 1`),
so for any stream with values in `[0,1)` the fuel never cuts a loop short. -/

/-- One batch of generated items from the span/generation/event loops. -/
structure SpanOut where
  obs : List Obs := []
  events : List Obs := []
  scores : List ScoreObj := []
  comments : List CommentObj := []
deriving DecidableEq

def SpanOut.app (a b : SpanOut) : SpanOut :=
  { obs := a.obs ++ b.obs, events := a.events ++ b.events,
    scores := a.scores ++ b.scores, comments := a.comments ++ b.comments }

/-- The innermost `for (let l = 0; l < Math.floor(Math.random() * 2); l++)`
loop creating EVENT observations. -/
def eventLoop (re : RandEnv) (i j k : Nat) (spanStart spanEnd : Int)
    (spanId : String) (tr : TraceObj) : Nat → Nat → Ctr → List Obs × Ctr
  | 0, _, c => ([], c)
  | fuel + 1, l, c =>
    let (rCond, c) := draw re c
    if (l : Int) < jsFloor (qMul rCond 2) then
      let (rTs, c) := draw re c
      let eventTs := spanStart + jsFloor (qMul rTs ((spanEnd - spanStart : Int) : ℚ))
      let (evId, c) := drawU re c
      let ev : Obs :=
        { type := "EVENT", id := "event-" ++ evId,
          startTime := eventTs, createdAt := eventTs,
          name := "event-" ++ toString i ++ "-" ++ toString j ++ "-" ++
            toString k ++ "-" ++ toString l,
          metadataUser := "user-" ++ toString i ++ "@langfuse.com",
          parentObservationId := some spanId,
          traceId := tr.id, projectId := tr.projectId }
      let (rest, c) := eventLoop re i j k spanStart spanEnd spanId tr fuel (l + 1) c
      (ev :: rest, c)
    else ([], c)

/-- The `if (Math.random() > 0.6) scores.push({...})` blocks attaching a
"quality" / "conciseness" score to a generation (the two blocks are
identical up to the score name). -/
def condScore (re : RandEnv) (nm : String) (genId : String) (tr : TraceObj)
    (genEnd traceTs : Int) (c : Ctr) : List ScoreObj × Ctr :=
  let (rCond, c) := draw re c
  if rCond > mkRat 6 10 then
    let (rv, c) := draw re c
    ([({ name := nm, value := some (qSub (qMul rv 2) 1),
         observationId := some genId, traceId := tr.id, source := "API",
         projectId := tr.projectId, timestamp := genEnd,
         createdAt := traceTs } : ScoreObj)], c)
  else ([], c)

/-- The body of the `for k` loop: one GENERATION observation plus its
quality/conciseness scores, optional comment and EVENT children. -/
def genOnce (re : RandEnv) (i j k : Nat) (promptIds : String → List String)
    (tr : TraceObj) (spanId : String) (spanStart spanEnd : Int)
    (traceTs : Int) (c : Ctr) : SpanOut × Ctr :=
  let (rGs, c) := draw re c
  let genStart := spanStart + jsFloor (qMul rGs ((spanEnd - spanStart : Int) : ℚ))
  let (rGe, c) := draw re c
  let genEnd := genStart + jsFloor (qMul rGe ((spanEnd - genStart : Int) : ℚ))
  let complStart := genStart + (genEnd - genStart) / 3
  let (rPt, c) := draw re c
  let promptTokens := jsFloor (qMul rPt 1000) + 300
  let (rCt, c) := draw re c
  let completionTokens := jsFloor (qMul rCt 500) + 100
  let models := ["gpt-3.5-turbo", "gpt-4", "gpt-4-32k-0613",
    "gpt-3.5-turbo-16k-0613", "claude-instant-1", "claude-2.1",
    "gpt-4-vision-preview", "MIXTRAL-8X7B"]
  let (rM, c) := draw re c
  let model := jsGet models (jsFloor (qMul rM (models.length : ℚ)))
  let (rP, c) := draw re c
  let promptId := jsGet (promptIds tr.projectId)
    (jsFloor (qMul rP (((promptIds tr.projectId).length / 2 : Nat) : ℚ)))
  let (io, c) := getGenerationInputOutput re c
  let (genId, c) := drawU re c
  let (rCpl, c) := draw re c
  let (temp, c) := jsOptDraw re c id
  let (tp, c) := jsOptDraw re c id
  let (mt, c) := jsOptDraw re c (fun r => jsFloor (qMul r 1000))
  -- `...(Math.random() > 0.5 ? { promptId } : {})` re-spreads the same
  -- `promptId` value already set above, so the field value is unchanged
  -- either way; the draw is still consumed.
  let (_rSpread, c) := draw re c
  let gen : Obs :=
    { type := "GENERATION", id := "generation-" ++ genId,
      startTime := genStart, createdAt := genStart, endTime := some genEnd,
      completionStartTime := if rCpl > mkRat 1 2 then some complStart else none,
      name := "generation-" ++ toString i ++ "-" ++ toString j ++ "-" ++ toString k,
      projectId := tr.projectId, promptId := promptId,
      input := some io.1, output := some io.2,
      model := model, internalModel := model,
      temperature := temp, topP := tp, maxTokens := mt,
      metadataUser := "user-" ++ toString i ++ "@langfuse.com",
      promptTokens := some promptTokens,
      completionTokens := some completionTokens,
      totalTokens := some (promptTokens + completionTokens),
      parentObservationId := some spanId, traceId := tr.id,
      unit := some "TOKENS" }
  let (qualScores, c) := condScore re "quality" gen.id tr genEnd traceTs c
  let (concScores, c) := condScore re "conciseness" gen.id tr genEnd traceTs c
  let (rCm, c) := draw re c
  let comments : List CommentObj :=
    if rCm > mkRat 8 10 then
      [{ projectId := tr.projectId, objectId := gen.id,
         objType := "OBSERVATION", content := "Observation comment content" }]
    else []
  let (events, c) := eventLoop re i j k spanStart spanEnd spanId tr 2 0 c
  ({ obs := [gen], events := events, scores := qualScores ++ concScores,
     comments := comments }, c)

/-- `for (let k = 0; k < Math.floor(Math.random() * 2) + 1; k++)`. -/
def genLoop (re : RandEnv) (i j : Nat) (promptIds : String → List String)
    (tr : TraceObj) (spanId : String) (spanStart spanEnd : Int)
    (traceTs : Int) : Nat → Nat → Ctr → SpanOut × Ctr
  | 0, _, c => ({}, c)
  | fuel + 1, k, c =>
    let (rCond, c) := draw re c
    if (k : Int) < jsFloor (qMul rCond 2) + 1 then
      let (o1, c) := genOnce re i j k promptIds tr spanId spanStart spanEnd traceTs c
      let (rest, c) := genLoop re i j promptIds tr spanId spanStart spanEnd traceTs fuel (k + 1) c
      (o1.app rest, c)
    else ({}, c)

/-- `...(existingSpanIds.length === 0 || Math.random() > 0.5 ? {} :
{ parentObservationId: existingSpanIds[floor(random * length)] })`:
the short-circuit draws nothing when there is no span yet. -/
def pickParent (re : RandEnv) (existing : List String) (c : Ctr) :
    Option String × Ctr :=
  if existing.length = 0 then ((none : Option String), c)
  else
    let (rPar, c) := draw re c
    if rPar > mkRat 1 2 then ((none : Option String), c)
    else
      let (rIdx, c) := draw re c
      (jsGet existing (jsFloor (qMul rIdx (existing.length : ℚ))), c)

/-- Building one SPAN observation (including the optional parent pick from
`existingSpanIds`). Returns the span and its start/end timestamps. -/
def spanOnce (re : RandEnv) (i j : Nat) (tr : TraceObj)
    (existing : List String) (traceTs : Int) (c : Ctr) :
    (Obs × Int × Int) × Ctr :=
  let (rS1, c) := draw re c
  let spanStart := traceTs + jsFloor (qMul rS1 30)
  let (rS2, c) := draw re c
  let spanEnd := spanStart + jsFloor (qMul rS2 5000)
  let (spId, c) := drawU re c
  let (parent, c) := pickParent re existing c
  let span : Obs :=
    { type := "SPAN", id := "span-" ++ spId,
      startTime := spanStart, createdAt := spanStart, endTime := some spanEnd,
      name := "span-" ++ toString i ++ "-" ++ toString j,
      metadataUser := "user-" ++ toString i ++ "@langfuse.com",
      projectId := tr.projectId, traceId := tr.id,
      parentObservationId := parent }
  ((span, spanStart, spanEnd), c)

/-- `for (let j = 0; j < Math.floor(Math.random() * 10) + 1; j++)`:
spans with their generations and events, threading `existingSpanIds`. -/
def spanLoop (re : RandEnv) (i : Nat) (promptIds : String → List String)
    (tr : TraceObj) (traceTs : Int) : Nat → Nat → List String → Ctr → SpanOut × Ctr
  | 0, _, _, c => ({}, c)
  | fuel + 1, j, existing, c =>
    let (rCond, c) := draw re c
    if (j : Int) < jsFloor (qMul rCond 10) + 1 then
      let (sp, c) := spanOnce re i j tr existing traceTs c
      let (gOut, c) := genLoop re i j promptIds tr sp.1.id sp.2.1 sp.2.2 traceTs 2 0 c
      let (rest, c) := spanLoop re i promptIds tr traceTs fuel (j + 1) (existing ++ [sp.1.id]) c
      (({ obs := [sp.1] } : SpanOut).app (gOut.app rest), c)
    else ({}, c)

/-! ### createObjects: per-trace iteration and top level -/

/-- `configArray.length >= randomIndex - 1 && configArray[randomIndex]`:
the JS `&&` collapses `false` and `undefined` to "no config". -/
def pickedConfig (configArray : List ConfigParam) (randomIndex : Int) :
    Option ConfigParam :=
  if (configArray.length : Int) ≥ randomIndex - 1 then jsGet configArray randomIndex
  else none

/-- Everything one iteration of the `for i` loop builds before the span
loop: the trace, optional session, queue items, trace-level scores and the
optional trace comment. -/
structure PreOut where
  tr : TraceObj
  traceTs : Int
  sess : Option Session
  qItems : List QueueItemObj
  scores : List ScoreObj
  comments : List CommentObj
deriving DecidableEq

/-- The `Math.random() > 0.7` block pushing the numeric "sentiment" API
score onto `traceScores`. -/
def sentimentStep (re : RandEnv) (tr : TraceObj) (traceTs : Int) (c : Ctr) :
    List ScoreObj × Ctr :=
  let (rSent, c) := draw re c
  if rSent > mkRat 7 10 then
    let (rSv, c) := draw re c
    ([({ traceId := tr.id, name := "sentiment",
         value := some (((jsFloor (qMul rSv 10) - 5 : Int) : ℚ)),
         timestamp := traceTs, createdAt := traceTs, source := "API",
         projectId := tr.projectId,
         dataType := some ScoreDataType.NUMERIC } : ScoreObj)], c)
  else (([] : List ScoreObj), c)

/-- The `Math.random() < 0.8` block pushing the hardcoded categorical
"Completeness" API score. -/
def completenessStep (re : RandEnv) (tr : TraceObj) (traceTs : Int) (c : Ctr) :
    List ScoreObj × Ctr :=
  let (rComp, c) := draw re c
  if rComp < mkRat 8 10 then
    let (rCs, c) := draw re c
    ([({ traceId := tr.id, name := "Completeness", timestamp := traceTs,
         createdAt := traceTs, source := "API", projectId := tr.projectId,
         dataType := some ScoreDataType.CATEGORICAL,
         stringValue := some (if jsFloor (qMul rCs 2) = 1 then "Fully" else "Partially") } :
         ScoreObj)], c)
  else (([] : List ScoreObj), c)

/-- The `Math.random() > 0.9` block pushing a trace comment (with its
optional `authorUserId`). -/
def traceCommentStep (re : RandEnv) (i : Nat) (tr : TraceObj) (c : Ctr) :
    List CommentObj × Ctr :=
  let (rCm, c) := draw re c
  if rCm > mkRat 9 10 then
    let (rAu, c) := draw re c
    ([({ projectId := tr.projectId, objectId := tr.id, objType := "TRACE",
         content := "Trace comment content",
         authorUserId := if rAu > mkRat 1 2 then some ("user-" ++ toString i) else none } :
         CommentObj)], c)
  else (([] : List CommentObj), c)

/-- The first half of one `for i` iteration of `createObjects` (seed.ts):
timestamp, tags, project assignment, optional session and the trace
literal, with draws consumed in source evaluation order.
`[project1.id, project2.id][i % 2]` is written as the equivalent parity
test. -/
def iterTrace (re : RandEnv) (envTags colorTags : List (Option String))
    (p1 p2 : Proj) (i : Nat) (c : Ctr) : (TraceObj × Option Session × Int) × Ctr :=
  let (rTs, c) := draw re c
  -- 7776000000 = 90 * 24 * 60 * 60 * 1000 (90 days in ms)
  let traceTs : Int := re.now - jsFloor (qMul (re.pow32 rTs) 7776000000)
  let (rEnv, c) := draw re c
  let envTag := jsGet envTags (jsFloor (qMul rEnv (envTags.length : ℚ)))
  let (rColor, c) := draw re c
  let colorTag := jsGet colorTags (jsFloor (qMul rColor (colorTags.length : ℚ)))
  -- `[envTag, colorTag].filter((tag) => tag !== null)`; out-of-range
  -- (`undefined`) accesses cannot occur for the in-range draws the seed
  -- uses, and are dropped here like `null` ones.
  let tags : List String := ([envTag, colorTag].filter (fun t => t ≠ some none)).filterMap
    (fun t => t.bind id)
  let projectId := if i % 2 = 0 then p1.id else p2.id
  let (rSess, c) := draw re c
  let sess : Option Session :=
    if rSess > mkRat 3 10 then some ⟨"session-" ++ toString (i % 3), projectId⟩ else none
  let (trId, c) := drawU re c
  let (rUser, c) := draw re c
  let (rInput, c) := draw re c
  let (rOutput, c) := draw re c
  let tr : TraceObj :=
    { id := "trace-" ++ trId, timestamp := traceTs, createdAt := traceTs,
      projectId := projectId,
      name := ["generate-outreach", "label-inbound", "draft-response"].getD (i % 3) "",
      metadataUser := "user-" ++ toString i ++ "@langfuse.com",
      tags := tags,
      userId := if rUser > mkRat 3 10 then some ("user-" ++ toString (i % 60)) else none,
      input := if rInput > mkRat 3 10 then some "I\x27m looking for a React component" else none,
      output := if rOutput > mkRat 3 10 then some "What kind of component are you looking for?" else none,
      sessionId := sess.map (fun s => s.id) }
  ((tr, sess, traceTs), c)

/-- The config pick and `value` draw preceding the annotation score:
`randomIndex`, `configArray[randomIndex]` (via `pickedConfig`), and
`Math.floor(Math.random() * 2)`. -/
def configValueStep (re : RandEnv) (configParams : String → List ConfigParam)
    (tr : TraceObj) (c : Ctr) : (Option ConfigParam × Int) × Ctr :=
  let configArray := configParams tr.projectId
  let (rCfg, c) := draw re c
  let randomIndex := jsFloor (qMul rCfg 3)
  let config : Option ConfigParam := pickedConfig configArray randomIndex
  let (rVal, c) := draw re c
  ((config, jsFloor (qMul rVal 2)), c)

/-- `Math.random() > 0.9 && queueIds.get(projectId)?.[0] ? [queueItem] : []`
(a falsy -- absent or empty -- first queue id produces no item). -/
def queueItemStep (re : RandEnv) (queueIds : String → List String)
    (tr : TraceObj) (c : Ctr) : List QueueItemObj × Ctr :=
  let (rQ, c) := draw re c
  (if rQ > mkRat 9 10 then
    match (queueIds tr.projectId).head? with
    | some qid =>
        if qid = "" then []
        else [{ queueId := qid, objectId := tr.id, objType := "TRACE",
                projectId := tr.projectId }]
    | none => []
  else [], c)

/-- The destructuring of `config || { name: "manual-score", ... }`, the
`scoreNumericAndStringValue` object and the `Math.random() > 0.5`
annotation score. -/
def annScoreStep (re : RandEnv) (i : Nat) (tr : TraceObj) (traceTs : Int)
    (config : Option ConfigParam) (value : Int) (c : Ctr) :
    List ScoreObj × Ctr :=
  let annName := (config.map (fun cp => cp.name)).getD "manual-score"
  let configId : Option String := config.map (fun cp => cp.id)
  let dataType := (config.map (fun cp => cp.dataType)).getD ScoreDataType.NUMERIC
  let categories : Option (List ConfigCategory) := config.bind (fun cp => cp.categories)
  let svPair : Option ℚ × Option String :=
    match dataType with
    | ScoreDataType.NUMERIC => (some (value : ℚ), none)
    | ScoreDataType.CATEGORICAL =>
        (some (value : ℚ),
         ((categories.getD []).find? (fun cat => cat.value = value)).map (fun cat => cat.label))
    | ScoreDataType.BOOL =>
        (some (value : ℚ), some (if value = 1 then "True" else "False"))
  let (rAnn, c) := draw re c
  (if rAnn > mkRat 1 2 then
    [{ traceId := tr.id, name := annName, timestamp := traceTs,
       createdAt := traceTs, source := "ANNOTATION", projectId := tr.projectId,
       authorUserId := some ("user-" ++ toString i),
       dataType := some dataType, value := svPair.1, stringValue := svPair.2,
       configId := match configId with
         | some cid => if cid = "" then none else some cid
         | none => none }]
  else [], c)

/-- The second half of the iteration prefix: annotation-config pick, the
optional queue item, the three trace-level scores and the optional trace
comment, with draws in source order (`rCfg`, `rVal`, queue, annotation,
sentiment, Completeness, comment). -/
def iterPre (re : RandEnv) (envTags colorTags : List (Option String))
    (p1 p2 : Proj) (queueIds : String → List String)
    (configParams : String → List ConfigParam) (i : Nat) (c : Ctr) :
    PreOut × Ctr :=
  let (pre1, c) := iterTrace re envTags colorTags p1 p2 i c
  let tr := pre1.1
  let sess := pre1.2.1
  let traceTs := pre1.2.2
  let (cv, c) := configValueStep re configParams tr c
  let (qItems, c) := queueItemStep re queueIds tr c
  let (annScores, c) := annScoreStep re i tr traceTs cv.1 cv.2 c
  let (sentScores, c) := sentimentStep re tr traceTs c
  let (compScores, c) := completenessStep re tr traceTs c
  let (comments, c) := traceCommentStep re i tr c
  ({ tr := tr, traceTs := traceTs, sess := sess, qItems := qItems,
     scores := annScores ++ sentScores ++ compScores, comments := comments }, c)

/-- All items built by one iteration of the `for i` loop. -/
structure IterOut where
  tr : TraceObj
  sess : Option Session
  qItems : List QueueItemObj
  scores : List ScoreObj
  comments : List CommentObj
  obs : List Obs
  events : List Obs
deriving DecidableEq

/-- One full iteration of the `for i` loop of `createObjects`:
the prefix, then the span loop with `existingSpanIds` starting empty. -/
def genIteration (re : RandEnv) (envTags colorTags : List (Option String))
    (p1 p2 : Proj) (promptIds queueIds : String → List String)
    (configParams : String → List ConfigParam) (i : Nat) (c : Ctr) :
    IterOut × Ctr :=
  let (pre, c) := iterPre re envTags colorTags p1 p2 queueIds configParams i c
  let (sOut, c) := spanLoop re i promptIds pre.tr pre.traceTs 10 0 [] c
  ({ tr := pre.tr, sess := pre.sess, qItems := pre.qItems,
     scores := pre.scores ++ sOut.scores,
     comments := pre.comments ++ sOut.comments,
     obs := sOut.obs, events := sOut.events }, c)

/-- The collections `createObjects` returns (the `configs` list stays
empty in the source and is omitted). -/
structure COOut where
  traces : List TraceObj := []
  observations : List Obs := []
  scores : List ScoreObj := []
  sessions : List Session := []
  events : List Obs := []
  comments : List CommentObj := []
  queueItems : List QueueItemObj := []
deriving DecidableEq

/-- The `for (let i = 0; i < traceVolume; i++)` loop: `n` iterations
remaining, `i` the current index. -/
def createLoop (re : RandEnv) (envTags colorTags : List (Option String))
    (p1 p2 : Proj) (promptIds queueIds : String → List String)
    (configParams : String → List ConfigParam) :
    Nat → Nat → Ctr → COOut × Ctr
  | 0, _, c => ({}, c)
  | n + 1, i, c =>
    let (it, c) := genIteration re envTags colorTags p1 p2 promptIds queueIds configParams i c
    let (rest, c) := createLoop re envTags colorTags p1 p2 promptIds queueIds configParams n (i + 1) c
    ({ traces := it.tr :: rest.traces,
       observations := it.obs ++ rest.observations,
       scores := it.scores ++ rest.scores,
       sessions := (match it.sess with | some s => [s] | none => []) ++ rest.sessions,
       events := it.events ++ rest.events,
       comments := it.comments ++ rest.comments,
       queueItems := it.qItems ++ rest.queueItems }, c)

/-- `Array.from(new Set(sessions.map(JSON.stringify))).map(JSON.parse)`:
keeps the first occurrence of each session record (`JSON.stringify` of the
two-field object literal is equal iff the records are equal). -/
def dedupSessions (seen : List Session) : List Session → List Session
  | [] => []
  | s :: rest =>
    if s ∈ seen then dedupSessions seen rest
    else s :: dedupSessions (s :: seen) rest

/-- `createObjects` (seed.ts), with the continuation counter exposed for
use by the orchestrator embedding. -/
def createObjectsRun (re : RandEnv) (traceVolume : Nat)
    (envTags colorTags : List (Option String)) (p1 p2 : Proj)
    (promptIds queueIds : String → List String)
    (configParams : String → List ConfigParam) (c : Ctr) : COOut × Ctr :=
  let (out, c) := createLoop re envTags colorTags p1 p2 promptIds queueIds configParams traceVolume 0 c
  ({ out with sessions := dedupSessions [] out.sessions }, c)

/-- `createObjects` as called once per seed run (streams start at 0). -/
def createObjects (re : RandEnv) (traceVolume : Nat)
    (envTags colorTags : List (Option String)) (p1 p2 : Proj)
    (promptIds queueIds : String → List String)
    (configParams : String → List ConfigParam) : COOut :=
  (createObjectsRun re traceVolume envTags colorTags p1 p2 promptIds queueIds configParams ⟨0, 0⟩).1

/-! ### Properties of generated scores (claim C2) -/

/-- What `createObjects` actually guarantees about how a score's
`dataType` governs `value` / `stringValue`:
* `NUMERIC` scores carry a numeric `value` and no `stringValue`;
* `BOOL` scores carry both the 0/1 `value` and the hardcoded
  `value === 1 ? "True" : "False"` string;
* `CATEGORICAL` scores are either the hardcoded `"Completeness"` API score
  (no config, no numeric value, string `"Fully"`/`"Partially"`) or an
  annotation score whose `stringValue` is the label found in its config's
  `categories` for the drawn `value`;
* any score with a `configId` points at a config of its own project and
  carries that config's `dataType`. -/
def scoreDataTypeOk (configParams : String → List ConfigParam) (s : ScoreObj) : Prop :=
  (s.dataType = some ScoreDataType.NUMERIC → s.value.isSome ∧ s.stringValue = none) ∧
  (s.dataType = some ScoreDataType.BOOL →
    ∃ v : Int, s.value = some (v : ℚ) ∧
      s.stringValue = some (if v = 1 then "True" else "False")) ∧
  (s.dataType = some ScoreDataType.CATEGORICAL →
    (s.configId = none ∧ s.name = "Completeness" ∧ s.value = none ∧
      (s.stringValue = some "Fully" ∨ s.stringValue = some "Partially")) ∨
    (∃ cp ∈ configParams s.projectId, s.configId = some cp.id ∧
      cp.dataType = ScoreDataType.CATEGORICAL ∧
      ∃ v : Int, s.value = some (v : ℚ) ∧
        s.stringValue = (((cp.categories.getD []).find?
          (fun cat => cat.value = v)).map (fun cat => cat.label)))) ∧
  (∀ cid, s.configId = some cid → ∃ cp ∈ configParams s.projectId,
    cp.id = cid ∧ s.dataType = some cp.dataType)

/-- Claim C2 as stated: the `dataType` decides which of `value` /
`stringValue` is populated, with every categorical/boolean `stringValue`
resolved through the score config's category label-value lookup. -/
def claimScoreViaConfig (configParams : String → List ConfigParam) (s : ScoreObj) : Prop :=
  (s.dataType = some ScoreDataType.NUMERIC → s.value.isSome ∧ s.stringValue = none) ∧
  ((s.dataType = some ScoreDataType.CATEGORICAL ∨ s.dataType = some ScoreDataType.BOOL) →
    ∃ cp ∈ configParams s.projectId, s.configId = some cp.id ∧
      ∃ v : Int, s.value = some (v : ℚ) ∧
        s.stringValue = (((cp.categories.getD []).find?
          (fun cat => cat.value = v)).map (fun cat => cat.label)))

/-! ### Concrete instances used by witnesses and counterexamples -/

/-- A concrete random environment: every `Math.random()` is 0, uuids are
`"a0", "a1", ...`. -/
def reA : RandEnv := ⟨fun _ => 0, fun n => "a" ++ toString n, fun _ => 0, 0⟩

/-- Same, with a disjoint uuid stream (a second, independent seed run). -/
def reB : RandEnv := ⟨fun _ => 0, fun n => "b" ++ toString n, fun _ => 0, 0⟩

def projA : Proj := ⟨"7a88fb47-b4e2-43b8-a06c-a5ce950dc53a", "llm-app", "seed-org-id"⟩

def projB : Proj := ⟨"239ad00f-562f-411d-af14-831c75ddd875", "demo-app", "demo-org-id"⟩

/-- The `envTags` list `main` passes to `createObjects`. -/
def envTagsMain : List (Option String) :=
  [none, some "development", some "staging", some "production"]

/-- The `colorTags` list `main` passes to `createObjects`. -/
def colorTagsMain : List (Option String) :=
  [none, some "red", some "blue", some "yellow"]

/-- A random environment with a provably injective uuid stream
(`uuid n` is the string of `n` repetitions of `a`). -/
def reInj : RandEnv := ⟨fun _ => 0, fun n => String.mk (List.replicate n 'a'), fun _ => 0, 0⟩

/-- A random environment whose tenth draw exceeds 0.9, so that iteration 0
of `createObjects` emits an annotation queue item. -/
def reQ : RandEnv :=
  ⟨fun n => if n = 9 then mkRat 19 20 else 0, fun n => "a" ++ toString n, fun _ => 0, 0⟩

def pIdsA : String → List String := fun _ => ["prompt-x", "prompt-y"]

def qIdsA : String → List String := fun _ => ["queue-x"]

def cfgEmpty : String → List ConfigParam := fun _ => []


/-! ### Row-level database model for the seed orchestrator (seed.ts `main`)

Prisma writes are modelled at row granularity: a `Row` is a table name, a
primary-key id, and `ukey`, the serialized value of the row's secondary
unique constraint (`""` when the table has none or the model does not need
it).  Non-key columns (names, hashed passwords/secret keys, prompt bodies,
JSON payloads) are not represented: the claims about `main` concern which
rows exist and which writes create/modify/fail, not payload contents.
`create` enforces the primary-key and unique constraints (a violation
aborts the run, as the uncaught Prisma error makes the script exit);
`update` rewrites of key columns are likewise constraint-checked.
Auto-generated (cuid) primary keys are modelled by a fresh counter stored
in the database value. -/

structure Row where
  table : String
  id : String
  ukey : String
deriving DecidableEq

structure DB where
  rows : List Row
  fresh : Nat
deriving DecidableEq

def emptyDB : DB := ⟨[], 0⟩

/-- Id of the `n`-th auto-generated primary key. -/
def autoId (n : Nat) : String := "auto-" ++ toString n

/-- Serialized two-part unique key. -/
def ukey2 (a b : String) : String := a ++ "|" ++ b

/-- Serialized three-part unique key. -/
def ukey3 (a b c : String) : String := a ++ "|" ++ b ++ "|" ++ c

/-- Prisma `where` for upserts: all given unique filters must match the
same row (extended where-unique semantics). -/
def rowMatches (t : String) (wId wUkey : Option String) (r : Row) : Bool :=
  r.table == t &&
    (match wId with | some i => r.id == i | none => true) &&
    (match wUkey with | some k => r.ukey == k | none => true)

/-- Constraint check for creating `(t, id, ukey)`. -/
def dbConflict (db : DB) (t id ukey : String) : Bool :=
  db.rows.any (fun r => r.table == t && (r.id == id || (ukey != "" && r.ukey == ukey)))

/-- `create` with a fixed id; `none` = constraint violation (the script
aborts). -/
def dbCreate (db : DB) (t id ukey : String) : Option DB :=
  if dbConflict db t id ukey then none
  else some ⟨db.rows ++ [⟨t, id, ukey⟩], db.fresh⟩

/-- `create` with an auto-generated id. -/
def dbCreateAuto (db : DB) (t ukey : String) : Option (DB × String) :=
  if db.rows.any (fun r => r.table == t && ukey != "" && r.ukey == ukey) then none
  else some (⟨db.rows ++ [⟨t, autoId db.fresh, ukey⟩], db.fresh + 1⟩, autoId db.fresh)

/-- `createMany` of `n` rows with auto ids and no secondary unique key
(used only for comments, annotation queue items and LLM schemas, whose
seeded columns carry no unique constraint). -/
def dbCreateMany (db : DB) (t : String) (n : Nat) : DB :=
  ⟨db.rows ++ (List.range n).map (fun k => ⟨t, autoId (db.fresh + k), ""⟩), db.fresh + n⟩

/-- Replace the first occurrence of `r` by `r'`. -/
def replaceRow : List Row → Row → Row → List Row
  | [], _, _ => []
  | x :: xs, r, r' => if x = r then r' :: xs else x :: replaceRow xs r r'

/-- Arguments of one Prisma `upsert` call, keys only. -/
structure UpsertArgs where
  table : String
  whereId : Option String := none
  whereUkey : Option String := none
  createId : Option String := none
  createUkey : String := ""
  updId : Option String := none
  updUkey : Option String := none

/-- `upsert`: find by the ANDed unique filters; on hit apply the update
(key rewrites constraint-checked), on miss create (constraint-checked).
Returns the row id the call yields. -/
def dbUpsert (db : DB) (a : UpsertArgs) : Option (DB × String) :=
  match db.rows.find? (rowMatches a.table a.whereId a.whereUkey) with
  | some r =>
    let newId := a.updId.getD r.id
    let newUkey := a.updUkey.getD r.ukey
    if (newUkey != r.ukey && newUkey != "" &&
        db.rows.any (fun r2 => r2 != r && r2.table == a.table && r2.ukey == newUkey)) ||
       (newId != r.id &&
        db.rows.any (fun r2 => r2 != r && r2.table == a.table && r2.id == newId)) then
      none
    else
      some (⟨replaceRow db.rows r { r with id := newId, ukey := newUkey }, db.fresh⟩, newId)
  | none =>
    match a.createId with
    | some id => (dbCreate db a.table id a.createUkey).map (fun db2 => (db2, id))
    | none => dbCreateAuto db a.table a.createUkey

/-- `findFirst` by a serialized key, returning the row id. -/
def dbFindIdByUkey (db : DB) (t ukey : String) : Option String :=
  (db.rows.find? (fun r => r.table == t && r.ukey == ukey)).map (fun r => r.id)

/-- `findUnique` by id, as a Boolean existence check. -/
def dbFindById (db : DB) (t id : String) : Bool :=
  db.rows.any (fun r => r.table == t && r.id == id)

/-! ### The seed monad: database state plus stream counters, with abort

`Except.error s` is a run that stopped on a constraint violation (the
script's `main().catch` path: it logs, disconnects and exits 1, keeping
every already-committed write). -/

structure SeedSt where
  db : DB
  c : Ctr
deriving DecidableEq

def SeedM (α : Type) : Type := SeedSt → Except SeedSt (SeedSt × α)

def seedPure {α : Type} (a : α) : SeedM α := fun s => Except.ok (s, a)

def seedBind {α β : Type} (m : SeedM α) (f : α → SeedM β) : SeedM β := fun s =>
  match m s with
  | Except.ok (s2, a) => f a s2
  | Except.error s2 => Except.error s2

instance : Monad SeedM where
  pure := seedPure
  bind := seedBind

def upsertM (a : UpsertArgs) : SeedM String := fun s =>
  match dbUpsert s.db a with
  | some (db2, rid) => Except.ok ({ s with db := db2 }, rid)
  | none => Except.error s

def createM (t id ukey : String) : SeedM String := fun s =>
  match dbCreate s.db t id ukey with
  | some db2 => Except.ok ({ s with db := db2 }, id)
  | none => Except.error s

def createAutoM (t ukey : String) : SeedM String := fun s =>
  match dbCreateAuto s.db t ukey with
  | some (db2, rid) => Except.ok ({ s with db := db2 }, rid)
  | none => Except.error s

def createManyM (t : String) (n : Nat) : SeedM Unit := fun s =>
  Except.ok ({ s with db := dbCreateMany s.db t n }, ())

def findByIdM (t id : String) : SeedM Bool := fun s =>
  Except.ok (s, dbFindById s.db t id)

def findIdByUkeyM (t ukey : String) : SeedM (Option String) := fun s =>
  Except.ok (s, dbFindIdByUkey s.db t ukey)

/-- Run a pure stream-consuming computation (uuid draws, `createObjects`). -/
def liftRand {α : Type} (f : Ctr → α × Ctr) : SeedM α := fun s =>
  Except.ok ({ s with c := (f s.c).2 }, (f s.c).1)

def drawUM (re : RandEnv) : SeedM String := liftRand (drawU re)

def drawM (re : RandEnv) : SeedM ℚ := liftRand (draw re)

/-! ### The seed orchestrator, phase by phase

Writes are listed in the source's sequential `await` order; the
`Promise.all` fan-outs over `[project1, project2]` are serialized
project1-first (the claims checked here do not depend on the relative
interleaving of the two projects' independent writes).  Payload-only
columns (names, prompts, hashed secrets, JSON configs) do not appear in
the row model; key columns do. -/

/-- `LOAD_TRACE_VOLUME` (seed.ts line 19). -/
def LOAD_TRACE_VOLUME : Nat := 10000

/-- `environment === "load" ? LOAD_TRACE_VOLUME : 100`. -/
def mainTraceVolume (env : String) : Nat :=
  if env == "load" then LOAD_TRACE_VOLUME else 100

/-- The `environment === "examples" || environment === "load"` guard. -/
def extendedEnv (env : String) : Bool :=
  env == "examples" || env == "load"

/-- The baseline block of `main` (before the environment guard): users,
seed org, project1, memberships, summary prompt, guarded API key. -/
def baselineSeed : SeedM Unit := do
  let _ ← upsertM
    { table := "users", whereId := some "user-1",
      createId := some "user-1", createUkey := "demo@langfuse.com",
      updUkey := some "demo@langfuse.com" }
  let _ ← upsertM
    { table := "users", whereId := some "user-2",
      createId := some "user-2", createUkey := "member@langfuse.com",
      updUkey := some "member@langfuse.com" }
  let _ ← upsertM
    { table := "organizations", whereId := some "seed-org-id",
      createId := some "seed-org-id" }
  let _ ← upsertM
    { table := "projects", whereId := some projA.id,
      createId := some projA.id }
  let _ ← upsertM
    { table := "organization_memberships",
      whereUkey := some (ukey2 "seed-org-id" "user-1"),
      createUkey := ukey2 "seed-org-id" "user-1" }
  let _ ← upsertM
    { table := "organization_memberships",
      whereUkey := some (ukey2 "seed-org-id" "user-2"),
      createUkey := ukey2 "seed-org-id" "user-2" }
  let _ ← upsertM
    { table := "project_memberships",
      whereUkey := some (ukey2 projA.id "user-2"),
      createUkey := ukey2 projA.id "user-2" }
  let _ ← upsertM
    { table := "prompts",
      whereUkey := some (ukey3 projA.id "summary-prompt" "1"),
      createUkey := ukey3 projA.id "summary-prompt" "1" }
  let ex ← findByIdM "api_keys" "seed-api-key"
  if ex then pure () else do
    let _ ← createM "api_keys" "seed-api-key" "pk-lf-1234567890"
    pure ()

/-- The three `scoreConfig.upsert` calls of `generateConfigs` (where
`id_projectId`; the update branch re-sets the same id). -/
def configsUpsertsM : List ConfigParam → SeedM Unit
  | [] => pure ()
  | cfg :: rest => do
    let _ ← upsertM
      { table := "score_configs", whereId := some cfg.id,
        createId := some cfg.id, updId := some cfg.id }
    configsUpsertsM rest

/-- `generateConfigs`: builds the 3-config array (consuming three `v4()`
draws in the array literal), upserts each, returns `configNameAndId`. -/
def generateConfigsM (re : RandEnv) (_p : Proj) : SeedM (List ConfigParam) := do
  let u1 ← drawUM re
  let u2 ← drawUM re
  let u3 ← drawUM re
  let cfgs : List ConfigParam :=
    [⟨"manual-score", "config-" ++ u1, ScoreDataType.NUMERIC, none⟩,
     ⟨"Accuracy", "config-" ++ u2, ScoreDataType.CATEGORICAL,
       some [⟨"Incorrect", 0⟩, ⟨"Partially Correct", 1⟩, ⟨"Correct", 2⟩]⟩,
     ⟨"Toxicity", "config-" ++ u3, ScoreDataType.BOOL,
       some [⟨"True", 1⟩, ⟨"False", 0⟩]⟩]
  configsUpsertsM cfgs
  pure cfgs

/-- `generateQueues`: one queue with a fresh uuid id, upserted on
`projectId_name = (projectId, "Default")`; the update branch rewrites the
id to the fresh one. -/
def generateQueuesM (re : RandEnv) (p : Proj) : SeedM (List String) := do
  let u ← drawUM re
  let _ ← upsertM
    { table := "annotation_queues",
      whereUkey := some (ukey2 p.id "Default"),
      createId := some ("queue-" ++ u), createUkey := ukey2 p.id "Default",
      updId := some ("queue-" ++ u) }
  pure ["queue-" ++ u]

/-- The key fields of a `SEED_PROMPTS` entry. -/
structure SeedPrompt where
  id : String
  name : String
  version : Nat

def SEED_PROMPTS : List SeedPrompt :=
  [⟨"prompt-123", "Prompt 1", 1⟩,
   ⟨"prompt-456", "Prompt 2", 1⟩,
   ⟨"prompt-789", "Prompt 3 by API", 1⟩,
   ⟨"prompt-abc", "Prompt 4", 1⟩,
   ⟨"folder-customer-prompt-1", "folder/customer/prompt-1", 1⟩,
   ⟨"folder-customer-prompt-2", "folder/customer/prompt-2", 1⟩,
   ⟨"folder-prompt-1", "folder/prompt-1", 1⟩]

/-- First loop of `generatePrompts`.  The `where` clause passes
`projectId: prompt.id + project.id` (the row id, not the project id) to
`projectId_name_version` alongside `id: prompt.id + project.id`, while
the create branch sets `projectId: project.id`; the upsert therefore
looks for the unique triple `(prompt.id + project.id, name, version)` but
creates a row carrying `(project.id, name, version)`. -/
def seedPromptsLoopM (p : Proj) : List SeedPrompt → SeedM (List String)
  | [] => pure []
  | sp :: rest => do
    let _ ← upsertM
      { table := "prompts",
        whereId := some (sp.id ++ p.id),
        whereUkey := some (ukey3 (sp.id ++ p.id) sp.name (toString sp.version)),
        createId := some (sp.id ++ p.id),
        createUkey := ukey3 p.id sp.name (toString sp.version) }
    let ids ← seedPromptsLoopM p rest
    pure (sp.id :: ids)

/-- Second loop of `generatePrompts` (`promptVersionsWithVariables`,
versions 1-3 of "Prompt 4 with variable and config", fresh uuid ids drawn
in the array literal before the loop). -/
def promptVersionsLoopM (p : Proj) : List (String × Nat) → SeedM (List String)
  | [] => pure []
  | (vid, ver) :: rest => do
    let _ ← upsertM
      { table := "prompts",
        whereId := some vid,
        whereUkey := some (ukey3 p.id "Prompt 4 with variable and config" (toString ver)),
        createId := some vid,
        createUkey := ukey3 p.id "Prompt 4 with variable and config" (toString ver),
        updId := some vid }
    let ids ← promptVersionsLoopM p rest
    pure (vid :: ids)

/-- Third loop of `generatePrompts` ("Prompt with many versions",
`i = 1..20`, a fresh uuid id per iteration). -/
def manyVersionsLoopM (re : RandEnv) (p : Proj) : Nat → Nat → SeedM (List String)
  | 0, _ => pure []
  | n + 1, i => do
    let u ← drawUM re
    let _ ← upsertM
      { table := "prompts",
        whereId := some ("prompt-" ++ u),
        whereUkey := some (ukey3 p.id "Prompt with many versions" (toString i)),
        createId := some ("prompt-" ++ u),
        createUkey := ukey3 p.id "Prompt with many versions" (toString i),
        updId := some ("prompt-" ++ u) }
    let ids ← manyVersionsLoopM re p n (i + 1)
    pure (("prompt-" ++ u) :: ids)

def generatePromptsM (re : RandEnv) (p : Proj) : SeedM (List String) := do
  let ids1 ← seedPromptsLoopM p SEED_PROMPTS
  let v1 ← drawUM re
  let v2 ← drawUM re
  let v3 ← drawUM re
  let ids2 ← promptVersionsLoopM p
    [("prompt-" ++ v1, 1), ("prompt-" ++ v2, 2), ("prompt-" ++ v3, 3)]
  let ids3 ← manyVersionsLoopM re p 20 1
  pure (ids1 ++ ids2 ++ ids3)

/-- `uploadObjects`' session upserts: `traceSession` has the composite
primary key `(id, projectId)`, serialized here into the row id. -/
def sessionsUploadM : List Session → SeedM Unit
  | [] => pure ()
  | s :: rest => do
    let _ ← upsertM
      { table := "trace_sessions",
        whereId := some (ukey2 s.id s.projectId),
        createId := some (ukey2 s.id s.projectId) }
    sessionsUploadM rest

/-- `uploadObjects`: session upserts, then unguarded `createMany` for
comments and annotation queue items (chunking only batches the writes). -/
def uploadObjectsM (sessions : List Session) (comments : List CommentObj)
    (queueItems : List QueueItemObj) : SeedM Unit := do
  sessionsUploadM sessions
  createManyM "comments" comments.length
  createManyM "annotation_queue_items" queueItems.length

/-- One `datasetItem.create` probe of `createDatasets`'s `i < 18` loop:
`Math.random() > 0.3` picks a source observation (second draw indexes
`observations`); absent one, `continue`; otherwise four more draws build
the optional payload fields and the item row is created (auto id). -/
def datasetItemsLoopM (re : RandEnv) (obs : List Obs) : Nat → SeedM (List String)
  | 0 => pure []
  | n + 1 => do
    let r1 ← drawM re
    let srcObs ←
      if mkRat 3 10 < r1 then do
        let rIdx ← drawM re
        pure (jsGet obs (jsFloor (qMul rIdx (obs.length : ℚ))))
      else pure (none : Option Obs)
    match srcObs with
    | none => datasetItemsLoopM re obs n
    | some _ => do
      let _ ← drawM re
      let _ ← drawM re
      let _ ← drawM re
      let _ ← drawM re
      let itemId ← createAutoM "dataset_items" ""
      let ids ← datasetItemsLoopM re obs n
      pure (itemId :: ids)

/-- The `for (const datasetItemId of datasetItemIds)` loop of one dataset
run: an index draw over the project's observations, `continue` when it
misses, otherwise an `observationId` draw and a `datasetRunItems.create`
(auto id). -/
def runItemsLoopM (re : RandEnv) (obs : List Obs) (pid : String) :
    List String → SeedM Unit
  | [] => pure ()
  | _ :: rest => do
    let relevant := obs.filter (fun o => o.projectId == pid)
    let rIdx ← drawM re
    match jsGet relevant (jsFloor (qMul rIdx (relevant.length : ℚ))) with
    | none => runItemsLoopM re obs pid rest
    | some _ => do
      let _ ← drawM re
      let _ ← createAutoM "dataset_run_items" ""
      runItemsLoopM re obs pid rest

/-- The `datasetRunNumber < 5` loop: a description draw in the create
argument, the `datasetRuns` upsert on `datasetId_projectId_name` (auto
id), then the run items. -/
def datasetRunsLoopM (re : RandEnv) (obs : List Obs) (pid datasetId : String)
    (itemIds : List String) : Nat → Nat → SeedM Unit
  | 0, _ => pure ()
  | n + 1, rn => do
    let _ ← drawM re
    let _ ← upsertM
      { table := "dataset_runs",
        whereUkey := some (ukey3 datasetId pid ("demo-dataset-run-" ++ toString rn)),
        createUkey := ukey3 datasetId pid ("demo-dataset-run-" ++ toString rn) }
    runItemsLoopM re obs pid itemIds
    datasetRunsLoopM re obs pid datasetId itemIds n (rn + 1)

/-- One `(datasetNumber, projectId)` body of `createDatasets`:
find-or-create the dataset by `(projectId, name)`, create items, then the
five runs. -/
def datasetOneM (re : RandEnv) (obs : List Obs) (dn : Nat) (pid : String) :
    SeedM Unit := do
  let found ← findIdByUkeyM "datasets" (ukey2 pid ("demo-dataset-" ++ toString dn))
  let dsId ←
    match found with
    | some i => pure i
    | none => createAutoM "datasets" (ukey2 pid ("demo-dataset-" ++ toString dn))
  let itemIds ← datasetItemsLoopM re obs 18
  datasetRunsLoopM re obs pid dsId itemIds 5 0

/-- `createDatasets`: `datasetNumber` 0-1 outer, `[project1, project2]`
inner. -/
def createDatasetsM (re : RandEnv) (p1 p2 : Proj) (obs : List Obs) :
    SeedM Unit := do
  datasetOneM re obs 0 p1.id
  datasetOneM re obs 0 p2.id
  datasetOneM re obs 1 p1.id
  datasetOneM re obs 1 p2.id

/-- One project's body of `createDashboardsAndWidgets`: the two widget
upserts with fixed ids "cabc"/"cdef", then the dashboard upsert with fixed
id "seed-dashboard" whose create argument consumes two `randomUUID()`
draws (drawn whether or not the row exists). -/
def dashboardsOneM (re : RandEnv) : SeedM Unit := do
  let _ ← upsertM
    { table := "dashboard_widgets", whereId := some "cabc",
      createId := some "cabc" }
  let _ ← upsertM
    { table := "dashboard_widgets", whereId := some "cdef",
      createId := some "cdef" }
  let _ ← drawUM re
  let _ ← drawUM re
  let _ ← upsertM
    { table := "dashboards", whereId := some "seed-dashboard",
      createId := some "seed-dashboard" }
  pure ()

def createDashboardsM (re : RandEnv) : List Proj → SeedM Unit
  | [] => pure ()
  | _ :: rest => do
    dashboardsOneM re
    createDashboardsM re rest

/-- The tail of the examples/load block after `uploadObjects`: LLM API
key (if the environment has one), eval template, job configuration,
datasets (over the generated observations), dashboards and LLM schemas. -/
def examplesTail (re : RandEnv) (hasOpenAIKey : Bool) (obs : List Obs) :
    SeedM Unit := do
  if hasOpenAIKey then do
    let _ ← createAutoM "llm_api_keys" ""
    pure ()
  else pure ()
  let _ ← upsertM
    { table := "eval_templates",
      whereUkey := some (ukey3 projA.id "toxicity-template" "1"),
      createUkey := ukey3 projA.id "toxicity-template" "1" }
  let _ ← upsertM
    { table := "job_configurations", whereId := some "toxicity-job",
      createId := some "toxicity-job" }
  createDatasetsM re projA projB obs
  createDashboardsM re [projA, projB]
  createManyM "llm_schemas" 2

/-- The opening writes of the examples/load block: demo org, project2,
membership, guarded second API key. -/
def examplesPrefix : SeedM Unit := do
  let _ ← upsertM
    { table := "organizations", whereId := some "demo-org-id",
      createId := some "demo-org-id" }
  let _ ← upsertM
    { table := "projects", whereId := some projB.id,
      createId := some projB.id }
  let _ ← upsertM
    { table := "organization_memberships",
      whereUkey := some (ukey2 "demo-org-id" "user-1"),
      createUkey := ukey2 "demo-org-id" "user-1" }
  let ex2 ← findByIdM "api_keys" "seed-api-key-2"
  if ex2 then pure () else do
    let _ ← createM "api_keys" "seed-api-key-2" "pk-lf-asdfghjkl"
    pure ()

/-- The `environment === "examples" || environment === "load"` block of
`main`. -/
def examplesSeed (re : RandEnv) (env : String) (hasOpenAIKey : Bool) :
    SeedM Unit := do
  examplesPrefix
  let cfg1 ← generateConfigsM re projA
  let cfg2 ← generateConfigsM re projB
  let configParams : String → List ConfigParam := fun pid =>
    if pid = projA.id then cfg1 else if pid = projB.id then cfg2 else []
  let q1 ← generateQueuesM re projA
  let q2 ← generateQueuesM re projB
  let queueIds : String → List String := fun pid =>
    if pid = projA.id then q1 else if pid = projB.id then q2 else []
  let pr1 ← generatePromptsM re projA
  let pr2 ← generatePromptsM re projB
  let promptIds : String → List String := fun pid =>
    if pid = projA.id then pr1 else if pid = projB.id then pr2 else []
  let out ← liftRand (createObjectsRun re (mainTraceVolume env) envTagsMain
    colorTagsMain projA projB promptIds queueIds configParams)
  uploadObjectsM out.sessions out.comments out.queueItems
  examplesTail re hasOpenAIKey out.observations

/-- `examplesSeed` with the trace generation and its uploads cut out and
the datasets fed no observations: for random environments whose
`Math.random()` stream is constantly 0, this touches the same rows as
`examplesSeed` (proved below), while staying cheap to evaluate. -/
def examplesLite (re : RandEnv) (_env : String) (hasOpenAIKey : Bool) :
    SeedM Unit := do
  examplesPrefix
  let _cfg1 ← generateConfigsM re projA
  let _cfg2 ← generateConfigsM re projB
  let _q1 ← generateQueuesM re projA
  let _q2 ← generateQueuesM re projB
  let _pr1 ← generatePromptsM re projA
  let _pr2 ← generatePromptsM re projB
  examplesTail re hasOpenAIKey []

/-- `main`: baseline writes, then the guarded examples/load block. -/
def seedMain (env : String) (re : RandEnv) (hasOpenAIKey : Bool) : SeedM Unit := do
  baselineSeed
  if extendedEnv env then examplesSeed re env hasOpenAIKey else pure ()

/-- `seedMain` with `examplesSeed` replaced by `examplesLite`. -/
def seedMainLite (env : String) (re : RandEnv) (hasOpenAIKey : Bool) : SeedM Unit := do
  baselineSeed
  if extendedEnv env then examplesLite re env hasOpenAIKey else pure ()

/-- The observable outcome of a run: final database plus completion flag
(false = aborted on a constraint violation, keeping the rows written so
far). -/
def dbOf {α : Type} : Except SeedSt (SeedSt × α) → DB × Bool
  | Except.ok (s, _) => (s.db, true)
  | Except.error s => (s.db, false)

/-- One invocation of the seed script against database `db`. -/
def mainRun (env : String) (re : RandEnv) (hasOpenAIKey : Bool) (db : DB) :
    DB × Bool :=
  dbOf (seedMain env re hasOpenAIKey ⟨db, ⟨0, 0⟩⟩)

/-- The baseline block alone, as a database transformer. -/
def baselineRun (db : DB) : DB × Bool :=
  dbOf (baselineSeed ⟨db, ⟨0, 0⟩⟩)

/-- A sequence of seed-script invocations starting from `db`. -/
def runSeeds : List (String × RandEnv × Bool) → DB → DB
  | [], db => db
  | (env, re, hk) :: rest, db => runSeeds rest (mainRun env re hk db).1

/-- Outcome simulation: same abort behaviour, same database, same value
(the stream counters may differ). -/
def OutSim {α : Type} : Except SeedSt (SeedSt × α) → Except SeedSt (SeedSt × α) → Prop
  | Except.ok (s1, a1), Except.ok (s2, a2) => s1.db = s2.db ∧ a1 = a2
  | Except.error s1, Except.error s2 => s1.db = s2.db
  | _, _ => False

/-- A computation simulates itself across counter changes: started on equal
databases (any counters), it yields `OutSim`-related outcomes. -/
def SimM {α : Type} (m1 m2 : SeedM α) : Prop :=
  ∀ s1 s2, s1.db = s2.db → OutSim (m1 s1) (m2 s2)

def stS1 : SeedSt :=
  ⟨⟨[⟨"users", "user-1", "demo@langfuse.com"⟩,
    ⟨"users", "user-2", "member@langfuse.com"⟩,
    ⟨"organizations", "seed-org-id", ""⟩,
    ⟨"projects", "7a88fb47-b4e2-43b8-a06c-a5ce950dc53a", ""⟩,
    ⟨"organization_memberships", "auto-0", "seed-org-id|user-1"⟩,
    ⟨"organization_memberships", "auto-1", "seed-org-id|user-2"⟩,
    ⟨"project_memberships", "auto-2", "7a88fb47-b4e2-43b8-a06c-a5ce950dc53a|user-2"⟩,
    ⟨"prompts", "auto-3", "7a88fb47-b4e2-43b8-a06c-a5ce950dc53a|summary-prompt|1"⟩,
    ⟨"api_keys", "seed-api-key", "pk-lf-1234567890"⟩], 4⟩, ⟨0, 0⟩⟩

def stS2 : SeedSt :=
  ⟨⟨[⟨"users", "user-1", "demo@langfuse.com"⟩,
    ⟨"users", "user-2", "member@langfuse.com"⟩,
    ⟨"organizations", "seed-org-id", ""⟩,
    ⟨"projects", "7a88fb47-b4e2-43b8-a06c-a5ce950dc53a", ""⟩,
    ⟨"organization_memberships", "auto-0", "seed-org-id|user-1"⟩,
    ⟨"organization_memberships", "auto-1", "seed-org-id|user-2"⟩,
    ⟨"project_memberships", "auto-2", "7a88fb47-b4e2-43b8-a06c-a5ce950dc53a|user-2"⟩,
    ⟨"prompts", "auto-3", "7a88fb47-b4e2-43b8-a06c-a5ce950dc53a|summary-prompt|1"⟩,
    ⟨"api_keys", "seed-api-key", "pk-lf-1234567890"⟩,
    ⟨"organizations", "demo-org-id", ""⟩,
    ⟨"projects", "239ad00f-562f-411d-af14-831c75ddd875", ""⟩,
    ⟨"organization_memberships", "auto-4", "demo-org-id|user-1"⟩,
    ⟨"api_keys", "seed-api-key-2", "pk-lf-asdfghjkl"⟩], 5⟩, ⟨0, 0⟩⟩

def stS3 : SeedSt :=
  ⟨⟨[⟨"users", "user-1", "demo@langfuse.com"⟩,
    ⟨"users", "user-2", "member@langfuse.com"⟩,
    ⟨"organizations", "seed-org-id", ""⟩,
    ⟨"projects", "7a88fb47-b4e2-43b8-a06c-a5ce950dc53a", ""⟩,
    ⟨"organization_memberships", "auto-0", "seed-org-id|user-1"⟩,
    ⟨"organization_memberships", "auto-1", "seed-org-id|user-2"⟩,
    ⟨"project_memberships", "auto-2", "7a88fb47-b4e2-43b8-a06c-a5ce950dc53a|user-2"⟩,
    ⟨"prompts", "auto-3", "7a88fb47-b4e2-43b8-a06c-a5ce950dc53a|summary-prompt|1"⟩,
    ⟨"api_keys", "seed-api-key", "pk-lf-1234567890"⟩,
    ⟨"organizations", "demo-org-id", ""⟩,
    ⟨"projects", "239ad00f-562f-411d-af14-831c75ddd875", ""⟩,
    ⟨"organization_memberships", "auto-4", "demo-org-id|user-1"⟩,
    ⟨"api_keys", "seed-api-key-2", "pk-lf-asdfghjkl"⟩,
    ⟨"score_configs", "config-a0", ""⟩,
    ⟨"score_configs", "config-a1", ""⟩,
    ⟨"score_configs", "config-a2", ""⟩], 5⟩, ⟨0, 3⟩⟩

def stS4 : SeedSt :=
  ⟨⟨[⟨"users", "user-1", "demo@langfuse.com"⟩,
    ⟨"users", "user-2", "member@langfuse.com"⟩,
    ⟨"organizations", "seed-org-id", ""⟩,
    ⟨"projects", "7a88fb47-b4e2-43b8-a06c-a5ce950dc53a", ""⟩,
    ⟨"organization_memberships", "auto-0", "seed-org-id|user-1"⟩,
    ⟨"organization_memberships", "auto-1", "seed-org-id|user-2"⟩,
    ⟨"project_memberships", "auto-2", "7a88fb47-b4e2-43b8-a06c-a5ce950dc53a|user-2"⟩,
    ⟨"prompts", "auto-3", "7a88fb47-b4e2-43b8-a06c-a5ce950dc53a|summary-prompt|1"⟩,
    ⟨"api_keys", "seed-api-key", "pk-lf-1234567890"⟩,
    ⟨"organizations", "demo-org-id", ""⟩,
    ⟨"projects", "239ad00f-562f-411d-af14-831c75ddd875", ""⟩,
    ⟨"organization_memberships", "auto-4", "demo-org-id|user-1"⟩,
    ⟨"api_keys", "seed-api-key-2", "pk-lf-asdfghjkl"⟩,
    ⟨"score_configs", "config-a0", ""⟩,
    ⟨"score_configs", "config-a1", ""⟩,
    ⟨"score_configs", "config-a2", ""⟩,
    ⟨"score_configs", "config-a3", ""⟩,
    ⟨"score_configs", "config-a4", ""⟩,
    ⟨"score_configs", "config-a5", ""⟩], 5⟩, ⟨0, 6⟩⟩

def stS5 : SeedSt :=
  ⟨⟨[⟨"users", "user-1", "demo@langfuse.com"⟩,
    ⟨"users", "user-2", "member@langfuse.com"⟩,
    ⟨"organizations", "seed-org-id", ""⟩,
    ⟨"projects", "7a88fb47-b4e2-43b8-a06c-a5ce950dc53a", ""⟩,
    ⟨"organization_memberships", "auto-0", "seed-org-id|user-1"⟩,
    ⟨"organization_memberships", "auto-1", "seed-org-id|user-2"⟩,
    ⟨"project_memberships", "auto-2", "7a88fb47-b4e2-43b8-a06c-a5ce950dc53a|user-2"⟩,
    ⟨"prompts", "auto-3", "7a88fb47-b4e2-43b8-a06c-a5ce950dc53a|summary-prompt|1"⟩,
    ⟨"api_keys", "seed-api-key", "pk-lf-1234567890"⟩,
    ⟨"organizations", "demo-org-id", ""⟩,
    ⟨"projects", "239ad00f-562f-411d-af14-831c75ddd875", ""⟩,
    ⟨"organization_memberships", "auto-4", "demo-org-id|user-1"⟩,
    ⟨"api_keys", "seed-api-key-2", "pk-lf-asdfghjkl"⟩,
    ⟨"score_configs", "config-a0", ""⟩,
    ⟨"score_configs", "config-a1", ""⟩,
    ⟨"score_configs", "config-a2", ""⟩,
    ⟨"score_configs", "config-a3", ""⟩,
    ⟨"score_configs", "config-a4", ""⟩,
    ⟨"score_configs", "config-a5", ""⟩,
    ⟨"annotation_queues", "queue-a6", "7a88fb47-b4e2-43b8-a06c-a5ce950dc53a|Default"⟩], 5⟩, ⟨0, 7⟩⟩

def stS6 : SeedSt :=
  ⟨⟨[⟨"users", "user-1", "demo@langfuse.com"⟩,
    ⟨"users", "user-2", "member@langfuse.com"⟩,
    ⟨"organizations", "seed-org-id", ""⟩,
    ⟨"projects", "7a88fb47-b4e2-43b8-a06c-a5ce950dc53a", ""⟩,
    ⟨"organization_memberships", "auto-0", "seed-org-id|user-1"⟩,
    ⟨"organization_memberships", "auto-1", "seed-org-id|user-2"⟩,
    ⟨"project_memberships", "auto-2", "7a88fb47-b4e2-43b8-a06c-a5ce950dc53a|user-2"⟩,
    ⟨"prompts", "auto-3", "7a88fb47-b4e2-43b8-a06c-a5ce950dc53a|summary-prompt|1"⟩,
    ⟨"api_keys", "seed-api-key", "pk-lf-1234567890"⟩,
    ⟨"organizations", "demo-org-id", ""⟩,
    ⟨"projects", "239ad00f-562f-411d-af14-831c75ddd875", ""⟩,
    ⟨"organization_memberships", "auto-4", "demo-org-id|user-1"⟩,
    ⟨"api_keys", "seed-api-key-2", "pk-lf-asdfghjkl"⟩,
    ⟨"score_configs", "config-a0", ""⟩,
    ⟨"score_configs", "config-a1", ""⟩,
    ⟨"score_configs", "config-a2", ""⟩,
    ⟨"score_configs", "config-a3", ""⟩,
    ⟨"score_configs", "config-a4", ""⟩,
    ⟨"score_configs", "config-a5", ""⟩,
    ⟨"annotation_queues", "queue-a6", "7a88fb47-b4e2-43b8-a06c-a5ce950dc53a|Default"⟩,
    ⟨"annotation_queues", "queue-a7", "239ad00f-562f-411d-af14-831c75ddd875|Default"⟩], 5⟩, ⟨0, 8⟩⟩

def cfgLitA : List ConfigParam :=
  [⟨"manual-score", "config-a0", ScoreDataType.NUMERIC, none⟩,
   ⟨"Accuracy", "config-a1", ScoreDataType.CATEGORICAL,
     some [⟨"Incorrect", 0⟩, ⟨"Partially Correct", 1⟩, ⟨"Correct", 2⟩]⟩,
   ⟨"Toxicity", "config-a2", ScoreDataType.BOOL,
     some [⟨"True", 1⟩, ⟨"False", 0⟩]⟩]

def cfgLitB : List ConfigParam :=
  [⟨"manual-score", "config-a3", ScoreDataType.NUMERIC, none⟩,
   ⟨"Accuracy", "config-a4", ScoreDataType.CATEGORICAL,
     some [⟨"Incorrect", 0⟩, ⟨"Partially Correct", 1⟩, ⟨"Correct", 2⟩]⟩,
   ⟨"Toxicity", "config-a5", ScoreDataType.BOOL,
     some [⟨"True", 1⟩, ⟨"False", 0⟩]⟩]

def stPA1 : SeedSt := ⟨⟨stS6.db.rows ++ [⟨"prompts", "prompt-1237a88fb47-b4e2-43b8-a06c-a5ce950dc53a", "7a88fb47-b4e2-43b8-a06c-a5ce950dc53a|Prompt 1|1"⟩], 5⟩, ⟨0, 8⟩⟩

def stPA2 : SeedSt := ⟨⟨stPA1.db.rows ++ [⟨"prompts", "prompt-4567a88fb47-b4e2-43b8-a06c-a5ce950dc53a", "7a88fb47-b4e2-43b8-a06c-a5ce950dc53a|Prompt 2|1"⟩], 5⟩, ⟨0, 8⟩⟩

def stPA3 : SeedSt := ⟨⟨stPA2.db.rows ++ [⟨"prompts", "prompt-7897a88fb47-b4e2-43b8-a06c-a5ce950dc53a", "7a88fb47-b4e2-43b8-a06c-a5ce950dc53a|Prompt 3 by API|1"⟩], 5⟩, ⟨0, 8⟩⟩

def stPA4 : SeedSt := ⟨⟨stPA3.db.rows ++ [⟨"prompts", "prompt-abc7a88fb47-b4e2-43b8-a06c-a5ce950dc53a", "7a88fb47-b4e2-43b8-a06c-a5ce950dc53a|Prompt 4|1"⟩], 5⟩, ⟨0, 8⟩⟩

def stPA5 : SeedSt := ⟨⟨stPA4.db.rows ++ [⟨"prompts", "folder-customer-prompt-17a88fb47-b4e2-43b8-a06c-a5ce950dc53a", "7a88fb47-b4e2-43b8-a06c-a5ce950dc53a|folder/customer/prompt-1|1"⟩], 5⟩, ⟨0, 8⟩⟩

def stPA6 : SeedSt := ⟨⟨stPA5.db.rows ++ [⟨"prompts", "folder-customer-prompt-27a88fb47-b4e2-43b8-a06c-a5ce950dc53a", "7a88fb47-b4e2-43b8-a06c-a5ce950dc53a|folder/customer/prompt-2|1"⟩], 5⟩, ⟨0, 8⟩⟩

def stPA7 : SeedSt := ⟨⟨stPA6.db.rows ++ [⟨"prompts", "folder-prompt-17a88fb47-b4e2-43b8-a06c-a5ce950dc53a", "7a88fb47-b4e2-43b8-a06c-a5ce950dc53a|folder/prompt-1|1"⟩], 5⟩, ⟨0, 8⟩⟩

def stPDA1 : SeedSt := ⟨stPA7.db, ⟨0, 9⟩⟩

def stPDA2 : SeedSt := ⟨stPDA1.db, ⟨0, 10⟩⟩

def stPDA3 : SeedSt := ⟨stPDA2.db, ⟨0, 11⟩⟩

def stVA1 : SeedSt := ⟨⟨stPDA3.db.rows ++ [⟨"prompts", "prompt-a8", "7a88fb47-b4e2-43b8-a06c-a5ce950dc53a|Prompt 4 with variable and config|1"⟩], 5⟩, ⟨0, 11⟩⟩

def stVA2 : SeedSt := ⟨⟨stVA1.db.rows ++ [⟨"prompts", "prompt-a9", "7a88fb47-b4e2-43b8-a06c-a5ce950dc53a|Prompt 4 with variable and config|2"⟩], 5⟩, ⟨0, 11⟩⟩

def stVA3 : SeedSt := ⟨⟨stVA2.db.rows ++ [⟨"prompts", "prompt-a10", "7a88fb47-b4e2-43b8-a06c-a5ce950dc53a|Prompt 4 with variable and config|3"⟩], 5⟩, ⟨0, 11⟩⟩

def stMA1 : SeedSt := ⟨⟨stVA3.db.rows ++ [⟨"prompts", "prompt-a11", "7a88fb47-b4e2-43b8-a06c-a5ce950dc53a|Prompt with many versions|1"⟩], 5⟩, ⟨0, 12⟩⟩

def stMA2 : SeedSt := ⟨⟨stMA1.db.rows ++ [⟨"prompts", "prompt-a12", "7a88fb47-b4e2-43b8-a06c-a5ce950dc53a|Prompt with many versions|2"⟩], 5⟩, ⟨0, 13⟩⟩

def stMA3 : SeedSt := ⟨⟨stMA2.db.rows ++ [⟨"prompts", "prompt-a13", "7a88fb47-b4e2-43b8-a06c-a5ce950dc53a|Prompt with many versions|3"⟩], 5⟩, ⟨0, 14⟩⟩

def stMA4 : SeedSt := ⟨⟨stMA3.db.rows ++ [⟨"prompts", "prompt-a14", "7a88fb47-b4e2-43b8-a06c-a5ce950dc53a|Prompt with many versions|4"⟩], 5⟩, ⟨0, 15⟩⟩

def stMA5 : SeedSt := ⟨⟨stMA4.db.rows ++ [⟨"prompts", "prompt-a15", "7a88fb47-b4e2-43b8-a06c-a5ce950dc53a|Prompt with many versions|5"⟩], 5⟩, ⟨0, 16⟩⟩

def stMA6 : SeedSt := ⟨⟨stMA5.db.rows ++ [⟨"prompts", "prompt-a16", "7a88fb47-b4e2-43b8-a06c-a5ce950dc53a|Prompt with many versions|6"⟩], 5⟩, ⟨0, 17⟩⟩

def stMA7 : SeedSt := ⟨⟨stMA6.db.rows ++ [⟨"prompts", "prompt-a17", "7a88fb47-b4e2-43b8-a06c-a5ce950dc53a|Prompt with many versions|7"⟩], 5⟩, ⟨0, 18⟩⟩

def stMA8 : SeedSt := ⟨⟨stMA7.db.rows ++ [⟨"prompts", "prompt-a18", "7a88fb47-b4e2-43b8-a06c-a5ce950dc53a|Prompt with many versions|8"⟩], 5⟩, ⟨0, 19⟩⟩

def stMA9 : SeedSt := ⟨⟨stMA8.db.rows ++ [⟨"prompts", "prompt-a19", "7a88fb47-b4e2-43b8-a06c-a5ce950dc53a|Prompt with many versions|9"⟩], 5⟩, ⟨0, 20⟩⟩

def stMA10 : SeedSt := ⟨⟨stMA9.db.rows ++ [⟨"prompts", "prompt-a20", "7a88fb47-b4e2-43b8-a06c-a5ce950dc53a|Prompt with many versions|10"⟩], 5⟩, ⟨0, 21⟩⟩

def stMA11 : SeedSt := ⟨⟨stMA10.db.rows ++ [⟨"prompts", "prompt-a21", "7a88fb47-b4e2-43b8-a06c-a5ce950dc53a|Prompt with many versions|11"⟩], 5⟩, ⟨0, 22⟩⟩

def stMA12 : SeedSt := ⟨⟨stMA11.db.rows ++ [⟨"prompts", "prompt-a22", "7a88fb47-b4e2-43b8-a06c-a5ce950dc53a|Prompt with many versions|12"⟩], 5⟩, ⟨0, 23⟩⟩

def stMA13 : SeedSt := ⟨⟨stMA12.db.rows ++ [⟨"prompts", "prompt-a23", "7a88fb47-b4e2-43b8-a06c-a5ce950dc53a|Prompt with many versions|13"⟩], 5⟩, ⟨0, 24⟩⟩

def stMA14 : SeedSt := ⟨⟨stMA13.db.rows ++ [⟨"prompts", "prompt-a24", "7a88fb47-b4e2-43b8-a06c-a5ce950dc53a|Prompt with many versions|14"⟩], 5⟩, ⟨0, 25⟩⟩

def stMA15 : SeedSt := ⟨⟨stMA14.db.rows ++ [⟨"prompts", "prompt-a25", "7a88fb47-b4e2-43b8-a06c-a5ce950dc53a|Prompt with many versions|15"⟩], 5⟩, ⟨0, 26⟩⟩

def stMA16 : SeedSt := ⟨⟨stMA15.db.rows ++ [⟨"prompts", "prompt-a26", "7a88fb47-b4e2-43b8-a06c-a5ce950dc53a|Prompt with many versions|16"⟩], 5⟩, ⟨0, 27⟩⟩

def stMA17 : SeedSt := ⟨⟨stMA16.db.rows ++ [⟨"prompts", "prompt-a27", "7a88fb47-b4e2-43b8-a06c-a5ce950dc53a|Prompt with many versions|17"⟩], 5⟩, ⟨0, 28⟩⟩

def stMA18 : SeedSt := ⟨⟨stMA17.db.rows ++ [⟨"prompts", "prompt-a28", "7a88fb47-b4e2-43b8-a06c-a5ce950dc53a|Prompt with many versions|18"⟩], 5⟩, ⟨0, 29⟩⟩

def stMA19 : SeedSt := ⟨⟨stMA18.db.rows ++ [⟨"prompts", "prompt-a29", "7a88fb47-b4e2-43b8-a06c-a5ce950dc53a|Prompt with many versions|19"⟩], 5⟩, ⟨0, 30⟩⟩

def stMA20 : SeedSt := ⟨⟨stMA19.db.rows ++ [⟨"prompts", "prompt-a30", "7a88fb47-b4e2-43b8-a06c-a5ce950dc53a|Prompt with many versions|20"⟩], 5⟩, ⟨0, 31⟩⟩

def stPB1 : SeedSt := ⟨⟨stMA20.db.rows ++ [⟨"prompts", "prompt-123239ad00f-562f-411d-af14-831c75ddd875", "239ad00f-562f-411d-af14-831c75ddd875|Prompt 1|1"⟩], 5⟩, ⟨0, 31⟩⟩

def stPB2 : SeedSt := ⟨⟨stPB1.db.rows ++ [⟨"prompts", "prompt-456239ad00f-562f-411d-af14-831c75ddd875", "239ad00f-562f-411d-af14-831c75ddd875|Prompt 2|1"⟩], 5⟩, ⟨0, 31⟩⟩

def stPB3 : SeedSt := ⟨⟨stPB2.db.rows ++ [⟨"prompts", "prompt-789239ad00f-562f-411d-af14-831c75ddd875", "239ad00f-562f-411d-af14-831c75ddd875|Prompt 3 by API|1"⟩], 5⟩, ⟨0, 31⟩⟩

def stPB4 : SeedSt := ⟨⟨stPB3.db.rows ++ [⟨"prompts", "prompt-abc239ad00f-562f-411d-af14-831c75ddd875", "239ad00f-562f-411d-af14-831c75ddd875|Prompt 4|1"⟩], 5⟩, ⟨0, 31⟩⟩

def stPB5 : SeedSt := ⟨⟨stPB4.db.rows ++ [⟨"prompts", "folder-customer-prompt-1239ad00f-562f-411d-af14-831c75ddd875", "239ad00f-562f-411d-af14-831c75ddd875|folder/customer/prompt-1|1"⟩], 5⟩, ⟨0, 31⟩⟩

def stPB6 : SeedSt := ⟨⟨stPB5.db.rows ++ [⟨"prompts", "folder-customer-prompt-2239ad00f-562f-411d-af14-831c75ddd875", "239ad00f-562f-411d-af14-831c75ddd875|folder/customer/prompt-2|1"⟩], 5⟩, ⟨0, 31⟩⟩

def stPB7 : SeedSt := ⟨⟨stPB6.db.rows ++ [⟨"prompts", "folder-prompt-1239ad00f-562f-411d-af14-831c75ddd875", "239ad00f-562f-411d-af14-831c75ddd875|folder/prompt-1|1"⟩], 5⟩, ⟨0, 31⟩⟩

def stPDB1 : SeedSt := ⟨stPB7.db, ⟨0, 32⟩⟩

def stPDB2 : SeedSt := ⟨stPDB1.db, ⟨0, 33⟩⟩

def stPDB3 : SeedSt := ⟨stPDB2.db, ⟨0, 34⟩⟩

def stVB1 : SeedSt := ⟨⟨stPDB3.db.rows ++ [⟨"prompts", "prompt-a31", "239ad00f-562f-411d-af14-831c75ddd875|Prompt 4 with variable and config|1"⟩], 5⟩, ⟨0, 34⟩⟩

def stVB2 : SeedSt := ⟨⟨stVB1.db.rows ++ [⟨"prompts", "prompt-a32", "239ad00f-562f-411d-af14-831c75ddd875|Prompt 4 with variable and config|2"⟩], 5⟩, ⟨0, 34⟩⟩

def stVB3 : SeedSt := ⟨⟨stVB2.db.rows ++ [⟨"prompts", "prompt-a33", "239ad00f-562f-411d-af14-831c75ddd875|Prompt 4 with variable and config|3"⟩], 5⟩, ⟨0, 34⟩⟩

def stMB1 : SeedSt := ⟨⟨stVB3.db.rows ++ [⟨"prompts", "prompt-a34", "239ad00f-562f-411d-af14-831c75ddd875|Prompt with many versions|1"⟩], 5⟩, ⟨0, 35⟩⟩

def stMB2 : SeedSt := ⟨⟨stMB1.db.rows ++ [⟨"prompts", "prompt-a35", "239ad00f-562f-411d-af14-831c75ddd875|Prompt with many versions|2"⟩], 5⟩, ⟨0, 36⟩⟩

def stMB3 : SeedSt := ⟨⟨stMB2.db.rows ++ [⟨"prompts", "prompt-a36", "239ad00f-562f-411d-af14-831c75ddd875|Prompt with many versions|3"⟩], 5⟩, ⟨0, 37⟩⟩

def stMB4 : SeedSt := ⟨⟨stMB3.db.rows ++ [⟨"prompts", "prompt-a37", "239ad00f-562f-411d-af14-831c75ddd875|Prompt with many versions|4"⟩], 5⟩, ⟨0, 38⟩⟩

def stMB5 : SeedSt := ⟨⟨stMB4.db.rows ++ [⟨"prompts", "prompt-a38", "239ad00f-562f-411d-af14-831c75ddd875|Prompt with many versions|5"⟩], 5⟩, ⟨0, 39⟩⟩

def stMB6 : SeedSt := ⟨⟨stMB5.db.rows ++ [⟨"prompts", "prompt-a39", "239ad00f-562f-411d-af14-831c75ddd875|Prompt with many versions|6"⟩], 5⟩, ⟨0, 40⟩⟩

def stMB7 : SeedSt := ⟨⟨stMB6.db.rows ++ [⟨"prompts", "prompt-a40", "239ad00f-562f-411d-af14-831c75ddd875|Prompt with many versions|7"⟩], 5⟩, ⟨0, 41⟩⟩

def stMB8 : SeedSt := ⟨⟨stMB7.db.rows ++ [⟨"prompts", "prompt-a41", "239ad00f-562f-411d-af14-831c75ddd875|Prompt with many versions|8"⟩], 5⟩, ⟨0, 42⟩⟩

def stMB9 : SeedSt := ⟨⟨stMB8.db.rows ++ [⟨"prompts", "prompt-a42", "239ad00f-562f-411d-af14-831c75ddd875|Prompt with many versions|9"⟩], 5⟩, ⟨0, 43⟩⟩

def stMB10 : SeedSt := ⟨⟨stMB9.db.rows ++ [⟨"prompts", "prompt-a43", "239ad00f-562f-411d-af14-831c75ddd875|Prompt with many versions|10"⟩], 5⟩, ⟨0, 44⟩⟩

def stMB11 : SeedSt := ⟨⟨stMB10.db.rows ++ [⟨"prompts", "prompt-a44", "239ad00f-562f-411d-af14-831c75ddd875|Prompt with many versions|11"⟩], 5⟩, ⟨0, 45⟩⟩

def stMB12 : SeedSt := ⟨⟨stMB11.db.rows ++ [⟨"prompts", "prompt-a45", "239ad00f-562f-411d-af14-831c75ddd875|Prompt with many versions|12"⟩], 5⟩, ⟨0, 46⟩⟩

def stMB13 : SeedSt := ⟨⟨stMB12.db.rows ++ [⟨"prompts", "prompt-a46", "239ad00f-562f-411d-af14-831c75ddd875|Prompt with many versions|13"⟩], 5⟩, ⟨0, 47⟩⟩

def stMB14 : SeedSt := ⟨⟨stMB13.db.rows ++ [⟨"prompts", "prompt-a47", "239ad00f-562f-411d-af14-831c75ddd875|Prompt with many versions|14"⟩], 5⟩, ⟨0, 48⟩⟩

def stMB15 : SeedSt := ⟨⟨stMB14.db.rows ++ [⟨"prompts", "prompt-a48", "239ad00f-562f-411d-af14-831c75ddd875|Prompt with many versions|15"⟩], 5⟩, ⟨0, 49⟩⟩

def stMB16 : SeedSt := ⟨⟨stMB15.db.rows ++ [⟨"prompts", "prompt-a49", "239ad00f-562f-411d-af14-831c75ddd875|Prompt with many versions|16"⟩], 5⟩, ⟨0, 50⟩⟩

def stMB17 : SeedSt := ⟨⟨stMB16.db.rows ++ [⟨"prompts", "prompt-a50", "239ad00f-562f-411d-af14-831c75ddd875|Prompt with many versions|17"⟩], 5⟩, ⟨0, 51⟩⟩

def stMB18 : SeedSt := ⟨⟨stMB17.db.rows ++ [⟨"prompts", "prompt-a51", "239ad00f-562f-411d-af14-831c75ddd875|Prompt with many versions|18"⟩], 5⟩, ⟨0, 52⟩⟩

def stMB19 : SeedSt := ⟨⟨stMB18.db.rows ++ [⟨"prompts", "prompt-a52", "239ad00f-562f-411d-af14-831c75ddd875|Prompt with many versions|19"⟩], 5⟩, ⟨0, 53⟩⟩

def stMB20 : SeedSt := ⟨⟨stMB19.db.rows ++ [⟨"prompts", "prompt-a53", "239ad00f-562f-411d-af14-831c75ddd875|Prompt with many versions|20"⟩], 5⟩, ⟨0, 54⟩⟩

def stT1 : SeedSt := ⟨⟨stMB20.db.rows ++ [⟨"eval_templates", "auto-5", "7a88fb47-b4e2-43b8-a06c-a5ce950dc53a|toxicity-template|1"⟩], 6⟩, ⟨0, 54⟩⟩

def stT2 : SeedSt := ⟨⟨stT1.db.rows ++ [⟨"job_configurations", "toxicity-job", ""⟩], 6⟩, ⟨0, 54⟩⟩

def stCA1 : SeedSt := ⟨⟨stT2.db.rows ++ [⟨"datasets", "auto-6", "7a88fb47-b4e2-43b8-a06c-a5ce950dc53a|demo-dataset-0"⟩], 7⟩, ⟨0, 54⟩⟩

def stIT1x : SeedSt := ⟨stCA1.db, ⟨18, 54⟩⟩

def stRN1 : SeedSt := ⟨⟨stIT1x.db.rows ++
  [⟨"dataset_runs", "auto-7", "auto-6|7a88fb47-b4e2-43b8-a06c-a5ce950dc53a|demo-dataset-run-0"⟩,
   ⟨"dataset_runs", "auto-8", "auto-6|7a88fb47-b4e2-43b8-a06c-a5ce950dc53a|demo-dataset-run-1"⟩,
   ⟨"dataset_runs", "auto-9", "auto-6|7a88fb47-b4e2-43b8-a06c-a5ce950dc53a|demo-dataset-run-2"⟩,
   ⟨"dataset_runs", "auto-10", "auto-6|7a88fb47-b4e2-43b8-a06c-a5ce950dc53a|demo-dataset-run-3"⟩,
   ⟨"dataset_runs", "auto-11", "auto-6|7a88fb47-b4e2-43b8-a06c-a5ce950dc53a|demo-dataset-run-4"⟩], 12⟩, ⟨23, 54⟩⟩

def stCA2 : SeedSt := ⟨⟨stRN1.db.rows ++ [⟨"datasets", "auto-12", "239ad00f-562f-411d-af14-831c75ddd875|demo-dataset-0"⟩], 13⟩, ⟨23, 54⟩⟩

def stIT2x : SeedSt := ⟨stCA2.db, ⟨41, 54⟩⟩

def stRN2 : SeedSt := ⟨⟨stIT2x.db.rows ++
  [⟨"dataset_runs", "auto-13", "auto-12|239ad00f-562f-411d-af14-831c75ddd875|demo-dataset-run-0"⟩,
   ⟨"dataset_runs", "auto-14", "auto-12|239ad00f-562f-411d-af14-831c75ddd875|demo-dataset-run-1"⟩,
   ⟨"dataset_runs", "auto-15", "auto-12|239ad00f-562f-411d-af14-831c75ddd875|demo-dataset-run-2"⟩,
   ⟨"dataset_runs", "auto-16", "auto-12|239ad00f-562f-411d-af14-831c75ddd875|demo-dataset-run-3"⟩,
   ⟨"dataset_runs", "auto-17", "auto-12|239ad00f-562f-411d-af14-831c75ddd875|demo-dataset-run-4"⟩], 18⟩, ⟨46, 54⟩⟩

def stCA3 : SeedSt := ⟨⟨stRN2.db.rows ++ [⟨"datasets", "auto-18", "7a88fb47-b4e2-43b8-a06c-a5ce950dc53a|demo-dataset-1"⟩], 19⟩, ⟨46, 54⟩⟩

def stIT3x : SeedSt := ⟨stCA3.db, ⟨64, 54⟩⟩

def stRN3 : SeedSt := ⟨⟨stIT3x.db.rows ++
  [⟨"dataset_runs", "auto-19", "auto-18|7a88fb47-b4e2-43b8-a06c-a5ce950dc53a|demo-dataset-run-0"⟩,
   ⟨"dataset_runs", "auto-20", "auto-18|7a88fb47-b4e2-43b8-a06c-a5ce950dc53a|demo-dataset-run-1"⟩,
   ⟨"dataset_runs", "auto-21", "auto-18|7a88fb47-b4e2-43b8-a06c-a5ce950dc53a|demo-dataset-run-2"⟩,
   ⟨"dataset_runs", "auto-22", "auto-18|7a88fb47-b4e2-43b8-a06c-a5ce950dc53a|demo-dataset-run-3"⟩,
   ⟨"dataset_runs", "auto-23", "auto-18|7a88fb47-b4e2-43b8-a06c-a5ce950dc53a|demo-dataset-run-4"⟩], 24⟩, ⟨69, 54⟩⟩

def stCA4 : SeedSt := ⟨⟨stRN3.db.rows ++ [⟨"datasets", "auto-24", "239ad00f-562f-411d-af14-831c75ddd875|demo-dataset-1"⟩], 25⟩, ⟨69, 54⟩⟩

def stIT4x : SeedSt := ⟨stCA4.db, ⟨87, 54⟩⟩

def stRN4 : SeedSt := ⟨⟨stIT4x.db.rows ++
  [⟨"dataset_runs", "auto-25", "auto-24|239ad00f-562f-411d-af14-831c75ddd875|demo-dataset-run-0"⟩,
   ⟨"dataset_runs", "auto-26", "auto-24|239ad00f-562f-411d-af14-831c75ddd875|demo-dataset-run-1"⟩,
   ⟨"dataset_runs", "auto-27", "auto-24|239ad00f-562f-411d-af14-831c75ddd875|demo-dataset-run-2"⟩,
   ⟨"dataset_runs", "auto-28", "auto-24|239ad00f-562f-411d-af14-831c75ddd875|demo-dataset-run-3"⟩,
   ⟨"dataset_runs", "auto-29", "auto-24|239ad00f-562f-411d-af14-831c75ddd875|demo-dataset-run-4"⟩], 30⟩, ⟨92, 54⟩⟩

def stDB1 : SeedSt := ⟨⟨stRN4.db.rows ++
  [⟨"dashboard_widgets", "cabc", ""⟩,
   ⟨"dashboard_widgets", "cdef", ""⟩,
   ⟨"dashboards", "seed-dashboard", ""⟩], 30⟩, ⟨92, 56⟩⟩

def stDB2 : SeedSt := ⟨stDB1.db, ⟨92, 58⟩⟩

def stSF : SeedSt := ⟨⟨stDB2.db.rows ++
  [⟨"llm_schemas", "auto-30", ""⟩,
   ⟨"llm_schemas", "auto-31", ""⟩], 32⟩, ⟨92, 58⟩⟩

/-! ### A second "examples" run against the already-seeded database -/

/-- Start of a second run: the database run 1 left, fresh counters. -/
def stR0 : SeedSt := ⟨stSF.db, ⟨0, 0⟩⟩

def cfgLitA2 : List ConfigParam :=
  [⟨"manual-score", "config-b0", ScoreDataType.NUMERIC, none⟩,
   ⟨"Accuracy", "config-b1", ScoreDataType.CATEGORICAL,
     some [⟨"Incorrect", 0⟩, ⟨"Partially Correct", 1⟩, ⟨"Correct", 2⟩]⟩,
   ⟨"Toxicity", "config-b2", ScoreDataType.BOOL,
     some [⟨"True", 1⟩, ⟨"False", 0⟩]⟩]

def cfgLitB2 : List ConfigParam :=
  [⟨"manual-score", "config-b3", ScoreDataType.NUMERIC, none⟩,
   ⟨"Accuracy", "config-b4", ScoreDataType.CATEGORICAL,
     some [⟨"Incorrect", 0⟩, ⟨"Partially Correct", 1⟩, ⟨"Correct", 2⟩]⟩,
   ⟨"Toxicity", "config-b5", ScoreDataType.BOOL,
     some [⟨"True", 1⟩, ⟨"False", 0⟩]⟩]

def stRC1 : SeedSt := ⟨⟨stR0.db.rows ++
  [⟨"score_configs", "config-b0", ""⟩,
   ⟨"score_configs", "config-b1", ""⟩,
   ⟨"score_configs", "config-b2", ""⟩], 32⟩, ⟨0, 3⟩⟩

def stRC2 : SeedSt := ⟨⟨stRC1.db.rows ++
  [⟨"score_configs", "config-b3", ""⟩,
   ⟨"score_configs", "config-b4", ""⟩,
   ⟨"score_configs", "config-b5", ""⟩], 32⟩, ⟨0, 6⟩⟩

def stRQ1 : SeedSt := ⟨⟨stRC2.db.rows.set 19
  ⟨"annotation_queues", "queue-b6", "7a88fb47-b4e2-43b8-a06c-a5ce950dc53a|Default"⟩,
  32⟩, ⟨0, 7⟩⟩

def stRQ2 : SeedSt := ⟨⟨stRQ1.db.rows.set 20
  ⟨"annotation_queues", "queue-b7", "239ad00f-562f-411d-af14-831c75ddd875|Default"⟩,
  32⟩, ⟨0, 8⟩⟩

instance {e a : Type} [DecidableEq e] [DecidableEq a] : DecidableEq (Except e a) :=
  fun x y =>
  match x, y with
  | Except.ok v, Except.ok w =>
    if h : v = w then isTrue (by rw [h])
    else isFalse (fun hc => h (Except.ok.inj hc))
  | Except.error v, Except.error w =>
    if h : v = w then isTrue (by rw [h])
    else isFalse (fun hc => h (Except.error.inj hc))
  | Except.ok _, Except.error _ => isFalse (fun hc => Except.noConfusion hc)
  | Except.error _, Except.ok _ => isFalse (fun hc => Except.noConfusion hc)

/-! ### C7: at most one row per serialized unique key -/

/-- Two rows of one table never share a nonempty serialized unique key. -/
def rowKeyOk (r1 r2 : Row) : Prop :=
  r1.table = r2.table → r1.ukey ≠ "" → r2.ukey ≠ "" → r1.ukey ≠ r2.ukey

/-- The database invariant the constraint-checked writes maintain. -/
def dbUkeysOk (db : DB) : Prop := db.rows.Pairwise rowKeyOk

/-- A seed program keeps `dbUkeysOk`, whether it completes or aborts. -/
def KeepsKeys {α : Type} (m : SeedM α) : Prop :=
  ∀ s : SeedSt, dbUkeysOk s.db →
    (∀ s2 a, m s = Except.ok (s2, a) → dbUkeysOk s2.db) ∧
    (∀ e, m s = Except.error e → dbUkeysOk e.db)

/-! ## The SCIM Users API route

`web/src/pages/api/public/scim/Users.ts` (quoted in
`.cursor/rules/frontend-features.mdc`): a Next.js handler for
`GET`/`POST /api/public/scim/Users`.  The embedding models the Prisma
tables it touches (`users`, `organization_memberships`), the auth-scope
check, and JavaScript's `parseInt`/`||`-default and truthiness
conventions explicitly. -/

/-- A row of the `users` table (the columns the handler reads/writes). -/
structure ScimUser where
  id : String
  email : String
  name : Option String
deriving DecidableEq

/-- A row of `organization_memberships`; `(orgId, userId)` is unique. -/
structure Membership where
  id : String
  orgId : String
  userId : String
  role : String
deriving DecidableEq

/-- The database slice the handler touches, plus an id supply. -/
structure ScimDb where
  users : List ScimUser
  memberships : List Membership
  nextId : Nat
deriving DecidableEq

/-- Result of `verifyAuthHeaderAndReturnScope`, keys only. -/
structure AuthScope where
  accessLevel : String
  orgId : Option String
deriving DecidableEq

structure AuthCheck where
  validKey : Bool
  error : String
  scope : AuthScope
deriving DecidableEq

/-- `req.query` for GET: each parameter is absent or a string. -/
structure ScimQuery where
  filter : Option String := none
  startIndex : Option String := none
  count : Option String := none
deriving DecidableEq

/-- The `roles` field of a POST body: absent/falsy, present but not an
array, or an array of strings. -/
inductive RolesField where
  | absent
  | notArray
  | arr (xs : List String)
deriving DecidableEq

/-- A POST body: a string that is not valid JSON, or the destructured
fields `userName`, `name.formatted`, `displayName`, `password`, `roles`. -/
inductive ScimBody where
  | malformed
  | fields (userName : Option String) (nameFormatted : Option String)
      (displayName : Option String) (password : Option String)
      (roles : RolesField)
deriving DecidableEq

structure ScimReq where
  method : String
  auth : AuthCheck
  query : ScimQuery := {}
  body : ScimBody := .fields none none none none .absent
deriving DecidableEq

/-- A SCIM user resource as serialized in responses (the fields whose
values the handler computes; constant subobjects such as `emails[0].type`
are omitted as literals shared by every response). -/
structure ScimUserRes where
  schemas : List String
  id : String
  userName : String
  nameFormatted : Option String
  emailValue : String
deriving DecidableEq

/-- A response body: SCIM error, list response, or single user. -/
inductive RespBody where
  | error (schemas : List String) (detail : String) (status : Nat)
  | listResponse (schemas : List String) (totalResults : Nat)
      (startIndex : Int) (itemsPerPage : Nat) (resources : List ScimUserRes)
  | userResponse (u : ScimUserRes)
deriving DecidableEq

structure HttpResp where
  status : Nat
  body : RespBody
deriving DecidableEq

def scimErrSchema : String := "urn:ietf:params:scim:api:messages:2.0:Error"

def scimUserSchema : String := "urn:ietf:params:scim:schemas:core:2.0:User"

def scimListSchema : String := "urn:ietf:params:scim:api:messages:2.0:ListResponse"

/-- JavaScript string truthiness: `""` is falsy. -/
def jsTruthyStr (s : String) : Bool := s ≠ ""

/-- Truthiness of an optional string (`undefined` is falsy). -/
def jsTruthyOpt : Option String → Bool
  | none => false
  | some s => jsTruthyStr s

/-- `a || b` on optional strings (`name?.formatted || displayName`). -/
def jsOrOpt (a b : Option String) : Option String :=
  if jsTruthyOpt a then a else b

/-- `parseInt(s, 10)`: skip leading whitespace, optional sign, then a
nonempty run of decimal digits; `none` is `NaN`. -/
def jsParseInt (s : String) : Option Int :=
  let cs := s.toList.dropWhile (fun c => c = ' ' || c = '\t' || c = '\n' || c = '\r')
  let (sgn, rest) : Int × List Char :=
    match cs with
    | '-' :: r => (-1, r)
    | '+' :: r => (1, r)
    | r => (1, r)
  let digits := rest.takeWhile Char.isDigit
  if digits.isEmpty then none
  else some (sgn * (digits.foldl (fun n c => n * 10 + (c.toNat - 48)) 0 : Nat))

/-- `parseInt(x, 10) || d` for an optional query parameter whose
destructuring default is the number `d`: an absent parameter hits the
destructuring default (a number, which `parseInt` round-trips), and `0`
and `NaN` both fall to `d` through `||`. -/
def jsParseOr (o : Option String) (d : Int) : Int :=
  match o with
  | none => d
  | some s =>
    match jsParseInt s with
    | none => d
    | some n => if n = 0 then d else n

/-- `toLowerCase()` as a structural map over the characters. -/
def jsToLower (s : String) : String := String.mk (s.toList.map Char.toLower)

/-- The capture of `/userName eq "([^"]+)"/i`: text matched up to the
closing quote, with the remainder. -/
def scimCaptureQuoted : List Char → Option (List Char × List Char)
  | [] => none
  | c :: rest =>
    if c = '"' then some ([], rest)
    else
      match scimCaptureQuoted rest with
      | some (cap, r) => some (c :: cap, r)
      | none => none

/-- Case-insensitive match of a (lower-case) literal at the head. -/
def scimLitMatch : List Char → List Char → Option (List Char)
  | [], rest => some rest
  | _ :: _, [] => none
  | l :: ls, c :: cs => if c.toLower = l then scimLitMatch ls cs else none

/-- First match of `/userName eq "([^"]+)"/i` in the filter string. -/
def scimFilterScan : List Char → Option String
  | [] => none
  | c :: cs =>
    match scimLitMatch ("username eq \"".toList) (c :: cs) with
    | some rest =>
      match scimCaptureQuoted rest with
      | some (cap, _) => if cap.isEmpty then scimFilterScan cs else some (String.mk cap)
      | none => scimFilterScan cs
    | none => scimFilterScan cs

/-- The `whereClause` of the GET branch: `email: match[1].toLowerCase()`
when the filter regex matches, else no user constraint. -/
def scimWhereEmail (filter : Option String) : Option String :=
  match filter with
  | none => none
  | some f =>
    match scimFilterScan f.toList with
    | some cap => some (jsToLower cap)
    | none => none

def findUserById (db : ScimDb) (uid : String) : Option ScimUser :=
  db.users.find? (fun u => u.id == uid)

def findUserByEmail (db : ScimDb) (email : String) : Option ScimUser :=
  db.users.find? (fun u => u.email == email)

/-- `organizationMembership.findMany({ where: { user: W, orgId } })`:
a membership matches if it is in the organization and its user passes the
(possibly empty) email constraint. -/
def memMatches (db : ScimDb) (orgId : String) (emailW : Option String)
    (m : Membership) : Bool :=
  m.orgId == orgId &&
    (match emailW with
     | none => true
     | some e => (findUserById db m.userId).elim false (fun u => u.email == e))

/-- Prisma `take`: a non-negative `take` keeps the first `n` records, a
negative one the last `-n`. -/
def prismaTake {α : Type} (n : Int) (l : List α) : List α :=
  if 0 ≤ n then l.take n.toNat
  else l.drop (l.length - n.natAbs)

/-- The SCIM serialization of one joined user row. -/
def scimUserOf (u : ScimUser) : ScimUserRes :=
  ⟨[scimUserSchema], u.id, u.email, u.name, u.email⟩

/-- The role enum accepted by the zod schema. -/
def roleNames : List String := ["OWNER", "ADMIN", "MEMBER", "VIEWER", "NONE"]

/-- `JSON.stringify` of an array of strings (the 400 detail for invalid
roles). -/
def jsonStringifyArr (xs : List String) : String :=
  "[" ++ String.intercalate ("," ) (xs.map (fun s => "\"" ++ s ++ "\"")) ++ "]"

/-- `GET /api/public/scim/Users` after the auth checks (`orgId` is the
caller's organization). -/
def scimGet (db : ScimDb) (q : ScimQuery) (orgId : String) : HttpResp :=
  let parsedStartIndex := jsParseOr q.startIndex 1
  let parsedCount := jsParseOr q.count 100
  let emailW := scimWhereEmail q.filter
  let matching := db.memberships.filter (memMatches db orgId emailW)
  let totalCount := matching.length
  if parsedStartIndex - 1 < 0 then
    -- Prisma rejects a negative `skip`; the catch block maps it to 500.
    ⟨500, .error [scimErrSchema] "Internal server error" 500⟩
  else
    let page := prismaTake parsedCount (matching.drop (parsedStartIndex - 1).toNat)
    let scimUsers := page.map (fun m =>
      scimUserOf ((findUserById db m.userId).getD ⟨"", "", none⟩))
    ⟨200, .listResponse [scimListSchema] totalCount parsedStartIndex
      scimUsers.length scimUsers⟩

/-- The `roles` validation of the POST branch: the chosen role, or the
400 detail when the zod enum-array parse fails. -/
def scimRoleOk : RolesField → String ⊕ String
  | .absent => Sum.inl "NONE"
  | .notArray => Sum.inl "NONE"
  | .arr xs =>
    if xs.isEmpty then Sum.inl "NONE"
    else if xs.all (fun r => roleNames.contains r) then
      Sum.inl (xs.headD "NONE")
    else
      Sum.inr ("Invalid roles provided: " ++ jsonStringifyArr xs ++
        ", must be one of OWNER, ADMIN, MEMBER, VIEWER, NONE")

/-- `POST /api/public/scim/Users` after the auth checks.  Returns the
response and the database afterwards (the user upsert commits before the
membership create, so a unique-violation 500 keeps the upserted user). -/
def scimPost (db : ScimDb) (b : ScimBody) (orgId : String) :
    HttpResp × ScimDb :=
  match b with
  | .malformed => (⟨400, .error [scimErrSchema] "Invalid JSON body" 400⟩, db)
  | .fields userName nameFormatted displayName _password roles =>
    if ¬ jsTruthyOpt userName then
      (⟨400, .error [scimErrSchema] "userName is required" 400⟩, db)
    else
      let un := userName.getD ""
      match scimRoleOk roles with
      | Sum.inr detail => (⟨400, .error [scimErrSchema] detail 400⟩, db)
      | Sum.inl role =>
        -- findMany({ where: { user: { email: userName }, orgId } })
        if ¬ (db.memberships.filter (memMatches db orgId (some un))).isEmpty then
          (⟨409, .error [scimErrSchema] "User with this userName already exists" 409⟩,
            db)
        else
          -- user.upsert({ where: { email: userName.toLowerCase() }, update: {} }),
          -- then organizationMembership.create — (orgId, userId) is unique
          match findUserByEmail db (jsToLower un) with
          | some u =>
            if db.memberships.any (fun m => m.orgId == orgId && m.userId == u.id) then
              (⟨500, .error [scimErrSchema] "Internal server error" 500⟩, db)
            else
              (⟨201, .userResponse (scimUserOf u)⟩,
                ⟨db.users,
                  db.memberships ++
                    [⟨"mem-" ++ toString db.nextId, orgId, u.id, role⟩],
                  db.nextId + 1⟩)
          | none =>
            let u : ScimUser :=
              ⟨"user-" ++ toString db.nextId, (jsToLower un),
                jsOrOpt nameFormatted displayName⟩
            if db.memberships.any (fun m => m.orgId == orgId && m.userId == u.id) then
              (⟨500, .error [scimErrSchema] "Internal server error" 500⟩,
                ⟨db.users ++ [u], db.memberships, db.nextId + 1⟩)
            else
              (⟨201, .userResponse (scimUserOf u)⟩,
                ⟨db.users ++ [u],
                  db.memberships ++
                    [⟨"mem-" ++ toString (db.nextId + 1), orgId, u.id, role⟩],
                  db.nextId + 2⟩)

/-- The handler: method gate, auth gate, organization-scope gate, then
the GET or POST branch. -/
def scimHandler (db : ScimDb) (req : ScimReq) : HttpResp × ScimDb :=
  if req.method ≠ "GET" ∧ req.method ≠ "POST" then
    (⟨405, .error [scimErrSchema] "Method not allowed" 405⟩, db)
  else if ¬ req.auth.validKey then
    (⟨401, .error [scimErrSchema] req.auth.error 401⟩, db)
  else if req.auth.scope.accessLevel ≠ "organization" ∨
      ¬ jsTruthyOpt req.auth.scope.orgId then
    (⟨403, .error [scimErrSchema]
      "Invalid API key. Organization-scoped API key required for this operation."
      403⟩, db)
  else
    let orgId := req.auth.scope.orgId.getD ""
    if req.method = "GET" then
      (scimGet db req.query orgId, db)
    else
      scimPost db req.body orgId

/-- The resources of a list response (empty for other bodies). -/
def respResources (r : HttpResp) : List ScimUserRes :=
  match r.body with
  | .listResponse _ _ _ _ rs => rs
  | _ => []

/-- The role the POST branch settles on when the roles field is valid. -/
def scimChosenRole : RolesField → String
  | .absent => "NONE"
  | .notArray => "NONE"
  | .arr xs => if xs.isEmpty then "NONE" else xs.headD "NONE"

/-- A roles field the zod schema does not reject. -/
def rolesValid : RolesField → Prop
  | .arr xs => xs.isEmpty = true ∨ xs.all (fun r => roleNames.contains r) = true
  | _ => True

/-- Claim-side parsing of a pagination parameter: the default applies
exactly when the parameter is absent or non-numeric (this is the spec
reading C10 asserts; the code's `||` also defaults on `0`). -/
def specParseDefault (o : Option String) (d : Int) : Int :=
  match o with
  | none => d
  | some s => (jsParseInt s).getD d

def c4db : ScimDb :=
  ⟨[⟨"u1", "alice@x.com", none⟩], [⟨"m1", "org-1", "u1", "MEMBER"⟩], 2⟩

def c4req : ScimReq :=
  ⟨"POST", ⟨true, "", ⟨"organization", some "org-1"⟩⟩, {},
    .fields (some "Alice@x.com") none none none .absent⟩

def c10db : ScimDb :=
  ⟨[⟨"u1", "alice@x.com", none⟩], [⟨"m1", "org-1", "u1", "MEMBER"⟩], 2⟩

def c10req : ScimReq :=
  ⟨"GET", ⟨true, "", ⟨"organization", some "org-1"⟩⟩,
    ⟨none, none, some "0"⟩, .fields none none none none .absent⟩

/-! ## Theorems -/

theorem jsGet_mem {α : Type} {xs : List α} {n : Int} {a : α}
    (h : jsGet xs n = some a) : a ∈ xs := by
  unfold jsGet at h
  split at h
  · exact (Option.some.inj h) ▸ List.get_mem xs _ _
  · exact absurd h (by simp)

theorem qMul_eq (a b : ℚ) : qMul a b = a * b := (Rat.mul_eq_mkRat a b).symm

theorem qSub_eq (a b : ℚ) : qSub a b = a - b := by
  have ha : ((a.den : Int)) ≠ 0 := Int.natCast_ne_zero.mpr a.den_nz
  have hb : ((b.den : Int)) ≠ 0 := Int.natCast_ne_zero.mpr b.den_nz
  rw [qSub]
  conv_rhs => rw [← Rat.num_divInt_den a, ← Rat.num_divInt_den b]
  rw [Rat.divInt_sub_divInt _ _ ha hb, Rat.mkRat_eq_divInt]
  push_cast
  ring_nf

theorem strAppend_left_cancel {s a b : String} (h : s ++ a = s ++ b) : a = b := by
  have hd : s.data ++ a.data = s.data ++ b.data := by
    simpa [String.data_append] using congrArg String.data h
  have hdata : a.data = b.data := List.append_cancel_left hd
  cases a; cases b
  exact congrArg String.mk hdata

theorem jsOptDraw_u {a : Type} (re : RandEnv) (c : Ctr) (f : Rat -> a) :
    (jsOptDraw re c f).2.u = c.u := by
  rw [jsOptDraw]; simp only [draw]; split <;> rfl

theorem getGenerationInputOutput_u (re : RandEnv) (c : Ctr) :
    (getGenerationInputOutput re c).2.u = c.u := by
  rw [getGenerationInputOutput]; simp only [draw]; split <;> rfl

theorem condScore_u (re : RandEnv) (nm genId : String) (tr : TraceObj)
    (genEnd traceTs : Int) (c : Ctr) :
    (condScore re nm genId tr genEnd traceTs c).2.u = c.u := by
  rw [condScore]; simp only [draw]; split <;> rfl

theorem condScore_inv (re : RandEnv) (nm genId : String) (tr : TraceObj)
    (genEnd traceTs : Int) (c : Ctr) :
    ∀ s ∈ (condScore re nm genId tr genEnd traceTs c).1,
      s.traceId = tr.id ∧ s.projectId = tr.projectId ∧ s.dataType = none ∧
        s.configId = none := by
  rw [condScore]; simp only [draw]; split <;> simp

theorem sentimentStep_u (re : RandEnv) (tr : TraceObj) (traceTs : Int) (c : Ctr) :
    (sentimentStep re tr traceTs c).2.u = c.u := by
  rw [sentimentStep]; simp only [draw]; split <;> rfl

theorem sentimentStep_inv (re : RandEnv) (tr : TraceObj) (traceTs : Int) (c : Ctr) :
    ∀ s ∈ (sentimentStep re tr traceTs c).1,
      s.traceId = tr.id ∧ s.projectId = tr.projectId ∧ s.configId = none ∧
        s.dataType = some ScoreDataType.NUMERIC ∧ s.value.isSome ∧
        s.stringValue = none := by
  rw [sentimentStep]; simp only [draw]; split <;> simp

theorem completenessStep_u (re : RandEnv) (tr : TraceObj) (traceTs : Int) (c : Ctr) :
    (completenessStep re tr traceTs c).2.u = c.u := by
  rw [completenessStep]; simp only [draw]; split <;> rfl

theorem completenessStep_inv (re : RandEnv) (tr : TraceObj) (traceTs : Int) (c : Ctr) :
    ∀ s ∈ (completenessStep re tr traceTs c).1,
      s.traceId = tr.id ∧ s.projectId = tr.projectId ∧ s.configId = none ∧
        s.dataType = some ScoreDataType.CATEGORICAL ∧ s.value = none ∧
        s.name = "Completeness" ∧
        (s.stringValue = some "Fully" ∨ s.stringValue = some "Partially") := by
  rw [completenessStep]; simp only [draw]; split
  · intro s hs
    simp only [List.mem_singleton] at hs
    subst hs
    refine ⟨rfl, rfl, rfl, rfl, rfl, rfl, ?_⟩
    split <;> simp
  · simp

theorem traceCommentStep_u (re : RandEnv) (i : Nat) (tr : TraceObj) (c : Ctr) :
    (traceCommentStep re i tr c).2.u = c.u := by
  rw [traceCommentStep]; simp only [draw]; split <;> rfl

theorem pickParent_u (re : RandEnv) (existing : List String) (c : Ctr) :
    (pickParent re existing c).2.u = c.u := by
  rw [pickParent]; simp only [draw]; split
  · rfl
  · split <;> rfl

theorem pickParent_mem (re : RandEnv) (existing : List String) (c : Ctr) (p : String)
    (h : (pickParent re existing c).1 = some p) : p ∈ existing := by
  rw [pickParent] at h
  simp only [draw] at h
  split at h
  · exact absurd h (by simp)
  · split at h
    · exact absurd h (by simp)
    · exact jsGet_mem h

theorem eventLoop_u (re : RandEnv) (i j k : Nat) (ss se : Int) (spanId : String)
    (tr : TraceObj) :
    ∀ fuel l c, c.u ≤ (eventLoop re i j k ss se spanId tr fuel l c).2.u := by
  intro fuel
  induction fuel with
  | zero => intro l c; simp [eventLoop]
  | succ fuel ih =>
    intro l c
    rw [eventLoop]
    simp only [draw, drawU]
    split
    · refine le_trans ?_ (ih (l + 1) _)
      simp
    · simp

theorem eventLoop_inv (re : RandEnv) (i j k : Nat) (ss se : Int) (spanId : String)
    (tr : TraceObj) :
    ∀ fuel l c, ∀ o ∈ (eventLoop re i j k ss se spanId tr fuel l c).1,
      o.type = "EVENT" ∧ o.traceId = tr.id ∧ o.projectId = tr.projectId ∧
        o.parentObservationId = some spanId := by
  intro fuel
  induction fuel with
  | zero => intro l c; simp [eventLoop]
  | succ fuel ih =>
    intro l c
    rw [eventLoop]
    simp only [draw, drawU]
    split
    · intro o ho
      simp only [List.mem_cons] at ho
      rcases ho with rfl | ho
      · simp
      · exact ih (l + 1) _ o ho
    · simp

theorem genOnce_u (re : RandEnv) (i j k : Nat) (pIds : String → List String)
    (tr : TraceObj) (spanId : String) (ss se ts : Int) (c : Ctr) :
    c.u ≤ (genOnce re i j k pIds tr spanId ss se ts c).2.u := by
  rw [genOnce]
  simp only [draw, drawU]
  refine le_trans ?_ (eventLoop_u re i j k ss se _ tr 2 0 _)
  simp only [condScore_u, jsOptDraw_u, getGenerationInputOutput_u]
  simp

theorem genOnce_obs_inv (re : RandEnv) (i j k : Nat) (pIds : String → List String)
    (tr : TraceObj) (spanId : String) (ss se ts : Int) (c : Ctr) :
    ∀ o ∈ (genOnce re i j k pIds tr spanId ss se ts c).1.obs,
      o.type = "GENERATION" ∧ o.traceId = tr.id ∧ o.projectId = tr.projectId ∧
        o.parentObservationId = some spanId := by
  rw [genOnce]
  simp only [draw, drawU]
  simp

theorem genOnce_events_inv (re : RandEnv) (i j k : Nat) (pIds : String → List String)
    (tr : TraceObj) (spanId : String) (ss se ts : Int) (c : Ctr) :
    ∀ o ∈ (genOnce re i j k pIds tr spanId ss se ts c).1.events,
      o.type = "EVENT" ∧ o.traceId = tr.id ∧ o.projectId = tr.projectId ∧
        o.parentObservationId = some spanId := by
  rw [genOnce]
  simp only [draw, drawU]
  intro o ho
  exact eventLoop_inv re i j k ss se _ tr 2 0 _ o ho

theorem genOnce_scores_inv (re : RandEnv) (i j k : Nat) (pIds : String → List String)
    (tr : TraceObj) (spanId : String) (ss se ts : Int) (c : Ctr) :
    ∀ s ∈ (genOnce re i j k pIds tr spanId ss se ts c).1.scores,
      s.traceId = tr.id ∧ s.projectId = tr.projectId ∧ s.dataType = none ∧
        s.configId = none := by
  rw [genOnce]
  simp only [draw, drawU]
  intro s hs
  simp only [List.mem_append] at hs
  rcases hs with hs | hs
  · exact condScore_inv re _ _ tr _ ts _ s hs
  · exact condScore_inv re _ _ tr _ ts _ s hs

theorem draw_eq {re : RandEnv} {c : Ctr} {r' : ℚ} {c' : Ctr}
    (h : draw re c = (r', c')) : r' = re.g c.r ∧ c' = ⟨c.r + 1, c.u⟩ := by
  simpa [draw, Prod.ext_iff, eq_comm] using h

theorem SpanOut.mem_app_obs {o : Obs} {a b : SpanOut} :
    o ∈ (a.app b).obs ↔ o ∈ a.obs ∨ o ∈ b.obs := by
  simp [SpanOut.app]

theorem SpanOut.mem_app_events {o : Obs} {a b : SpanOut} :
    o ∈ (a.app b).events ↔ o ∈ a.events ∨ o ∈ b.events := by
  simp [SpanOut.app]

theorem SpanOut.mem_app_scores {s : ScoreObj} {a b : SpanOut} :
    s ∈ (a.app b).scores ↔ s ∈ a.scores ∨ s ∈ b.scores := by
  simp [SpanOut.app]

theorem genLoop_u (re : RandEnv) (i j : Nat) (pIds : String → List String)
    (tr : TraceObj) (spanId : String) (ss se ts : Int) :
    ∀ fuel k c, c.u ≤ (genLoop re i j pIds tr spanId ss se ts fuel k c).2.u := by
  intro fuel
  induction fuel with
  | zero => intro k c; simp [genLoop]
  | succ fuel ih =>
    intro k c
    rw [genLoop]
    split
    next x r2 c2 heq =>
      obtain ⟨-, rfl⟩ := draw_eq heq
      split
      · rcases hg : genOnce re i j k pIds tr spanId ss se ts _ with ⟨o1, c1⟩
        rcases hrest : genLoop re i j pIds tr spanId ss se ts fuel (k + 1) c1 with ⟨rest, c3⟩
        simp only [hg, hrest]
        have h2 := genOnce_u re i j k pIds tr spanId ss se ts ⟨c.r + 1, c.u⟩
        rw [hg] at h2
        have h3 := ih (k + 1) c1
        rw [hrest] at h3
        simp only [] at h2 h3 ⊢
        omega
      · simp

theorem genLoop_obs_inv (re : RandEnv) (i j : Nat) (pIds : String → List String)
    (tr : TraceObj) (spanId : String) (ss se ts : Int) :
    ∀ fuel k c, ∀ o ∈ (genLoop re i j pIds tr spanId ss se ts fuel k c).1.obs,
      o.type = "GENERATION" ∧ o.traceId = tr.id ∧ o.projectId = tr.projectId ∧
        o.parentObservationId = some spanId := by
  intro fuel
  induction fuel with
  | zero => intro k c; simp [genLoop]
  | succ fuel ih =>
    intro k c
    rw [genLoop]
    split
    next x r2 c2 heq =>
      split
      · rcases hg : genOnce re i j k pIds tr spanId ss se ts c2 with ⟨o1, c1⟩
        rcases hrest : genLoop re i j pIds tr spanId ss se ts fuel (k + 1) c1 with ⟨rest, c3⟩
        simp only [hg, hrest]
        intro o ho
        rcases SpanOut.mem_app_obs.mp ho with ho | ho
        · have := genOnce_obs_inv re i j k pIds tr spanId ss se ts c2
          rw [hg] at this
          exact this o ho
        · have := ih (k + 1) c1
          rw [hrest] at this
          exact this o ho
      · simp

theorem genLoop_events_inv (re : RandEnv) (i j : Nat) (pIds : String → List String)
    (tr : TraceObj) (spanId : String) (ss se ts : Int) :
    ∀ fuel k c, ∀ o ∈ (genLoop re i j pIds tr spanId ss se ts fuel k c).1.events,
      o.type = "EVENT" ∧ o.traceId = tr.id ∧ o.projectId = tr.projectId ∧
        o.parentObservationId = some spanId := by
  intro fuel
  induction fuel with
  | zero => intro k c; simp [genLoop]
  | succ fuel ih =>
    intro k c
    rw [genLoop]
    split
    next x r2 c2 heq =>
      split
      · rcases hg : genOnce re i j k pIds tr spanId ss se ts c2 with ⟨o1, c1⟩
        rcases hrest : genLoop re i j pIds tr spanId ss se ts fuel (k + 1) c1 with ⟨rest, c3⟩
        simp only [hg, hrest]
        intro o ho
        rcases SpanOut.mem_app_events.mp ho with ho | ho
        · have := genOnce_events_inv re i j k pIds tr spanId ss se ts c2
          rw [hg] at this
          exact this o ho
        · have := ih (k + 1) c1
          rw [hrest] at this
          exact this o ho
      · simp

theorem genLoop_scores_inv (re : RandEnv) (i j : Nat) (pIds : String → List String)
    (tr : TraceObj) (spanId : String) (ss se ts : Int) :
    ∀ fuel k c, ∀ s ∈ (genLoop re i j pIds tr spanId ss se ts fuel k c).1.scores,
      s.traceId = tr.id ∧ s.projectId = tr.projectId ∧ s.dataType = none ∧
        s.configId = none := by
  intro fuel
  induction fuel with
  | zero => intro k c; simp [genLoop]
  | succ fuel ih =>
    intro k c
    rw [genLoop]
    split
    next x r2 c2 heq =>
      split
      · rcases hg : genOnce re i j k pIds tr spanId ss se ts c2 with ⟨o1, c1⟩
        rcases hrest : genLoop re i j pIds tr spanId ss se ts fuel (k + 1) c1 with ⟨rest, c3⟩
        simp only [hg, hrest]
        intro s hs
        rcases SpanOut.mem_app_scores.mp hs with hs | hs
        · have := genOnce_scores_inv re i j k pIds tr spanId ss se ts c2
          rw [hg] at this
          exact this s hs
        · have := ih (k + 1) c1
          rw [hrest] at this
          exact this s hs
      · simp

theorem spanOnce_u (re : RandEnv) (i j : Nat) (tr : TraceObj)
    (existing : List String) (ts : Int) (c : Ctr) :
    c.u ≤ (spanOnce re i j tr existing ts c).2.u := by
  rw [spanOnce]
  simp only [draw, drawU, pickParent_u]
  simp [pickParent_u]

theorem spanOnce_fields (re : RandEnv) (i j : Nat) (tr : TraceObj)
    (existing : List String) (ts : Int) (c : Ctr) :
    (spanOnce re i j tr existing ts c).1.1.type = "SPAN" ∧
    (spanOnce re i j tr existing ts c).1.1.traceId = tr.id ∧
    (spanOnce re i j tr existing ts c).1.1.projectId = tr.projectId := by
  rw [spanOnce]
  simp only [draw, drawU]
  simp

theorem spanOnce_parent (re : RandEnv) (i j : Nat) (tr : TraceObj)
    (existing : List String) (ts : Int) (c : Ctr) (p : String)
    (h : (spanOnce re i j tr existing ts c).1.1.parentObservationId = some p) :
    p ∈ existing := by
  rw [spanOnce] at h
  simp only [draw, drawU] at h
  exact pickParent_mem re existing _ p h

theorem spanLoop_u (re : RandEnv) (i : Nat) (pIds : String → List String)
    (tr : TraceObj) (ts : Int) :
    ∀ fuel j existing c, c.u ≤ (spanLoop re i pIds tr ts fuel j existing c).2.u := by
  intro fuel
  induction fuel with
  | zero => intro j existing c; simp [spanLoop]
  | succ fuel ih =>
    intro j existing c
    rw [spanLoop]
    split
    next x r2 c2 heq =>
      obtain ⟨-, rfl⟩ := draw_eq heq
      split
      · rcases hsp : spanOnce re i j tr existing ts _ with ⟨sp, c1⟩
        rcases hg : genLoop re i j pIds tr sp.1.id sp.2.1 sp.2.2 ts 2 0 c1 with ⟨gOut, c2'⟩
        rcases hrest : spanLoop re i pIds tr ts fuel (j + 1) (existing ++ [sp.1.id]) c2' with ⟨rest, c3⟩
        simp only [hsp, hg, hrest]
        have h1 := spanOnce_u re i j tr existing ts ⟨c.r + 1, c.u⟩
        rw [hsp] at h1
        have h2 := genLoop_u re i j pIds tr sp.1.id sp.2.1 sp.2.2 ts 2 0 c1
        rw [hg] at h2
        have h3 := ih (j + 1) (existing ++ [sp.1.id]) c2'
        rw [hrest] at h3
        simp only [] at h1 h2 h3 ⊢
        omega
      · simp

theorem spanLoop_tied (re : RandEnv) (i : Nat) (pIds : String → List String)
    (tr : TraceObj) (ts : Int) :
    ∀ fuel j existing c,
      ∀ o ∈ (spanLoop re i pIds tr ts fuel j existing c).1.obs ++
        (spanLoop re i pIds tr ts fuel j existing c).1.events,
      o.traceId = tr.id ∧ o.projectId = tr.projectId := by
  intro fuel
  induction fuel with
  | zero => intro j existing c; simp [spanLoop]
  | succ fuel ih =>
    intro j existing c
    rw [spanLoop]
    split
    next x r2 c2 heq =>
      split
      · rcases hsp : spanOnce re i j tr existing ts c2 with ⟨sp, c1⟩
        rcases hg : genLoop re i j pIds tr sp.1.id sp.2.1 sp.2.2 ts 2 0 c1 with ⟨gOut, c2'⟩
        rcases hrest : spanLoop re i pIds tr ts fuel (j + 1) (existing ++ [sp.1.id]) c2' with ⟨rest, c3⟩
        simp only [hsp, hg, hrest]
        intro o ho
        simp only [SpanOut.app, List.cons_append, List.nil_append, List.mem_append,
          List.mem_cons] at ho
        have hspf := spanOnce_fields re i j tr existing ts c2
        rw [hsp] at hspf
        have hrec := ih (j + 1) (existing ++ [sp.1.id]) c2'
        rw [hrest] at hrec
        have hgo := genLoop_obs_inv re i j pIds tr sp.1.id sp.2.1 sp.2.2 ts 2 0 c1
        rw [hg] at hgo
        have hge := genLoop_events_inv re i j pIds tr sp.1.id sp.2.1 sp.2.2 ts 2 0 c1
        rw [hg] at hge
        rcases ho with rfl | (ho | ho) | ho | ho
        · exact ⟨hspf.2.1, hspf.2.2⟩
        · exact ⟨(hgo o ho).2.1, (hgo o ho).2.2.1⟩
        · exact hrec o (List.mem_append.mpr (Or.inl ho))
        · exact ⟨(hge o ho).2.1, (hge o ho).2.2.1⟩
        · exact hrec o (List.mem_append.mpr (Or.inr ho))
      · simp

theorem spanLoop_scores_inv (re : RandEnv) (i : Nat) (pIds : String → List String)
    (tr : TraceObj) (ts : Int) :
    ∀ fuel j existing c, ∀ s ∈ (spanLoop re i pIds tr ts fuel j existing c).1.scores,
      s.traceId = tr.id ∧ s.projectId = tr.projectId ∧ s.dataType = none ∧
        s.configId = none := by
  intro fuel
  induction fuel with
  | zero => intro j existing c; simp [spanLoop]
  | succ fuel ih =>
    intro j existing c
    rw [spanLoop]
    split
    next x r2 c2 heq =>
      split
      · rcases hsp : spanOnce re i j tr existing ts c2 with ⟨sp, c1⟩
        rcases hg : genLoop re i j pIds tr sp.1.id sp.2.1 sp.2.2 ts 2 0 c1 with ⟨gOut, c2'⟩
        rcases hrest : spanLoop re i pIds tr ts fuel (j + 1) (existing ++ [sp.1.id]) c2' with ⟨rest, c3⟩
        simp only [hsp, hg, hrest]
        intro s hs
        simp only [SpanOut.app, List.nil_append, List.mem_append] at hs
        have hgs := genLoop_scores_inv re i j pIds tr sp.1.id sp.2.1 sp.2.2 ts 2 0 c1
        rw [hg] at hgs
        have hrec := ih (j + 1) (existing ++ [sp.1.id]) c2'
        rw [hrest] at hrec
        rcases hs with hs | hs
        · exact hgs s hs
        · exact hrec s hs
      · simp

theorem spanLoop_parent (re : RandEnv) (i : Nat) (pIds : String → List String)
    (tr : TraceObj) (ts : Int) :
    ∀ fuel j existing c,
      ∀ o ∈ (spanLoop re i pIds tr ts fuel j existing c).1.obs ++
        (spanLoop re i pIds tr ts fuel j existing c).1.events,
      ∀ p, o.parentObservationId = some p →
        p ∈ existing ∨ ∃ sp ∈ (spanLoop re i pIds tr ts fuel j existing c).1.obs,
          sp.id = p ∧ sp.type = "SPAN" := by
  intro fuel
  induction fuel with
  | zero => intro j existing c; simp [spanLoop]
  | succ fuel ih =>
    intro j existing c
    rw [spanLoop]
    split
    next x r2 c2 heq =>
      split
      · rcases hsp : spanOnce re i j tr existing ts c2 with ⟨sp, c1⟩
        rcases hg : genLoop re i j pIds tr sp.1.id sp.2.1 sp.2.2 ts 2 0 c1 with ⟨gOut, c2'⟩
        rcases hrest : spanLoop re i pIds tr ts fuel (j + 1) (existing ++ [sp.1.id]) c2' with ⟨rest, c3⟩
        simp only [hsp, hg, hrest]
        have hspf := spanOnce_fields re i j tr existing ts c2
        rw [hsp] at hspf
        have hsp_mem : sp.1 ∈ (({ obs := [sp.1] } : SpanOut).app (gOut.app rest)).obs := by
          simp [SpanOut.app]
        have hgo := genLoop_obs_inv re i j pIds tr sp.1.id sp.2.1 sp.2.2 ts 2 0 c1
        rw [hg] at hgo
        have hge := genLoop_events_inv re i j pIds tr sp.1.id sp.2.1 sp.2.2 ts 2 0 c1
        rw [hg] at hge
        have hrec := ih (j + 1) (existing ++ [sp.1.id]) c2'
        rw [hrest] at hrec
        intro o ho p hp
        simp only [SpanOut.app, List.cons_append, List.nil_append, List.mem_append,
          List.mem_cons] at ho
        rcases ho with rfl | (ho | ho) | ho | ho
        · -- the span itself: its parent is drawn from `existing`
          have := spanOnce_parent re i j tr existing ts c2 p
          rw [hsp] at this
          exact Or.inl (this hp)
        · -- a generation: parent is its span
          have hpo := (hgo o ho).2.2.2
          rw [hp] at hpo
          exact Or.inr ⟨sp.1, hsp_mem, (Option.some.inj hpo).symm, hspf.1⟩
        · -- obs from the recursive call
          rcases hrec o (List.mem_append.mpr (Or.inl ho)) p hp with hmem | ⟨sp', hsp', hid, hty⟩
          · rcases List.mem_append.mp hmem with hmem | hmem
            · exact Or.inl hmem
            · have : p = sp.1.id := List.mem_singleton.mp hmem
              exact Or.inr ⟨sp.1, hsp_mem, this.symm, hspf.1⟩
          · refine Or.inr ⟨sp', ?_, hid, hty⟩
            simp only [SpanOut.app, List.cons_append, List.nil_append, List.mem_cons,
              List.mem_append]
            exact Or.inr (Or.inr hsp')
        · -- an event: parent is its span
          have hpo := (hge o ho).2.2.2
          rw [hp] at hpo
          exact Or.inr ⟨sp.1, hsp_mem, (Option.some.inj hpo).symm, hspf.1⟩
        · -- events from the recursive call
          rcases hrec o (List.mem_append.mpr (Or.inr ho)) p hp with hmem | ⟨sp', hsp', hid, hty⟩
          · rcases List.mem_append.mp hmem with hmem | hmem
            · exact Or.inl hmem
            · have : p = sp.1.id := List.mem_singleton.mp hmem
              exact Or.inr ⟨sp.1, hsp_mem, this.symm, hspf.1⟩
          · refine Or.inr ⟨sp', ?_, hid, hty⟩
            simp only [SpanOut.app, List.cons_append, List.nil_append, List.mem_cons,
              List.mem_append]
            exact Or.inr (Or.inr hsp')
      · simp

theorem iterTrace_tr (re : RandEnv) (eT cT : List (Option String)) (p1 p2 : Proj)
    (i : Nat) (c : Ctr) :
    (iterTrace re eT cT p1 p2 i c).1.1.id = "trace-" ++ re.uuid c.u ∧
    (iterTrace re eT cT p1 p2 i c).1.1.projectId =
      (if i % 2 = 0 then p1.id else p2.id) := by
  rw [iterTrace]
  simp only [draw, drawU]
  simp

theorem iterTrace_u (re : RandEnv) (eT cT : List (Option String)) (p1 p2 : Proj)
    (i : Nat) (c : Ctr) :
    (iterTrace re eT cT p1 p2 i c).2.u = c.u + 1 := by
  rw [iterTrace]
  simp only [draw, drawU]

theorem iterTrace_sess (re : RandEnv) (eT cT : List (Option String)) (p1 p2 : Proj)
    (i : Nat) (c : Ctr) (s : Session)
    (h : (iterTrace re eT cT p1 p2 i c).1.2.1 = some s) :
    s.id = "session-" ++ toString (i % 3) ∧
      s.projectId = (iterTrace re eT cT p1 p2 i c).1.1.projectId := by
  rw [iterTrace] at h ⊢
  simp only [draw, drawU] at h ⊢
  split at h
  · cases Option.some.inj h
    exact ⟨rfl, rfl⟩
  · exact absurd h (by simp)

theorem pickedConfig_mem {configArray : List ConfigParam} {randomIndex : Int}
    {cp : ConfigParam} (h : pickedConfig configArray randomIndex = some cp) :
    cp ∈ configArray := by
  rw [pickedConfig] at h
  split at h
  · exact jsGet_mem h
  · exact absurd h (by simp)

theorem configValueStep_u (re : RandEnv) (cfg : String → List ConfigParam)
    (tr : TraceObj) (c : Ctr) : (configValueStep re cfg tr c).2.u = c.u := by
  rw [configValueStep]; simp only [draw]

theorem configValueStep_mem (re : RandEnv) (cfg : String → List ConfigParam)
    (tr : TraceObj) (c : Ctr) (cp : ConfigParam)
    (h : (configValueStep re cfg tr c).1.1 = some cp) : cp ∈ cfg tr.projectId := by
  rw [configValueStep] at h
  simp only [draw] at h
  exact pickedConfig_mem h

theorem queueItemStep_u (re : RandEnv) (q : String → List String)
    (tr : TraceObj) (c : Ctr) : (queueItemStep re q tr c).2.u = c.u := by
  rw [queueItemStep]; simp only [draw]

theorem queueItemStep_inv (re : RandEnv) (q : String → List String)
    (tr : TraceObj) (c : Ctr) :
    ∀ qi ∈ (queueItemStep re q tr c).1,
      qi.objType = "TRACE" ∧ qi.objectId = tr.id ∧ qi.projectId = tr.projectId ∧
        (q qi.projectId).head? = some qi.queueId := by
  rw [queueItemStep]
  simp only [draw]
  intro qi hqi
  split at hqi
  · split at hqi
    next qid hhead =>
      split at hqi
      · exact absurd hqi (by simp)
      · simp only [List.mem_singleton] at hqi
        subst hqi
        exact ⟨rfl, rfl, rfl, hhead⟩
    · exact absurd hqi (by simp)
  · exact absurd hqi (by simp)

theorem annScoreStep_u (re : RandEnv) (i : Nat) (tr : TraceObj) (traceTs : Int)
    (config : Option ConfigParam) (value : Int) (c : Ctr) :
    (annScoreStep re i tr traceTs config value c).2.u = c.u := by
  rw [annScoreStep]; simp only [draw]

theorem annScoreStep_inv (re : RandEnv) (i : Nat) (tr : TraceObj) (traceTs : Int)
    (cfgMap : String → List ConfigParam) (config : Option ConfigParam)
    (value : Int) (c : Ctr)
    (hconf : ∀ cp, config = some cp → cp ∈ cfgMap tr.projectId ∧ cp.id ≠ "") :
    ∀ s ∈ (annScoreStep re i tr traceTs config value c).1,
      s.traceId = tr.id ∧ s.projectId = tr.projectId ∧
        scoreDataTypeOk cfgMap s := by
  rw [annScoreStep]
  simp only [draw]
  intro s hs
  split at hs
  · simp only [List.mem_singleton] at hs
    subst hs
    refine ⟨rfl, rfl, ?_⟩
    rcases hc : config with - | cp
    · -- fallback `{ name: "manual-score", dataType: NUMERIC }`
      subst hc
      refine ⟨fun _ => by simp, fun hbool => by simp at hbool, fun hcat => by simp at hcat,
        fun cid hcid => by simp at hcid⟩
    · obtain ⟨hmem, hid⟩ := hconf cp hc
      subst hc
      rcases hdt : cp.dataType
      · -- NUMERIC
        refine ⟨fun _ => by simp [hdt], ?_, ?_, ?_⟩
        · intro hbool; simp [hdt] at hbool
        · intro hcat; simp [hdt] at hcat
        · intro cid hcid
          simp only [Option.map_some'] at hcid
          rw [if_neg hid] at hcid
          exact ⟨cp, hmem, Option.some.inj hcid, by simp [hdt]⟩
      · -- CATEGORICAL
        refine ⟨?_, ?_, ?_, ?_⟩
        · intro hnum; simp [hdt] at hnum
        · intro hbool; simp [hdt] at hbool
        · intro _
          refine Or.inr ⟨cp, hmem, ?_, hdt, value, by simp [hdt], by simp [hdt]⟩
          simp only [Option.map_some']
          rw [if_neg hid]
        · intro cid hcid
          simp only [Option.map_some'] at hcid
          rw [if_neg hid] at hcid
          exact ⟨cp, hmem, Option.some.inj hcid, by simp [hdt]⟩
      · -- BOOL
        refine ⟨?_, ?_, ?_, ?_⟩
        · intro hnum; simp [hdt] at hnum
        · intro _; exact ⟨value, by simp [hdt], by simp [hdt]⟩
        · intro hcat; simp [hdt] at hcat
        · intro cid hcid
          simp only [Option.map_some'] at hcid
          rw [if_neg hid] at hcid
          exact ⟨cp, hmem, Option.some.inj hcid, by simp [hdt]⟩
  · exact absurd hs (by simp)
theorem sentimentStep_sdto (cfgMap : String → List ConfigParam) (re : RandEnv)
    (tr : TraceObj) (traceTs : Int) (c : Ctr) :
    ∀ s ∈ (sentimentStep re tr traceTs c).1,
      s.traceId = tr.id ∧ s.projectId = tr.projectId ∧ scoreDataTypeOk cfgMap s := by
  intro s hs
  obtain ⟨h1, h2, h3, h4, h5, h6⟩ := sentimentStep_inv re tr traceTs c s hs
  refine ⟨h1, h2, fun _ => ⟨h5, h6⟩, fun hbool => ?_, fun hcat => ?_, fun cid hcid => ?_⟩
  · rw [h4] at hbool; exact absurd (Option.some.inj hbool) (by simp)
  · rw [h4] at hcat; exact absurd (Option.some.inj hcat) (by simp)
  · rw [h3] at hcid; exact absurd hcid (by simp)

theorem completenessStep_sdto (cfgMap : String → List ConfigParam) (re : RandEnv)
    (tr : TraceObj) (traceTs : Int) (c : Ctr) :
    ∀ s ∈ (completenessStep re tr traceTs c).1,
      s.traceId = tr.id ∧ s.projectId = tr.projectId ∧ scoreDataTypeOk cfgMap s := by
  intro s hs
  obtain ⟨h1, h2, h3, h4, h5, h6, h7⟩ := completenessStep_inv re tr traceTs c s hs
  refine ⟨h1, h2, fun hnum => ?_, fun hbool => ?_, fun _ => Or.inl ⟨h3, h6, h5, h7⟩,
    fun cid hcid => ?_⟩
  · rw [h4] at hnum; exact absurd (Option.some.inj hnum) (by simp)
  · rw [h4] at hbool; exact absurd (Option.some.inj hbool) (by simp)
  · rw [h3] at hcid; exact absurd hcid (by simp)

theorem condScore_sdto (cfgMap : String → List ConfigParam) (re : RandEnv)
    (nm genId : String) (tr : TraceObj) (genEnd traceTs : Int) (c : Ctr) :
    ∀ s ∈ (condScore re nm genId tr genEnd traceTs c).1,
      s.traceId = tr.id ∧ s.projectId = tr.projectId ∧ scoreDataTypeOk cfgMap s := by
  intro s hs
  obtain ⟨h1, h2, h3, h4⟩ := condScore_inv re nm genId tr genEnd traceTs c s hs
  refine ⟨h1, h2, fun hnum => ?_, fun hbool => ?_, fun hcat => ?_, fun cid hcid => ?_⟩
  · rw [h3] at hnum; exact absurd hnum (by simp)
  · rw [h3] at hbool; exact absurd hbool (by simp)
  · rw [h3] at hcat; exact absurd hcat (by simp)
  · rw [h4] at hcid; exact absurd hcid (by simp)

theorem iterPre_parts (re : RandEnv) (eT cT : List (Option String)) (p1 p2 : Proj)
    (q : String → List String) (cfg : String → List ConfigParam) (i : Nat) (c : Ctr) :
    (iterPre re eT cT p1 p2 q cfg i c).1.tr = (iterTrace re eT cT p1 p2 i c).1.1 ∧
    (iterPre re eT cT p1 p2 q cfg i c).1.sess = (iterTrace re eT cT p1 p2 i c).1.2.1 ∧
    (iterPre re eT cT p1 p2 q cfg i c).2.u = c.u + 1 := by
  rw [iterPre]
  rcases hit : iterTrace re eT cT p1 p2 i c with ⟨⟨tr, sess, traceTs⟩, c1⟩
  simp only [traceCommentStep_u, completenessStep_u, sentimentStep_u, annScoreStep_u,
    queueItemStep_u, configValueStep_u]
  have hu := iterTrace_u re eT cT p1 p2 i c
  rw [hit] at hu
  exact ⟨trivial, trivial, hu⟩

theorem iterPre_qItems (re : RandEnv) (eT cT : List (Option String)) (p1 p2 : Proj)
    (q : String → List String) (cfg : String → List ConfigParam) (i : Nat) (c : Ctr) :
    ∀ qi ∈ (iterPre re eT cT p1 p2 q cfg i c).1.qItems,
      qi.objType = "TRACE" ∧ qi.objectId = (iterPre re eT cT p1 p2 q cfg i c).1.tr.id ∧
      qi.projectId = (iterPre re eT cT p1 p2 q cfg i c).1.tr.projectId ∧
        (q qi.projectId).head? = some qi.queueId := by
  rw [iterPre]
  rcases hit : iterTrace re eT cT p1 p2 i c with ⟨⟨tr, sess, traceTs⟩, c1⟩
  intro qi hqi
  exact queueItemStep_inv re q tr _ qi hqi

theorem iterPre_sess (re : RandEnv) (eT cT : List (Option String)) (p1 p2 : Proj)
    (q : String → List String) (cfg : String → List ConfigParam) (i : Nat) (c : Ctr)
    (s : Session) (h : (iterPre re eT cT p1 p2 q cfg i c).1.sess = some s) :
    s.id = "session-" ++ toString (i % 3) ∧
      s.projectId = (iterPre re eT cT p1 p2 q cfg i c).1.tr.projectId := by
  have hp := iterPre_parts re eT cT p1 p2 q cfg i c
  rw [hp.2.1] at h
  rw [hp.1]
  exact iterTrace_sess re eT cT p1 p2 i c s h

theorem iterPre_scores (re : RandEnv) (eT cT : List (Option String)) (p1 p2 : Proj)
    (q : String → List String) (cfg : String → List ConfigParam) (i : Nat) (c : Ctr)
    (hids : ∀ pid cp, cp ∈ cfg pid → cp.id ≠ "") :
    ∀ s ∈ (iterPre re eT cT p1 p2 q cfg i c).1.scores,
      s.traceId = (iterPre re eT cT p1 p2 q cfg i c).1.tr.id ∧
      s.projectId = (iterPre re eT cT p1 p2 q cfg i c).1.tr.projectId ∧
        scoreDataTypeOk cfg s := by
  rw [iterPre]
  rcases hit : iterTrace re eT cT p1 p2 i c with ⟨⟨tr, sess, traceTs⟩, c1⟩
  rcases hcv : configValueStep re cfg tr c1 with ⟨cv, c2⟩
  rcases hqs : queueItemStep re q tr c2 with ⟨qItems, c3⟩
  rcases hann : annScoreStep re i tr traceTs cv.1 cv.2 c3 with ⟨annS, c4⟩
  rcases hsent : sentimentStep re tr traceTs c4 with ⟨sentS, c5⟩
  rcases hcomp : completenessStep re tr traceTs c5 with ⟨compS, c6⟩
  simp only [hcv, hqs, hann, hsent, hcomp]
  intro s hs
  simp only [List.mem_append] at hs
  have hconf : ∀ cp, cv.1 = some cp → cp ∈ cfg tr.projectId ∧ cp.id ≠ "" := by
    intro cp hcp
    have := configValueStep_mem re cfg tr c1 cp (by rw [hcv]; exact hcp)
    exact ⟨this, hids tr.projectId cp this⟩
  rcases hs with (hs | hs) | hs
  · have := annScoreStep_inv re i tr traceTs cfg cv.1 cv.2 c3 hconf s (by rw [hann]; exact hs)
    exact this
  · have := sentimentStep_sdto cfg re tr traceTs c4 s (by rw [hsent]; exact hs)
    exact this
  · have := completenessStep_sdto cfg re tr traceTs c5 s (by rw [hcomp]; exact hs)
    exact this

theorem genIteration_tr (re : RandEnv) (eT cT : List (Option String)) (p1 p2 : Proj)
    (pIds q : String → List String) (cfg : String → List ConfigParam) (i : Nat) (c : Ctr) :
    (genIteration re eT cT p1 p2 pIds q cfg i c).1.tr =
      (iterPre re eT cT p1 p2 q cfg i c).1.tr := by
  rw [genIteration]

theorem genIteration_tr_id (re : RandEnv) (eT cT : List (Option String)) (p1 p2 : Proj)
    (pIds q : String → List String) (cfg : String → List ConfigParam) (i : Nat) (c : Ctr) :
    (genIteration re eT cT p1 p2 pIds q cfg i c).1.tr.id = "trace-" ++ re.uuid c.u ∧
    (genIteration re eT cT p1 p2 pIds q cfg i c).1.tr.projectId =
      (if i % 2 = 0 then p1.id else p2.id) := by
  rw [genIteration_tr, (iterPre_parts re eT cT p1 p2 q cfg i c).1]
  exact iterTrace_tr re eT cT p1 p2 i c

theorem genIteration_u (re : RandEnv) (eT cT : List (Option String)) (p1 p2 : Proj)
    (pIds q : String → List String) (cfg : String → List ConfigParam) (i : Nat) (c : Ctr) :
    c.u + 1 ≤ (genIteration re eT cT p1 p2 pIds q cfg i c).2.u := by
  rw [genIteration]
  rcases hpre : iterPre re eT cT p1 p2 q cfg i c with ⟨pre, c1⟩
  rcases hsl : spanLoop re i pIds pre.tr pre.traceTs 10 0 [] c1 with ⟨sOut, c2⟩
  simp only [hpre, hsl]
  have h1 := (iterPre_parts re eT cT p1 p2 q cfg i c).2.2
  rw [hpre] at h1
  have h2 := spanLoop_u re i pIds pre.tr pre.traceTs 10 0 [] c1
  rw [hsl] at h2
  simp only [] at h1 h2 ⊢
  omega

theorem genIteration_tied (re : RandEnv) (eT cT : List (Option String)) (p1 p2 : Proj)
    (pIds q : String → List String) (cfg : String → List ConfigParam) (i : Nat) (c : Ctr) :
    ∀ o ∈ (genIteration re eT cT p1 p2 pIds q cfg i c).1.obs ++
        (genIteration re eT cT p1 p2 pIds q cfg i c).1.events,
      o.traceId = (genIteration re eT cT p1 p2 pIds q cfg i c).1.tr.id ∧
      o.projectId = (genIteration re eT cT p1 p2 pIds q cfg i c).1.tr.projectId := by
  rw [genIteration]
  rcases hpre : iterPre re eT cT p1 p2 q cfg i c with ⟨pre, c1⟩
  rcases hsl : spanLoop re i pIds pre.tr pre.traceTs 10 0 [] c1 with ⟨sOut, c2⟩
  simp only [hpre, hsl]
  intro o ho
  have := spanLoop_tied re i pIds pre.tr pre.traceTs 10 0 [] c1
  rw [hsl] at this
  exact this o ho

theorem genIteration_parent (re : RandEnv) (eT cT : List (Option String)) (p1 p2 : Proj)
    (pIds q : String → List String) (cfg : String → List ConfigParam) (i : Nat) (c : Ctr) :
    ∀ o ∈ (genIteration re eT cT p1 p2 pIds q cfg i c).1.obs ++
        (genIteration re eT cT p1 p2 pIds q cfg i c).1.events,
      ∀ p, o.parentObservationId = some p →
        ∃ sp ∈ (genIteration re eT cT p1 p2 pIds q cfg i c).1.obs,
          sp.id = p ∧ sp.type = "SPAN" := by
  rw [genIteration]
  rcases hpre : iterPre re eT cT p1 p2 q cfg i c with ⟨pre, c1⟩
  rcases hsl : spanLoop re i pIds pre.tr pre.traceTs 10 0 [] c1 with ⟨sOut, c2⟩
  simp only [hpre, hsl]
  intro o ho p hp
  have := spanLoop_parent re i pIds pre.tr pre.traceTs 10 0 [] c1
  rw [hsl] at this
  rcases this o ho p hp with hmem | hsp
  · exact absurd hmem (List.not_mem_nil p)
  · exact hsp

theorem genIteration_scores (re : RandEnv) (eT cT : List (Option String)) (p1 p2 : Proj)
    (pIds q : String → List String) (cfg : String → List ConfigParam) (i : Nat) (c : Ctr)
    (hids : ∀ pid cp, cp ∈ cfg pid → cp.id ≠ "") :
    ∀ s ∈ (genIteration re eT cT p1 p2 pIds q cfg i c).1.scores,
      s.traceId = (genIteration re eT cT p1 p2 pIds q cfg i c).1.tr.id ∧
      s.projectId = (genIteration re eT cT p1 p2 pIds q cfg i c).1.tr.projectId ∧
        scoreDataTypeOk cfg s := by
  rw [genIteration]
  rcases hpre : iterPre re eT cT p1 p2 q cfg i c with ⟨pre, c1⟩
  rcases hsl : spanLoop re i pIds pre.tr pre.traceTs 10 0 [] c1 with ⟨sOut, c2⟩
  simp only [hpre, hsl]
  intro s hs
  simp only [List.mem_append] at hs
  rcases hs with hs | hs
  · have := iterPre_scores re eT cT p1 p2 q cfg i c hids s (by rw [hpre]; exact hs)
    rw [hpre] at this
    exact this
  · have hsc := spanLoop_scores_inv re i pIds pre.tr pre.traceTs 10 0 [] c1
    rw [hsl] at hsc
    obtain ⟨h1, h2, h3, h4⟩ := hsc s hs
    refine ⟨h1, h2, fun hnum => ?_, fun hbool => ?_, fun hcat => ?_, fun cid hcid => ?_⟩
    · rw [h3] at hnum; exact absurd hnum (by simp)
    · rw [h3] at hbool; exact absurd hbool (by simp)
    · rw [h3] at hcat; exact absurd hcat (by simp)
    · rw [h4] at hcid; exact absurd hcid (by simp)

theorem genIteration_qItems (re : RandEnv) (eT cT : List (Option String)) (p1 p2 : Proj)
    (pIds q : String → List String) (cfg : String → List ConfigParam) (i : Nat) (c : Ctr) :
    ∀ qi ∈ (genIteration re eT cT p1 p2 pIds q cfg i c).1.qItems,
      qi.objType = "TRACE" ∧
      qi.objectId = (genIteration re eT cT p1 p2 pIds q cfg i c).1.tr.id ∧
      qi.projectId = (genIteration re eT cT p1 p2 pIds q cfg i c).1.tr.projectId ∧
        (q qi.projectId).head? = some qi.queueId := by
  rw [genIteration]
  rcases hpre : iterPre re eT cT p1 p2 q cfg i c with ⟨pre, c1⟩
  rcases hsl : spanLoop re i pIds pre.tr pre.traceTs 10 0 [] c1 with ⟨sOut, c2⟩
  simp only [hpre, hsl]
  intro qi hqi
  have := iterPre_qItems re eT cT p1 p2 q cfg i c qi (by rw [hpre]; exact hqi)
  rw [hpre] at this
  exact this

theorem genIteration_sess (re : RandEnv) (eT cT : List (Option String)) (p1 p2 : Proj)
    (pIds q : String → List String) (cfg : String → List ConfigParam) (i : Nat) (c : Ctr)
    (s : Session) (h : (genIteration re eT cT p1 p2 pIds q cfg i c).1.sess = some s) :
    s.id = "session-" ++ toString (i % 3) ∧
      s.projectId = (genIteration re eT cT p1 p2 pIds q cfg i c).1.tr.projectId := by
  rw [genIteration] at h ⊢
  rcases hpre : iterPre re eT cT p1 p2 q cfg i c with ⟨pre, c1⟩
  rcases hsl : spanLoop re i pIds pre.tr pre.traceTs 10 0 [] c1 with ⟨sOut, c2⟩
  simp only [hpre, hsl] at h ⊢
  have := iterPre_sess re eT cT p1 p2 q cfg i c s (by rw [hpre]; exact h)
  rw [hpre] at this
  exact this

theorem createLoop_len (re : RandEnv) (eT cT : List (Option String)) (p1 p2 : Proj)
    (pIds q : String → List String) (cfg : String → List ConfigParam) :
    ∀ n i c, (createLoop re eT cT p1 p2 pIds q cfg n i c).1.traces.length = n := by
  intro n
  induction n with
  | zero => intro i c; simp [createLoop]
  | succ n ih =>
    intro i c
    rw [createLoop]
    rcases hit : genIteration re eT cT p1 p2 pIds q cfg i c with ⟨it, c1⟩
    rcases hrest : createLoop re eT cT p1 p2 pIds q cfg n (i + 1) c1 with ⟨rest, c2⟩
    simp only [hit, hrest, List.length_cons]
    have := ih (i + 1) c1
    rw [hrest] at this
    simp only [] at this
    omega

theorem createLoop_trace_ids (re : RandEnv) (eT cT : List (Option String)) (p1 p2 : Proj)
    (pIds q : String → List String) (cfg : String → List ConfigParam) :
    ∀ n i c, ∀ t ∈ (createLoop re eT cT p1 p2 pIds q cfg n i c).1.traces,
      ∃ m, c.u ≤ m ∧ t.id = "trace-" ++ re.uuid m := by
  intro n
  induction n with
  | zero => intro i c; simp [createLoop]
  | succ n ih =>
    intro i c
    rw [createLoop]
    rcases hit : genIteration re eT cT p1 p2 pIds q cfg i c with ⟨it, c1⟩
    rcases hrest : createLoop re eT cT p1 p2 pIds q cfg n (i + 1) c1 with ⟨rest, c2⟩
    simp only [hit, hrest]
    intro t ht
    rcases List.mem_cons.mp ht with rfl | ht
    · refine ⟨c.u, le_refl _, ?_⟩
      have := (genIteration_tr_id re eT cT p1 p2 pIds q cfg i c).1
      rw [hit] at this
      exact this
    · have hrec := ih (i + 1) c1
      rw [hrest] at hrec
      obtain ⟨m, hm, hid⟩ := hrec t ht
      refine ⟨m, le_trans ?_ hm, hid⟩
      have := genIteration_u re eT cT p1 p2 pIds q cfg i c
      rw [hit] at this
      simp only [] at this
      omega

theorem createLoop_nodup (re : RandEnv) (eT cT : List (Option String)) (p1 p2 : Proj)
    (pIds q : String → List String) (cfg : String → List ConfigParam)
    (hinj : Function.Injective re.uuid) :
    ∀ n i c, ((createLoop re eT cT p1 p2 pIds q cfg n i c).1.traces.map
      (fun t => t.id)).Nodup := by
  intro n
  induction n with
  | zero => intro i c; simp [createLoop]
  | succ n ih =>
    intro i c
    rw [createLoop]
    rcases hit : genIteration re eT cT p1 p2 pIds q cfg i c with ⟨it, c1⟩
    rcases hrest : createLoop re eT cT p1 p2 pIds q cfg n (i + 1) c1 with ⟨rest, c2⟩
    simp only [hit, hrest, List.map_cons, List.nodup_cons]
    constructor
    · intro hmem
      obtain ⟨t, ht, hid⟩ := List.mem_map.mp hmem
      have hrec := createLoop_trace_ids re eT cT p1 p2 pIds q cfg n (i + 1) c1
      rw [hrest] at hrec
      obtain ⟨m, hm, hid2⟩ := hrec t ht
      have hcu := (genIteration_tr_id re eT cT p1 p2 pIds q cfg i c).1
      rw [hit] at hcu
      have hgu := genIteration_u re eT cT p1 p2 pIds q cfg i c
      rw [hit] at hgu
      simp only [] at hgu
      have heq : "trace-" ++ re.uuid m = "trace-" ++ re.uuid c.u := by
        rw [← hid2, hid, hcu]
      have := hinj (strAppend_left_cancel heq)
      omega
    · have := ih (i + 1) c1
      rw [hrest] at this
      exact this

theorem createLoop_obs (re : RandEnv) (eT cT : List (Option String)) (p1 p2 : Proj)
    (pIds q : String → List String) (cfg : String → List ConfigParam) :
    ∀ n i c, ∀ o ∈ (createLoop re eT cT p1 p2 pIds q cfg n i c).1.observations ++
        (createLoop re eT cT p1 p2 pIds q cfg n i c).1.events,
      ∃ t ∈ (createLoop re eT cT p1 p2 pIds q cfg n i c).1.traces,
        o.traceId = t.id ∧ o.projectId = t.projectId ∧
        (∀ p, o.parentObservationId = some p →
          ∃ par ∈ (createLoop re eT cT p1 p2 pIds q cfg n i c).1.observations,
            par.id = p ∧ par.traceId = o.traceId) := by
  intro n
  induction n with
  | zero => intro i c; simp [createLoop]
  | succ n ih =>
    intro i c
    rw [createLoop]
    rcases hit : genIteration re eT cT p1 p2 pIds q cfg i c with ⟨it, c1⟩
    rcases hrest : createLoop re eT cT p1 p2 pIds q cfg n (i + 1) c1 with ⟨rest, c2⟩
    simp only [hit, hrest]
    intro o ho
    have htied := genIteration_tied re eT cT p1 p2 pIds q cfg i c
    rw [hit] at htied
    have hpar := genIteration_parent re eT cT p1 p2 pIds q cfg i c
    rw [hit] at hpar
    simp only [List.mem_append] at ho
    rcases ho with ho | ho
    on_goal 1 => rcases ho with ho | ho
    · -- observation of this iteration
      refine ⟨it.tr, List.mem_cons_self _ _, (htied o (by simp [ho])).1,
        (htied o (by simp [ho])).2, ?_⟩
      intro p hp
      obtain ⟨sp, hsp, hspid, -⟩ := hpar o (by simp [ho]) p hp
      exact ⟨sp, by simp [hsp], hspid,
        by rw [(htied sp (by simp [hsp])).1, (htied o (by simp [ho])).1]⟩
    · -- observation of a later iteration
      obtain ⟨t, ht, h1, h2, h3⟩ := ih (i + 1) c1 o (by rw [hrest]; simp [ho])
      rw [hrest] at ht h3
      refine ⟨t, List.mem_cons_of_mem _ ht, h1, h2, ?_⟩
      intro p hp
      obtain ⟨par, hpar', hp1, hp2⟩ := h3 p hp
      exact ⟨par, by simp [hpar'], hp1, hp2⟩
    on_goal 1 => rcases ho with ho | ho
    · -- event of this iteration
      refine ⟨it.tr, List.mem_cons_self _ _, (htied o (by simp [ho])).1,
        (htied o (by simp [ho])).2, ?_⟩
      intro p hp
      obtain ⟨sp, hsp, hspid, -⟩ := hpar o (by simp [ho]) p hp
      exact ⟨sp, by simp [hsp], hspid,
        by rw [(htied sp (by simp [hsp])).1, (htied o (by simp [ho])).1]⟩
    · -- event of a later iteration
      obtain ⟨t, ht, h1, h2, h3⟩ := ih (i + 1) c1 o (by rw [hrest]; simp [ho])
      rw [hrest] at ht h3
      refine ⟨t, List.mem_cons_of_mem _ ht, h1, h2, ?_⟩
      intro p hp
      obtain ⟨par, hpar', hp1, hp2⟩ := h3 p hp
      exact ⟨par, by simp [hpar'], hp1, hp2⟩

theorem createLoop_proj (re : RandEnv) (eT cT : List (Option String)) (p1 p2 : Proj)
    (pIds q : String → List String) (cfg : String → List ConfigParam) :
    ∀ n i c k, k < n →
      (((createLoop re eT cT p1 p2 pIds q cfg n i c).1.traces.getD k
        default).projectId) = (if (i + k) % 2 = 0 then p1.id else p2.id) := by
  intro n
  induction n with
  | zero => intro i c k hk; omega
  | succ n ih =>
    intro i c k hk
    rw [createLoop]
    rcases hit : genIteration re eT cT p1 p2 pIds q cfg i c with ⟨it, c1⟩
    rcases hrest : createLoop re eT cT p1 p2 pIds q cfg n (i + 1) c1 with ⟨rest, c2⟩
    simp only [hit, hrest]
    match k with
    | 0 =>
      simp only [List.getD_cons_zero, Nat.add_zero]
      have := (genIteration_tr_id re eT cT p1 p2 pIds q cfg i c).2
      rw [hit] at this
      exact this
    | k + 1 =>
      simp only [List.getD_cons_succ]
      have := ih (i + 1) c1 k (by omega)
      rw [hrest] at this
      simp only [] at this
      rw [this]
      have : i + 1 + k = i + (k + 1) := by omega
      rw [this]

theorem createLoop_sessions (re : RandEnv) (eT cT : List (Option String)) (p1 p2 : Proj)
    (pIds q : String → List String) (cfg : String → List ConfigParam) :
    ∀ n i c, ∀ s ∈ (createLoop re eT cT p1 p2 pIds q cfg n i c).1.sessions,
      ∃ m, s.id = "session-" ++ toString (m % 3) := by
  intro n
  induction n with
  | zero => intro i c; simp [createLoop]
  | succ n ih =>
    intro i c
    rw [createLoop]
    rcases hit : genIteration re eT cT p1 p2 pIds q cfg i c with ⟨it, c1⟩
    rcases hrest : createLoop re eT cT p1 p2 pIds q cfg n (i + 1) c1 with ⟨rest, c2⟩
    simp only [hit, hrest]
    intro s hs
    simp only [List.mem_append] at hs
    rcases hs with hs | hs
    · rcases hsess : it.sess with - | s'
      · rw [hsess] at hs; simp at hs
      · rw [hsess] at hs
        simp only [List.mem_singleton] at hs
        subst hs
        have := genIteration_sess re eT cT p1 p2 pIds q cfg i c s (by rw [hit]; exact hsess)
        exact ⟨i, this.1⟩
    · have := ih (i + 1) c1
      rw [hrest] at this
      exact this s hs

theorem createLoop_qItems (re : RandEnv) (eT cT : List (Option String)) (p1 p2 : Proj)
    (pIds q : String → List String) (cfg : String → List ConfigParam) :
    ∀ n i c, ∀ qi ∈ (createLoop re eT cT p1 p2 pIds q cfg n i c).1.queueItems,
      qi.objType = "TRACE" ∧
      (∃ t ∈ (createLoop re eT cT p1 p2 pIds q cfg n i c).1.traces,
        t.id = qi.objectId ∧ t.projectId = qi.projectId) ∧
      (q qi.projectId).head? = some qi.queueId := by
  intro n
  induction n with
  | zero => intro i c; simp [createLoop]
  | succ n ih =>
    intro i c
    rw [createLoop]
    rcases hit : genIteration re eT cT p1 p2 pIds q cfg i c with ⟨it, c1⟩
    rcases hrest : createLoop re eT cT p1 p2 pIds q cfg n (i + 1) c1 with ⟨rest, c2⟩
    simp only [hit, hrest]
    intro qi hqi
    simp only [List.mem_append] at hqi
    rcases hqi with hqi | hqi
    · have := genIteration_qItems re eT cT p1 p2 pIds q cfg i c qi (by rw [hit]; exact hqi)
      rw [hit] at this
      exact ⟨this.1, ⟨it.tr, List.mem_cons_self _ _, this.2.1.symm, this.2.2.1.symm⟩,
        this.2.2.2⟩
    · obtain ⟨h1, ⟨t, ht, h2, h3⟩, h4⟩ := ih (i + 1) c1 qi (by rw [hrest]; exact hqi)
      rw [hrest] at ht
      exact ⟨h1, ⟨t, List.mem_cons_of_mem _ ht, h2, h3⟩, h4⟩

theorem createLoop_scores (re : RandEnv) (eT cT : List (Option String)) (p1 p2 : Proj)
    (pIds q : String → List String) (cfg : String → List ConfigParam)
    (hids : ∀ pid cp, cp ∈ cfg pid → cp.id ≠ "") :
    ∀ n i c, ∀ s ∈ (createLoop re eT cT p1 p2 pIds q cfg n i c).1.scores,
      scoreDataTypeOk cfg s := by
  intro n
  induction n with
  | zero => intro i c; simp [createLoop]
  | succ n ih =>
    intro i c
    rw [createLoop]
    rcases hit : genIteration re eT cT p1 p2 pIds q cfg i c with ⟨it, c1⟩
    rcases hrest : createLoop re eT cT p1 p2 pIds q cfg n (i + 1) c1 with ⟨rest, c2⟩
    simp only [hit, hrest]
    intro s hs
    simp only [List.mem_append] at hs
    rcases hs with hs | hs
    · exact ((genIteration_scores re eT cT p1 p2 pIds q cfg i c hids s
        (by rw [hit]; exact hs))).2.2
    · have := ih (i + 1) c1
      rw [hrest] at this
      exact this s hs

theorem dedupSessions_sub : ∀ (l seen : List Session) (s : Session),
    s ∈ dedupSessions seen l → s ∈ l := by
  intro l
  induction l with
  | nil => intro seen s h; simp [dedupSessions] at h
  | cons a l ih =>
    intro seen s h
    rw [dedupSessions] at h
    split at h
    · exact List.mem_cons_of_mem _ (ih seen s h)
    · rcases List.mem_cons.mp h with rfl | h
      · exact List.mem_cons_self _ _
      · exact List.mem_cons_of_mem _ (ih _ s h)

theorem dedupSessions_not_seen : ∀ (l seen : List Session) (s : Session),
    s ∈ dedupSessions seen l → s ∉ seen := by
  intro l
  induction l with
  | nil => intro seen s h; simp [dedupSessions] at h
  | cons a l ih =>
    intro seen s h
    rw [dedupSessions] at h
    split at h
    · exact ih seen s h
    · rcases List.mem_cons.mp h with rfl | h
      · assumption
      · intro hmem
        exact ih _ s h (List.mem_cons_of_mem _ hmem)

theorem dedupSessions_nodup : ∀ (l seen : List Session),
    (dedupSessions seen l).Nodup := by
  intro l
  induction l with
  | nil => intro seen; simp [dedupSessions]
  | cons a l ih =>
    intro seen
    rw [dedupSessions]
    split
    · exact ih seen
    · refine List.nodup_cons.mpr ⟨?_, ih (a :: seen)⟩
      intro hmem
      exact dedupSessions_not_seen l (a :: seen) a hmem (List.mem_cons_self _ _)

theorem createObjects_fields (re : RandEnv) (n : Nat) (eT cT : List (Option String))
    (p1 p2 : Proj) (pIds q : String → List String) (cfg : String → List ConfigParam) :
    (createObjects re n eT cT p1 p2 pIds q cfg).traces =
      (createLoop re eT cT p1 p2 pIds q cfg n 0 ⟨0, 0⟩).1.traces ∧
    (createObjects re n eT cT p1 p2 pIds q cfg).observations =
      (createLoop re eT cT p1 p2 pIds q cfg n 0 ⟨0, 0⟩).1.observations ∧
    (createObjects re n eT cT p1 p2 pIds q cfg).events =
      (createLoop re eT cT p1 p2 pIds q cfg n 0 ⟨0, 0⟩).1.events ∧
    (createObjects re n eT cT p1 p2 pIds q cfg).scores =
      (createLoop re eT cT p1 p2 pIds q cfg n 0 ⟨0, 0⟩).1.scores ∧
    (createObjects re n eT cT p1 p2 pIds q cfg).queueItems =
      (createLoop re eT cT p1 p2 pIds q cfg n 0 ⟨0, 0⟩).1.queueItems ∧
    (createObjects re n eT cT p1 p2 pIds q cfg).sessions =
      dedupSessions [] (createLoop re eT cT p1 p2 pIds q cfg n 0 ⟨0, 0⟩).1.sessions := by
  rw [createObjects, createObjectsRun]
  rcases hcl : createLoop re eT cT p1 p2 pIds q cfg n 0 ⟨0, 0⟩ with ⟨out, c⟩
  simp only [hcl]
  simp

theorem reInj_uuid_injective : Function.Injective reInj.uuid := by
  intro m n h
  have : (String.mk (List.replicate m 'a')).data = (String.mk (List.replicate n 'a')).data :=
    congrArg String.data h
  simpa using congrArg List.length this

/-- C3: Every observation (span, generation, or event) generated by
`createObjects` belongs to exactly one trace and one project: its
`traceId` equals the id of the enclosing trace (unique among the generated
traces, given an injective uuid stream), its `projectId` equals that
trace's `projectId`, and when it has a `parentObservationId` that parent
is an observation of the same trace. -/
theorem claim_C3_observation_membership (re : RandEnv) (n : Nat)
    (eT cT : List (Option String)) (p1 p2 : Proj)
    (pIds q : String → List String) (cfg : String → List ConfigParam)
    (hinj : Function.Injective re.uuid) :
    ∀ o ∈ (createObjects re n eT cT p1 p2 pIds q cfg).observations ++
        (createObjects re n eT cT p1 p2 pIds q cfg).events,
      (∃ t ∈ (createObjects re n eT cT p1 p2 pIds q cfg).traces,
        o.traceId = t.id ∧ o.projectId = t.projectId ∧
        ∀ t' ∈ (createObjects re n eT cT p1 p2 pIds q cfg).traces,
          t'.id = o.traceId → t' = t) ∧
      (∀ p, o.parentObservationId = some p →
        ∃ par ∈ (createObjects re n eT cT p1 p2 pIds q cfg).observations,
          par.id = p ∧ par.traceId = o.traceId) := by
  obtain ⟨htr, hob, hev, -, -, -⟩ := createObjects_fields re n eT cT p1 p2 pIds q cfg
  rw [htr, hob, hev]
  intro o ho
  obtain ⟨t, ht, h1, h2, h3⟩ := createLoop_obs re eT cT p1 p2 pIds q cfg n 0 ⟨0, 0⟩ o ho
  have hnodup := createLoop_nodup re eT cT p1 p2 pIds q cfg hinj n 0 ⟨0, 0⟩
  refine ⟨⟨t, ht, h1, h2, ?_⟩, h3⟩
  intro t' ht' hid
  exact List.inj_on_of_nodup_map hnodup ht' ht (by rw [hid, h1])

/-- C9: `createObjects` returns exactly `traceVolume` traces; trace `k`
(0-based) belongs to `project1` when `k` is even and to `project2` when
`k` is odd; the returned sessions are pairwise distinct records (so no
`(id, projectId)` pair repeats) and every session id is one of
`session-0`, `session-1`, `session-2`. -/
theorem claim_C9_volume_parity_sessions (re : RandEnv) (n : Nat)
    (eT cT : List (Option String)) (p1 p2 : Proj)
    (pIds q : String → List String) (cfg : String → List ConfigParam) :
    (createObjects re n eT cT p1 p2 pIds q cfg).traces.length = n ∧
    (∀ k, k < n →
      ((createObjects re n eT cT p1 p2 pIds q cfg).traces.getD k default).projectId =
        (if k % 2 = 0 then p1.id else p2.id)) ∧
    (createObjects re n eT cT p1 p2 pIds q cfg).sessions.Nodup ∧
    (∀ s ∈ (createObjects re n eT cT p1 p2 pIds q cfg).sessions,
      s.id = "session-0" ∨ s.id = "session-1" ∨ s.id = "session-2") := by
  obtain ⟨htr, -, -, -, -, hse⟩ := createObjects_fields re n eT cT p1 p2 pIds q cfg
  rw [htr, hse]
  refine ⟨createLoop_len re eT cT p1 p2 pIds q cfg n 0 ⟨0, 0⟩, ?_, ?_, ?_⟩
  · intro k hk
    have := createLoop_proj re eT cT p1 p2 pIds q cfg n 0 ⟨0, 0⟩ k hk
    simpa using this
  · exact dedupSessions_nodup _ []
  · intro s hs
    have hmem := dedupSessions_sub _ [] s hs
    obtain ⟨m, hid⟩ := createLoop_sessions re eT cT p1 p2 pIds q cfg n 0 ⟨0, 0⟩ s hmem
    have h3 : m % 3 = 0 ∨ m % 3 = 1 ∨ m % 3 = 2 := by omega
    rcases h3 with h | h | h <;> rw [h] at hid
    · exact Or.inl (by rw [hid]; rfl)
    · exact Or.inr (Or.inl (by rw [hid]; rfl))
    · exact Or.inr (Or.inr (by rw [hid]; rfl))

/-- C8: Every annotation queue item generated by `createObjects`
references an existing queue and object: its `queueId` is the head of the
queue-id list for its own project (as supplied through `queueIds`, wired
to `generateQueues` by `main`), its `objectId` is the id of a trace
generated in the same run for that project, and its `objectType` is
`TRACE`. -/
theorem claim_C8_queue_items (re : RandEnv) (n : Nat)
    (eT cT : List (Option String)) (p1 p2 : Proj)
    (pIds q : String → List String) (cfg : String → List ConfigParam) :
    ∀ qi ∈ (createObjects re n eT cT p1 p2 pIds q cfg).queueItems,
      qi.objType = "TRACE" ∧
      (∃ t ∈ (createObjects re n eT cT p1 p2 pIds q cfg).traces,
        t.id = qi.objectId ∧ t.projectId = qi.projectId) ∧
      (q qi.projectId).head? = some qi.queueId := by
  obtain ⟨htr, -, -, -, hqi, -⟩ := createObjects_fields re n eT cT p1 p2 pIds q cfg
  rw [htr, hqi]
  exact createLoop_qItems re eT cT p1 p2 pIds q cfg n 0 ⟨0, 0⟩

/-- C2 (amended): how a score's `dataType` governs `value`/`stringValue`
in `createObjects`: NUMERIC scores carry a numeric `value` and no
`stringValue`; BOOLEAN scores carry the 0/1 `value` plus the hardcoded
`"True"`/`"False"` string (which coincides with the Toxicity config's
category lookup); CATEGORICAL scores are either config-backed annotation
scores whose `stringValue` is the label found in the config's categories
for the drawn value, or the hardcoded "Completeness" API score with
`stringValue` `"Fully"`/`"Partially"`, no numeric value and no config;
and any score with a `configId` carries its config's `dataType`. -/
theorem claim_C2_amended_scores (re : RandEnv) (n : Nat)
    (eT cT : List (Option String)) (p1 p2 : Proj)
    (pIds q : String → List String) (cfg : String → List ConfigParam)
    (hids : ∀ pid cp, cp ∈ cfg pid → cp.id ≠ "") :
    ∀ s ∈ (createObjects re n eT cT p1 p2 pIds q cfg).scores,
      scoreDataTypeOk cfg s := by
  obtain ⟨-, -, -, hsc, -, -⟩ := createObjects_fields re n eT cT p1 p2 pIds q cfg
  rw [hsc]
  exact createLoop_scores re eT cT p1 p2 pIds q cfg hids n 0 ⟨0, 0⟩

/-- C2 (counterexample): the claim as stated — every CATEGORICAL or
BOOLEAN score's `stringValue` is resolved via a score config's category
label-value lookup — is false: the hardcoded "Completeness" API score is
CATEGORICAL but has no config at all. -/
theorem claim_C2_counterexample :
    ¬ (∀ (re : RandEnv) (n : Nat) (eT cT : List (Option String)) (p1 p2 : Proj)
        (pIds q : String → List String) (cfg : String → List ConfigParam),
        ∀ s ∈ (createObjects re n eT cT p1 p2 pIds q cfg).scores,
          claimScoreViaConfig cfg s) := by
  intro h
  obtain ⟨s, hs, hcat⟩ : ∃ s ∈ (createObjects reA 1 envTagsMain colorTagsMain projA projB
      pIdsA qIdsA cfgEmpty).scores, s.dataType = some ScoreDataType.CATEGORICAL := by decide
  obtain ⟨cp, hcp, -⟩ := (h reA 1 envTagsMain colorTagsMain projA projB pIdsA qIdsA cfgEmpty
      s hs).2 (Or.inl hcat)
  exact absurd hcp (List.not_mem_nil cp)

theorem claim_C3_witness :
    Function.Injective reInj.uuid ∧
    (∃ t ∈ (createObjects reInj 1 envTagsMain colorTagsMain projA projB pIdsA qIdsA
        cfgEmpty).traces,
      ((createObjects reInj 1 envTagsMain colorTagsMain projA projB pIdsA qIdsA
        cfgEmpty).observations.getD 0 default).traceId = t.id ∧
      ((createObjects reInj 1 envTagsMain colorTagsMain projA projB pIdsA qIdsA
        cfgEmpty).observations.getD 0 default).projectId = t.projectId ∧
      ∀ t' ∈ (createObjects reInj 1 envTagsMain colorTagsMain projA projB pIdsA qIdsA
        cfgEmpty).traces,
        t'.id = ((createObjects reInj 1 envTagsMain colorTagsMain projA projB pIdsA qIdsA
          cfgEmpty).observations.getD 0 default).traceId → t' = t) :=
  ⟨reInj_uuid_injective,
    (claim_C3_observation_membership reInj 1 envTagsMain colorTagsMain projA projB pIdsA
      qIdsA cfgEmpty reInj_uuid_injective
      ((createObjects reInj 1 envTagsMain colorTagsMain projA projB pIdsA qIdsA
        cfgEmpty).observations.getD 0 default) (by decide)).1⟩

theorem claim_C9_witness :
    (createObjects reA 2 envTagsMain colorTagsMain projA projB pIdsA qIdsA
      cfgEmpty).traces.length = 2 ∧
    ((createObjects reA 2 envTagsMain colorTagsMain projA projB pIdsA qIdsA
      cfgEmpty).traces.getD 1 default).projectId =
      (if 1 % 2 = 0 then projA.id else projB.id) :=
  ⟨(claim_C9_volume_parity_sessions reA 2 envTagsMain colorTagsMain projA projB pIdsA
      qIdsA cfgEmpty).1,
   (claim_C9_volume_parity_sessions reA 2 envTagsMain colorTagsMain projA projB pIdsA
      qIdsA cfgEmpty).2.1 1 (by omega)⟩

theorem claim_C8_witness :
    ((createObjects reQ 1 envTagsMain colorTagsMain projA projB pIdsA qIdsA
      cfgEmpty).queueItems.getD 0 default).objType = "TRACE" ∧
    (∃ t ∈ (createObjects reQ 1 envTagsMain colorTagsMain projA projB pIdsA qIdsA
        cfgEmpty).traces,
      t.id = ((createObjects reQ 1 envTagsMain colorTagsMain projA projB pIdsA qIdsA
        cfgEmpty).queueItems.getD 0 default).objectId ∧
      t.projectId = ((createObjects reQ 1 envTagsMain colorTagsMain projA projB pIdsA
        qIdsA cfgEmpty).queueItems.getD 0 default).projectId) ∧
    (qIdsA ((createObjects reQ 1 envTagsMain colorTagsMain projA projB pIdsA qIdsA
      cfgEmpty).queueItems.getD 0 default).projectId).head? =
      some ((createObjects reQ 1 envTagsMain colorTagsMain projA projB pIdsA qIdsA
        cfgEmpty).queueItems.getD 0 default).queueId :=
  claim_C8_queue_items reQ 1 envTagsMain colorTagsMain projA projB pIdsA qIdsA cfgEmpty
    ((createObjects reQ 1 envTagsMain colorTagsMain projA projB pIdsA qIdsA
      cfgEmpty).queueItems.getD 0 default) (by decide)

theorem claim_C2_witness :
    (∀ pid cp, cp ∈ cfgEmpty pid → cp.id ≠ "") ∧
    scoreDataTypeOk cfgEmpty
      ((createObjects reA 1 envTagsMain colorTagsMain projA projB pIdsA qIdsA
        cfgEmpty).scores.getD 0 default) := by
  have hids : ∀ pid cp, cp ∈ cfgEmpty pid → cp.id ≠ "" := by
    intro pid cp h
    simp [cfgEmpty] at h
  exact ⟨hids, claim_C2_amended_scores reA 1 envTagsMain colorTagsMain projA projB pIdsA
    qIdsA cfgEmpty hids _ (by decide)⟩


/-! ### Zero-stream lemmas: with `Math.random()` constantly 0,
`createObjects` emits no sessions, comments or queue items -/

theorem iterTrace_sess_zg (re : RandEnv) (hg : ∀ n, re.g n = 0)
    (eT cT : List (Option String)) (p1 p2 : Proj) (i : Nat) (c : Ctr) :
    (iterTrace re eT cT p1 p2 i c).1.2.1 = none := by
  rw [iterTrace]
  simp only [draw, drawU, hg]
  split
  next h => exact absurd h (by decide)
  next h => rfl

theorem queueItemStep_zg (re : RandEnv) (hg : ∀ n, re.g n = 0)
    (q : String → List String) (tr : TraceObj) (c : Ctr) :
    (queueItemStep re q tr c).1 = [] := by
  rw [queueItemStep]
  simp only [draw, hg]
  split
  next h => exact absurd h (by decide)
  next h => rfl

theorem traceCommentStep_zg (re : RandEnv) (hg : ∀ n, re.g n = 0)
    (i : Nat) (tr : TraceObj) (c : Ctr) :
    (traceCommentStep re i tr c).1 = [] := by
  rw [traceCommentStep]
  simp only [draw, hg]
  split
  next h => exact absurd h (by decide)
  next h => rfl

theorem genOnce_comments_zg (re : RandEnv) (hg : ∀ n, re.g n = 0)
    (i j k : Nat) (pIds : String → List String) (tr : TraceObj)
    (spanId : String) (ss se ts : Int) (c : Ctr) :
    (genOnce re i j k pIds tr spanId ss se ts c).1.comments = [] := by
  rw [genOnce]
  simp only [draw, drawU, hg]
  split
  next h => exact absurd h (by decide)
  next h => rfl

theorem genLoop_comments_zg (re : RandEnv) (hg : ∀ n, re.g n = 0)
    (i j : Nat) (pIds : String → List String) (tr : TraceObj)
    (spanId : String) (ss se ts : Int) :
    ∀ fuel k c, (genLoop re i j pIds tr spanId ss se ts fuel k c).1.comments = [] := by
  intro fuel
  induction fuel with
  | zero => intro k c; simp [genLoop]
  | succ fuel ih =>
    intro k c
    rw [genLoop]
    split
    next x r2 c2 heq =>
      split
      · rcases hgo : genOnce re i j k pIds tr spanId ss se ts c2 with ⟨o1, c1⟩
        rcases hrest : genLoop re i j pIds tr spanId ss se ts fuel (k + 1) c1 with ⟨rest, c3⟩
        simp only [hgo, hrest]
        have h1 := genOnce_comments_zg re hg i j k pIds tr spanId ss se ts c2
        rw [hgo] at h1
        have h2 := ih (k + 1) c1
        rw [hrest] at h2
        simp only [SpanOut.app, List.append_eq_nil]
        exact ⟨h1, h2⟩
      · simp

theorem spanLoop_comments_zg (re : RandEnv) (hg : ∀ n, re.g n = 0)
    (i : Nat) (pIds : String → List String) (tr : TraceObj) (ts : Int) :
    ∀ fuel j ex c, (spanLoop re i pIds tr ts fuel j ex c).1.comments = [] := by
  intro fuel
  induction fuel with
  | zero => intro j ex c; simp [spanLoop]
  | succ fuel ih =>
    intro j ex c
    rw [spanLoop]
    split
    next x r2 c2 heq =>
      split
      · rcases hsp : spanOnce re i j tr ex ts c2 with ⟨sp, c1⟩
        rcases hgl : genLoop re i j pIds tr sp.1.id sp.2.1 sp.2.2 ts 2 0 c1 with ⟨gOut, c3⟩
        rcases hrest : spanLoop re i pIds tr ts fuel (j + 1) (ex ++ [sp.1.id]) c3 with ⟨rest, c4⟩
        simp only [hsp, hgl, hrest]
        have h1 := genLoop_comments_zg re hg i j pIds tr sp.1.id sp.2.1 sp.2.2 ts 2 0 c1
        rw [hgl] at h1
        have h2 := ih (j + 1) (ex ++ [sp.1.id]) c3
        rw [hrest] at h2
        simp only [SpanOut.app, List.append_eq_nil]
        refine ⟨trivial, h1, h2⟩
      · simp

theorem iterPre_sess_zg (re : RandEnv) (hg : ∀ n, re.g n = 0)
    (eT cT : List (Option String)) (p1 p2 : Proj) (q : String → List String)
    (cfg : String → List ConfigParam) (i : Nat) (c : Ctr) :
    (iterPre re eT cT p1 p2 q cfg i c).1.sess = none := by
  rw [(iterPre_parts re eT cT p1 p2 q cfg i c).2.1]
  exact iterTrace_sess_zg re hg eT cT p1 p2 i c

theorem iterPre_qItems_zg (re : RandEnv) (hg : ∀ n, re.g n = 0)
    (eT cT : List (Option String)) (p1 p2 : Proj) (q : String → List String)
    (cfg : String → List ConfigParam) (i : Nat) (c : Ctr) :
    (iterPre re eT cT p1 p2 q cfg i c).1.qItems = [] := by
  rw [iterPre]
  rcases hit : iterTrace re eT cT p1 p2 i c with ⟨⟨tr, sess, traceTs⟩, c1⟩
  rcases hcv : configValueStep re cfg tr c1 with ⟨cv, c2⟩
  rcases hqs : queueItemStep re q tr c2 with ⟨qI, c3⟩
  simp only [hcv, hqs]
  have h1 := queueItemStep_zg re hg q tr c2
  rw [hqs] at h1
  exact h1

theorem iterPre_comments_zg (re : RandEnv) (hg : ∀ n, re.g n = 0)
    (eT cT : List (Option String)) (p1 p2 : Proj) (q : String → List String)
    (cfg : String → List ConfigParam) (i : Nat) (c : Ctr) :
    (iterPre re eT cT p1 p2 q cfg i c).1.comments = [] := by
  rw [iterPre]
  rcases hit : iterTrace re eT cT p1 p2 i c with ⟨⟨tr, sess, traceTs⟩, c1⟩
  rcases hcv : configValueStep re cfg tr c1 with ⟨cv, c2⟩
  rcases hqs : queueItemStep re q tr c2 with ⟨qI, c3⟩
  rcases hann : annScoreStep re i tr traceTs cv.1 cv.2 c3 with ⟨annS, c4⟩
  rcases hsent : sentimentStep re tr traceTs c4 with ⟨sentS, c5⟩
  rcases hcomp : completenessStep re tr traceTs c5 with ⟨compS, c6⟩
  rcases hcm : traceCommentStep re i tr c6 with ⟨cms, c7⟩
  simp only [hcv, hqs, hann, hsent, hcomp, hcm]
  have h1 := traceCommentStep_zg re hg i tr c6
  rw [hcm] at h1
  exact h1

theorem genIteration_zg (re : RandEnv) (hg : ∀ n, re.g n = 0)
    (eT cT : List (Option String)) (p1 p2 : Proj)
    (pIds q : String → List String) (cfg : String → List ConfigParam)
    (i : Nat) (c : Ctr) :
    (genIteration re eT cT p1 p2 pIds q cfg i c).1.sess = none ∧
    (genIteration re eT cT p1 p2 pIds q cfg i c).1.qItems = [] ∧
    (genIteration re eT cT p1 p2 pIds q cfg i c).1.comments = [] := by
  rw [genIteration]
  rcases hpre : iterPre re eT cT p1 p2 q cfg i c with ⟨pre, c1⟩
  rcases hsl : spanLoop re i pIds pre.tr pre.traceTs 10 0 [] c1 with ⟨sOut, c2⟩
  simp only [hpre, hsl]
  have h1 := iterPre_sess_zg re hg eT cT p1 p2 q cfg i c
  have h2 := iterPre_qItems_zg re hg eT cT p1 p2 q cfg i c
  have h3 := iterPre_comments_zg re hg eT cT p1 p2 q cfg i c
  rw [hpre] at h1 h2 h3
  have h4 := spanLoop_comments_zg re hg i pIds pre.tr pre.traceTs 10 0 [] c1
  rw [hsl] at h4
  exact ⟨h1, h2, by simp only [List.append_eq_nil]; exact ⟨h3, h4⟩⟩

theorem createLoop_zg (re : RandEnv) (hg : ∀ n, re.g n = 0)
    (eT cT : List (Option String)) (p1 p2 : Proj)
    (pIds q : String → List String) (cfg : String → List ConfigParam) :
    ∀ n i c, (createLoop re eT cT p1 p2 pIds q cfg n i c).1.sessions = [] ∧
      (createLoop re eT cT p1 p2 pIds q cfg n i c).1.comments = [] ∧
      (createLoop re eT cT p1 p2 pIds q cfg n i c).1.queueItems = [] := by
  intro n
  induction n with
  | zero => intro i c; exact ⟨rfl, rfl, rfl⟩
  | succ n ih =>
    intro i c
    rw [createLoop]
    rcases hit : genIteration re eT cT p1 p2 pIds q cfg i c with ⟨it, c1⟩
    rcases hrest : createLoop re eT cT p1 p2 pIds q cfg n (i + 1) c1 with ⟨rest, c2⟩
    simp only [hit, hrest]
    have h1 := genIteration_zg re hg eT cT p1 p2 pIds q cfg i c
    rw [hit] at h1
    have h2 := ih (i + 1) c1
    rw [hrest] at h2
    refine ⟨?_, ?_, ?_⟩
    · rw [show it.sess = none from h1.1, show rest.sessions = [] from h2.1]
      rfl
    · simp only [List.append_eq_nil]
      exact ⟨h1.2.2, h2.2.1⟩
    · simp only [List.append_eq_nil]
      exact ⟨h1.2.1, h2.2.2⟩

theorem createObjectsRun_zg (re : RandEnv) (hg : ∀ n, re.g n = 0)
    (n : Nat) (eT cT : List (Option String)) (p1 p2 : Proj)
    (pIds q : String → List String) (cfg : String → List ConfigParam) (c : Ctr) :
    (createObjectsRun re n eT cT p1 p2 pIds q cfg c).1.sessions = [] ∧
    (createObjectsRun re n eT cT p1 p2 pIds q cfg c).1.comments = [] ∧
    (createObjectsRun re n eT cT p1 p2 pIds q cfg c).1.queueItems = [] := by
  rw [createObjectsRun]
  rcases hcl : createLoop re eT cT p1 p2 pIds q cfg n 0 c with ⟨out, c1⟩
  simp only [hcl]
  have h := createLoop_zg re hg eT cT p1 p2 pIds q cfg n 0 c
  rw [hcl] at h
  exact ⟨by rw [show out.sessions = [] from h.1]; rfl, h.2.1, h.2.2⟩



/-! ### Simulation machinery: database effects are independent of the
stream counter position (for constant-zero `Math.random()` streams) -/

theorem bind_app {α β : Type} (m : SeedM α) (k : α → SeedM β) (s : SeedSt) :
    (m >>= k) s = match m s with
      | Except.ok (s2, a) => k a s2
      | Except.error s2 => Except.error s2 := rfl

theorem drawM_app (re : RandEnv) (s : SeedSt) :
    drawM re s = Except.ok ({ s with c := ⟨s.c.r + 1, s.c.u⟩ }, re.g s.c.r) := rfl

theorem drawUM_app (re : RandEnv) (s : SeedSt) :
    drawUM re s = Except.ok ({ s with c := ⟨s.c.r, s.c.u + 1⟩ }, re.uuid s.c.u) := rfl

theorem dbOf_congr_of_OutSim {α : Type} {e1 e2 : Except SeedSt (SeedSt × α)}
    (h : OutSim e1 e2) : dbOf e1 = dbOf e2 := by
  cases e1 with
  | error s1 =>
    cases e2 with
    | error s2 => simpa [dbOf, OutSim] using h
    | ok p2 => exact absurd h (by simp [OutSim])
  | ok p1 =>
    cases e2 with
    | error s2 => obtain ⟨s1, a1⟩ := p1; exact absurd h (by simp [OutSim])
    | ok p2 =>
      obtain ⟨s1, a1⟩ := p1
      obtain ⟨s2, a2⟩ := p2
      have h1 : s1.db = s2.db := h.1
      simp [dbOf, h1]

theorem SimM_bind {α β : Type} {m1 m2 : SeedM α} {k1 k2 : α → SeedM β}
    (hm : SimM m1 m2) (hk : ∀ a, SimM (k1 a) (k2 a)) :
    SimM (m1 >>= k1) (m2 >>= k2) := by
  intro s1 s2 hdb
  rw [bind_app, bind_app]
  have h := hm s1 s2 hdb
  rcases h1 : m1 s1 with e1 | ⟨s1x, a1⟩ <;> rcases h2 : m2 s2 with e2 | ⟨s2x, a2⟩ <;>
    rw [h1, h2] at h
  · exact h
  · exact h.elim
  · exact h.elim
  · obtain ⟨hdbx, rfl⟩ := h
    exact hk a1 s1x s2x hdbx

theorem SimM_pure {α : Type} (a : α) : SimM (pure a : SeedM α) (pure a) :=
  fun _ _ hdb => ⟨hdb, rfl⟩

theorem SimM_ite {α : Type} (c : Prop) [Decidable c] {m1 m2 m1x m2x : SeedM α}
    (h1 : SimM m1 m1x) (h2 : SimM m2 m2x) :
    SimM (if c then m1 else m2) (if c then m1x else m2x) := by
  by_cases hc : c
  · simpa [hc] using h1
  · simpa [hc] using h2

theorem SimM_upsertM (a : UpsertArgs) : SimM (upsertM a) (upsertM a) := by
  intro s1 s2 hdb
  show OutSim (upsertM a s1) (upsertM a s2)
  rw [upsertM, upsertM, hdb]
  rcases h : dbUpsert s2.db a with - | ⟨db2, rid⟩
  · exact hdb
  · exact ⟨rfl, rfl⟩

theorem SimM_createM (t i u : String) : SimM (createM t i u) (createM t i u) := by
  intro s1 s2 hdb
  show OutSim (createM t i u s1) (createM t i u s2)
  rw [createM, createM, hdb]
  rcases h : dbCreate s2.db t i u with - | db2
  · exact hdb
  · exact ⟨rfl, rfl⟩

theorem SimM_createAutoM (t u : String) : SimM (createAutoM t u) (createAutoM t u) := by
  intro s1 s2 hdb
  show OutSim (createAutoM t u s1) (createAutoM t u s2)
  rw [createAutoM, createAutoM, hdb]
  rcases h : dbCreateAuto s2.db t u with - | ⟨db2, rid⟩
  · exact hdb
  · exact ⟨rfl, rfl⟩

theorem SimM_createManyM (t : String) (n : Nat) :
    SimM (createManyM t n) (createManyM t n) := by
  intro s1 s2 hdb
  show OutSim (createManyM t n s1) (createManyM t n s2)
  rw [createManyM, createManyM, hdb]
  exact ⟨rfl, rfl⟩

theorem SimM_findByIdM (t i : String) : SimM (findByIdM t i) (findByIdM t i) := by
  intro s1 s2 hdb
  show OutSim (findByIdM t i s1) (findByIdM t i s2)
  rw [findByIdM, findByIdM, hdb]
  exact ⟨hdb, rfl⟩

theorem SimM_findIdByUkeyM (t u : String) :
    SimM (findIdByUkeyM t u) (findIdByUkeyM t u) := by
  intro s1 s2 hdb
  show OutSim (findIdByUkeyM t u s1) (findIdByUkeyM t u s2)
  rw [findIdByUkeyM, findIdByUkeyM, hdb]
  exact ⟨hdb, rfl⟩

theorem SimM_drawM (re : RandEnv) (hg : ∀ n, re.g n = 0) :
    SimM (drawM re) (drawM re) := by
  intro s1 s2 hdb
  rw [drawM_app, drawM_app]
  exact ⟨hdb, by rw [hg, hg]⟩

theorem SimM_drawU_discard {β : Type} (re : RandEnv) {k1 k2 : SeedM β}
    (hk : SimM k1 k2) :
    SimM (drawUM re >>= fun _ => k1) (drawUM re >>= fun _ => k2) := by
  intro s1 s2 hdb
  rw [bind_app, bind_app, drawUM_app, drawUM_app]
  exact hk _ _ hdb



theorem datasetItemsLoopM_zg (re : RandEnv) (hg : ∀ n, re.g n = 0)
    (obs : List Obs) : ∀ n s, datasetItemsLoopM re obs n s =
      Except.ok ({ s with c := ⟨s.c.r + n, s.c.u⟩ }, ([] : List String)) := by
  intro n
  induction n with
  | zero => intro s; rfl
  | succ n ih =>
    intro s
    rw [datasetItemsLoopM, bind_app, drawM_app]
    simp only [hg]
    rw [if_neg (by decide : ¬ (mkRat 3 10 < (0 : ℚ)))]
    show datasetItemsLoopM re obs n { s with c := ⟨s.c.r + 1, s.c.u⟩ } = _
    rw [ih]
    have h : s.c.r + 1 + n = s.c.r + (n + 1) := by omega
    simp [h]

theorem jsGet_nil {α : Type} (n : Int) : jsGet ([] : List α) n = none := by
  rw [jsGet, dif_neg]
  rintro ⟨h1, h2⟩
  simp at h2

theorem runItemsLoopM_nil (re : RandEnv) (pid : String) :
    ∀ ids s, runItemsLoopM re [] pid ids s =
      Except.ok ({ s with c := ⟨s.c.r + ids.length, s.c.u⟩ }, ()) := by
  intro ids
  induction ids with
  | nil => intro s; rfl
  | cons x rest ih =>
    intro s
    rw [runItemsLoopM, bind_app, drawM_app]
    simp only [List.filter_nil, jsGet_nil]
    show runItemsLoopM re [] pid rest { s with c := ⟨s.c.r + 1, s.c.u⟩ } = _
    rw [ih]
    have h : s.c.r + 1 + rest.length = s.c.r + (x :: rest).length := by
      simp [List.length_cons]
      omega
    simp [h]

theorem runItemsLoopM_sim (re : RandEnv) (pid : String) :
    ∀ ids, SimM (runItemsLoopM re [] pid ids) (runItemsLoopM re [] pid ids) := by
  intro ids s1 s2 hdb
  rw [runItemsLoopM_nil re pid ids s1, runItemsLoopM_nil re pid ids s2]
  exact ⟨hdb, rfl⟩

theorem datasetRunsLoopM_cross (re : RandEnv) (hg : ∀ n, re.g n = 0)
    (obs1 obs2 : List Obs) (pid ds : String) :
    ∀ n rn, SimM (datasetRunsLoopM re obs1 pid ds [] n rn)
      (datasetRunsLoopM re obs2 pid ds [] n rn) := by
  intro n
  induction n with
  | zero => intro rn; exact SimM_pure ()
  | succ n ih =>
    intro rn
    rw [datasetRunsLoopM, datasetRunsLoopM]
    refine SimM_bind (SimM_drawM re hg) (fun _ => ?_)
    refine SimM_bind (SimM_upsertM _) (fun _ => ?_)
    exact SimM_bind (SimM_pure ()) (fun _ => ih (rn + 1))

theorem datasetItemsLoopM_cross (re : RandEnv) (hg : ∀ n, re.g n = 0)
    (obs1 obs2 : List Obs) (n : Nat) :
    SimM (datasetItemsLoopM re obs1 n) (datasetItemsLoopM re obs2 n) := by
  intro s1 s2 hdb
  rw [datasetItemsLoopM_zg re hg obs1 n s1, datasetItemsLoopM_zg re hg obs2 n s2]
  exact ⟨hdb, rfl⟩

theorem datasetOneM_cross (re : RandEnv) (hg : ∀ n, re.g n = 0)
    (obs1 obs2 : List Obs) (dn : Nat) (pid : String) :
    SimM (datasetOneM re obs1 dn pid) (datasetOneM re obs2 dn pid) := by
  simp only [datasetOneM]
  refine SimM_bind (SimM_findIdByUkeyM _ _) (fun found => ?_)
  rcases found with - | i <;> dsimp only
  · refine SimM_bind (SimM_createAutoM _ _) (fun ds => ?_)
    intro s1 s2 hdb
    rw [bind_app, bind_app, datasetItemsLoopM_zg re hg obs1 18 s1,
      datasetItemsLoopM_zg re hg obs2 18 s2]
    exact datasetRunsLoopM_cross re hg obs1 obs2 pid ds 5 0 _ _ hdb
  · refine SimM_bind (SimM_pure i) (fun ds => ?_)
    intro s1 s2 hdb
    rw [bind_app, bind_app, datasetItemsLoopM_zg re hg obs1 18 s1,
      datasetItemsLoopM_zg re hg obs2 18 s2]
    exact datasetRunsLoopM_cross re hg obs1 obs2 pid ds 5 0 _ _ hdb

theorem createDatasetsM_cross (re : RandEnv) (hg : ∀ n, re.g n = 0)
    (obs1 obs2 : List Obs) :
    SimM (createDatasetsM re projA projB obs1) (createDatasetsM re projA projB obs2) := by
  simp only [createDatasetsM]
  refine SimM_bind (datasetOneM_cross re hg obs1 obs2 0 projA.id) (fun _ => ?_)
  refine SimM_bind (datasetOneM_cross re hg obs1 obs2 0 projB.id) (fun _ => ?_)
  exact SimM_bind (datasetOneM_cross re hg obs1 obs2 1 projA.id)
    (fun _ => datasetOneM_cross re hg obs1 obs2 1 projB.id)

theorem dashboardsOneM_sim (re : RandEnv) : SimM (dashboardsOneM re) (dashboardsOneM re) := by
  rw [dashboardsOneM]
  refine SimM_bind (SimM_upsertM _) (fun _ => ?_)
  refine SimM_bind (SimM_upsertM _) (fun _ => ?_)
  refine SimM_drawU_discard re ?_
  refine SimM_drawU_discard re ?_
  exact SimM_bind (SimM_upsertM _) (fun _ => SimM_pure ())

theorem createDashboardsM_sim (re : RandEnv) (ps : List Proj) :
    SimM (createDashboardsM re ps) (createDashboardsM re ps) := by
  induction ps with
  | nil => exact SimM_pure ()
  | cons p rest ih =>
    rw [createDashboardsM]
    exact SimM_bind (dashboardsOneM_sim re) (fun _ => ih)

theorem examplesTail_cross (re : RandEnv) (hg : ∀ n, re.g n = 0) (hk : Bool)
    (obs1 obs2 : List Obs) :
    SimM (examplesTail re hk obs1) (examplesTail re hk obs2) := by
  rw [examplesTail, examplesTail]
  dsimp only
  refine SimM_ite (hk = true) ?_ ?_
  · refine SimM_bind (SimM_createAutoM _ _) (fun _ => ?_)
    refine SimM_bind (SimM_pure ()) (fun _ => ?_)
    refine SimM_bind (SimM_upsertM _) (fun _ => ?_)
    refine SimM_bind (SimM_upsertM _) (fun _ => ?_)
    refine SimM_bind (createDatasetsM_cross re hg obs1 obs2) (fun _ => ?_)
    exact SimM_bind (createDashboardsM_sim re [projA, projB])
      (fun _ => SimM_createManyM "llm_schemas" 2)
  · refine SimM_bind (SimM_pure ()) (fun _ => ?_)
    refine SimM_bind (SimM_upsertM _) (fun _ => ?_)
    refine SimM_bind (SimM_upsertM _) (fun _ => ?_)
    refine SimM_bind (createDatasetsM_cross re hg obs1 obs2) (fun _ => ?_)
    exact SimM_bind (createDashboardsM_sim re [projA, projB])
      (fun _ => SimM_createManyM "llm_schemas" 2)


theorem dbOf_bind_congr {α β : Type} (m : SeedM α) (k1 k2 : α → SeedM β)
    (h : ∀ a s2, dbOf (k1 a s2) = dbOf (k2 a s2)) (s : SeedSt) :
    dbOf ((m >>= k1) s) = dbOf ((m >>= k2) s) := by
  rw [bind_app m k1 s, bind_app m k2 s]
  rcases hm : m s with e | ⟨s2, a⟩
  · rfl
  · exact h a s2

theorem dbOf_bind_pure {α : Type} (m : SeedM α) (s : SeedSt) :
    dbOf ((m >>= fun _ => (pure () : SeedM Unit)) s) = dbOf (m s) := by
  rw [bind_app]
  rcases hm : m s with e | ⟨s2, a⟩
  · rfl
  · rfl

theorem liftRand_app {α : Type} (f : Ctr → α × Ctr) (s : SeedSt) :
    liftRand f s = Except.ok ({ s with c := (f s.c).2 }, (f s.c).1) := rfl

theorem uploadObjectsM_nil (s : SeedSt) :
    uploadObjectsM [] [] [] s = Except.ok (s, ()) := by
  simp [uploadObjectsM, sessionsUploadM, createManyM, dbCreateMany, bind_app]
  rfl

/-- The part of the examples block from the config generation on: its
database effect does not depend on the generated `createObjects` output
when the `Math.random()` stream is constantly 0. -/
theorem examplesRest_dbOf (re : RandEnv) (env : String) (hk : Bool)
    (hg : ∀ n, re.g n = 0) (s : SeedSt) :
    dbOf ((do
      let cfg1 ← generateConfigsM re projA
      let cfg2 ← generateConfigsM re projB
      let configParams : String → List ConfigParam := fun pid =>
        if pid = projA.id then cfg1 else if pid = projB.id then cfg2 else []
      let q1 ← generateQueuesM re projA
      let q2 ← generateQueuesM re projB
      let queueIds : String → List String := fun pid =>
        if pid = projA.id then q1 else if pid = projB.id then q2 else []
      let pr1 ← generatePromptsM re projA
      let pr2 ← generatePromptsM re projB
      let promptIds : String → List String := fun pid =>
        if pid = projA.id then pr1 else if pid = projB.id then pr2 else []
      let out ← liftRand (createObjectsRun re (mainTraceVolume env) envTagsMain
        colorTagsMain projA projB promptIds queueIds configParams)
      uploadObjectsM out.sessions out.comments out.queueItems
      examplesTail re hk out.observations : SeedM Unit) s) =
    dbOf ((do
      let _cfg1 ← generateConfigsM re projA
      let _cfg2 ← generateConfigsM re projB
      let _q1 ← generateQueuesM re projA
      let _q2 ← generateQueuesM re projB
      let _pr1 ← generatePromptsM re projA
      let _pr2 ← generatePromptsM re projB
      examplesTail re hk [] : SeedM Unit) s) := by
  refine dbOf_bind_congr _ _ _ (fun b1 t1 => ?_) s
  refine dbOf_bind_congr _ _ _ (fun b2 t2 => ?_) t1
  refine dbOf_bind_congr _ _ _ (fun b3 t3 => ?_) t2
  refine dbOf_bind_congr _ _ _ (fun b4 t4 => ?_) t3
  refine dbOf_bind_congr _ _ _ (fun b5 t5 => ?_) t4
  refine dbOf_bind_congr _ _ _ (fun b6 t6 => ?_) t5
  rw [bind_app, liftRand_app]
  dsimp only
  rw [(createObjectsRun_zg re hg (mainTraceVolume env) envTagsMain colorTagsMain
        projA projB _ _ _ t6.c).1,
      (createObjectsRun_zg re hg (mainTraceVolume env) envTagsMain colorTagsMain
        projA projB _ _ _ t6.c).2.1,
      (createObjectsRun_zg re hg (mainTraceVolume env) envTagsMain colorTagsMain
        projA projB _ _ _ t6.c).2.2,
      bind_app, uploadObjectsM_nil]
  exact dbOf_congr_of_OutSim (examplesTail_cross re hg hk _ [] _ t6 rfl)

theorem examplesSeed_dbOf (re : RandEnv) (env : String) (hk : Bool)
    (hg : ∀ n, re.g n = 0) (s : SeedSt) :
    dbOf (examplesSeed re env hk s) = dbOf (examplesLite re env hk s) := by
  rw [examplesSeed, examplesLite]
  refine dbOf_bind_congr _ _ _ (fun a1 s1 => ?_) s
  exact examplesRest_dbOf re env hk hg s1


theorem mainRun_lite (env : String) (re : RandEnv) (hk : Bool) (db : DB)
    (hg : ∀ n, re.g n = 0) :
    mainRun env re hk db = dbOf (seedMainLite env re hk ⟨db, ⟨0, 0⟩⟩) := by
  rw [mainRun, seedMain, seedMainLite]
  refine dbOf_bind_congr _ _ _ (fun a s2 => ?_) _
  cases hb : extendedEnv env
  · rw [if_neg (by simp), if_neg (by simp)]
  · rw [if_pos rfl, if_pos rfl]
    exact examplesSeed_dbOf re env hk hg s2

theorem mainRun_baseline (env : String) (re : RandEnv) (hk : Bool) (db : DB)
    (h1 : env ≠ "examples") (h2 : env ≠ "load") :
    mainRun env re hk db = baselineRun db := by
  have hb : extendedEnv env = false := by
    simp [extendedEnv, h1, h2]
  rw [mainRun, seedMain, baselineRun]
  refine Eq.trans (dbOf_bind_congr _ _ (fun _ => (pure () : SeedM Unit))
    (fun a s2 => ?_) _) (dbOf_bind_pure _ _)
  rw [hb]
  rfl

/-! ### Step-by-step evaluation lemmas: a long seed run is evaluated one
write at a time, so that each kernel computation stays small -/

theorem bind_eval {α β : Type} {m : SeedM α} {k : α → SeedM β} {s s1 : SeedSt}
    {a : α} {r : Except SeedSt (SeedSt × β)}
    (hm : m s = Except.ok (s1, a)) (hk : k a s1 = r) : (m >>= k) s = r := by
  rw [bind_app, hm]
  exact hk

theorem bind_eval_err {α β : Type} {m : SeedM α} {k : α → SeedM β} {s e : SeedSt}
    (hm : m s = Except.error e) : (m >>= k) s = Except.error e := by
  rw [bind_app, hm]

theorem seedPromptsLoopM_chain (p : Proj) (sp : SeedPrompt) (rest : List SeedPrompt)
    (s s2 : SeedSt) (rid : String)
    (h1 : seedPromptsLoopM p [sp] s = Except.ok (s2, [rid])) :
    seedPromptsLoopM p (sp :: rest) s =
      match seedPromptsLoopM p rest s2 with
      | Except.ok (t, ids) => Except.ok (t, rid :: ids)
      | Except.error e => Except.error e := by
  rw [seedPromptsLoopM] at h1 ⊢
  rw [bind_app] at h1 ⊢
  rcases hu : upsertM
      { table := "prompts", whereId := some (sp.id ++ p.id),
        whereUkey := some (ukey3 (sp.id ++ p.id) sp.name (toString sp.version)),
        createId := some (sp.id ++ p.id),
        createUkey := ukey3 p.id sp.name (toString sp.version) } s with e | ⟨sB, rB⟩
  · rw [hu] at h1
    exact absurd h1 (by simp)
  · rw [hu] at h1
    dsimp only at h1 ⊢
    rw [show seedPromptsLoopM p [] = (fun st => Except.ok (st, [])) from rfl,
      bind_app] at h1
    dsimp only at h1
    have h4 : (sB, [sp.id]) = (s2, [rid]) := Except.ok.inj h1
    have h2 : sB = s2 := congrArg Prod.fst h4
    have h3 : [sp.id] = ([rid] : List String) := congrArg Prod.snd h4
    cases h2
    rw [bind_app]
    rcases hr : seedPromptsLoopM p rest s2 with e | ⟨t, ids⟩
    · rfl
    · dsimp only
      rw [(List.cons.inj h3).1]
      rfl

theorem seedPromptsLoopM_chain_err (p : Proj) (sp : SeedPrompt)
    (rest : List SeedPrompt) (s e : SeedSt)
    (h1 : seedPromptsLoopM p [sp] s = Except.error e) :
    seedPromptsLoopM p (sp :: rest) s = Except.error e := by
  rw [seedPromptsLoopM] at h1 ⊢
  rw [bind_app] at h1 ⊢
  rcases hu : upsertM
      { table := "prompts", whereId := some (sp.id ++ p.id),
        whereUkey := some (ukey3 (sp.id ++ p.id) sp.name (toString sp.version)),
        createId := some (sp.id ++ p.id),
        createUkey := ukey3 p.id sp.name (toString sp.version) } s with e2 | ⟨sB, rB⟩
  · rw [hu] at h1
    exact h1
  · rw [hu] at h1
    dsimp only at h1
    rw [show seedPromptsLoopM p [] = (fun st => Except.ok (st, [])) from rfl,
      bind_app] at h1
    exact absurd h1 (fun h2 => Except.noConfusion h2)


theorem promptVersionsLoopM_chain (p : Proj) (vid : String) (ver : Nat)
    (rest : List (String × Nat)) (s s2 : SeedSt) (rid : String)
    (h1 : promptVersionsLoopM p [(vid, ver)] s = Except.ok (s2, [rid])) :
    promptVersionsLoopM p ((vid, ver) :: rest) s =
      match promptVersionsLoopM p rest s2 with
      | Except.ok (t, ids) => Except.ok (t, rid :: ids)
      | Except.error e => Except.error e := by
  rw [promptVersionsLoopM] at h1 ⊢
  rw [bind_app] at h1 ⊢
  rcases hu : upsertM
      { table := "prompts", whereId := some vid,
        whereUkey := some (ukey3 p.id "Prompt 4 with variable and config" (toString ver)),
        createId := some vid,
        createUkey := ukey3 p.id "Prompt 4 with variable and config" (toString ver),
        updId := some vid } s with e | ⟨sB, rB⟩
  · rw [hu] at h1
    exact absurd h1 (by simp)
  · rw [hu] at h1
    dsimp only at h1 ⊢
    rw [show promptVersionsLoopM p [] = (fun st => Except.ok (st, [])) from rfl,
      bind_app] at h1
    dsimp only at h1
    have h4 : (sB, [vid]) = (s2, [rid]) := Except.ok.inj h1
    have h2 : sB = s2 := congrArg Prod.fst h4
    have h3 : [vid] = ([rid] : List String) := congrArg Prod.snd h4
    cases h2
    rw [bind_app]
    rcases hr : promptVersionsLoopM p rest s2 with e | ⟨t, ids⟩
    · rfl
    · dsimp only
      rw [(List.cons.inj h3).1]
      rfl

theorem manyVersionsLoopM_chain (re : RandEnv) (p : Proj) (n i : Nat)
    (s s2 : SeedSt) (rid : String)
    (h1 : manyVersionsLoopM re p 1 i s = Except.ok (s2, [rid])) :
    manyVersionsLoopM re p (n + 1) i s =
      match manyVersionsLoopM re p n (i + 1) s2 with
      | Except.ok (t, ids) => Except.ok (t, rid :: ids)
      | Except.error e => Except.error e := by
  rw [manyVersionsLoopM] at h1 ⊢
  rw [bind_app, drawUM_app] at h1 ⊢
  dsimp only at h1 ⊢
  rw [bind_app] at h1 ⊢
  rcases hu : upsertM
      { table := "prompts", whereId := some ("prompt-" ++ re.uuid s.c.u),
        whereUkey := some (ukey3 p.id "Prompt with many versions" (toString i)),
        createId := some ("prompt-" ++ re.uuid s.c.u),
        createUkey := ukey3 p.id "Prompt with many versions" (toString i),
        updId := some ("prompt-" ++ re.uuid s.c.u) }
      { s with c := ⟨s.c.r, s.c.u + 1⟩ } with e | ⟨sB, rB⟩
  · rw [hu] at h1
    exact absurd h1 (by simp)
  · rw [hu] at h1
    dsimp only at h1 ⊢
    rw [show manyVersionsLoopM re p 0 (i + 1) = (fun st => Except.ok (st, [])) from rfl,
      bind_app] at h1
    dsimp only at h1
    have h4 : (sB, ["prompt-" ++ re.uuid s.c.u]) = (s2, [rid]) := Except.ok.inj h1
    have h2 : sB = s2 := congrArg Prod.fst h4
    have h3 : ["prompt-" ++ re.uuid s.c.u] = ([rid] : List String) := congrArg Prod.snd h4
    cases h2
    rw [bind_app]
    rcases hr : manyVersionsLoopM re p n (i + 1) s2 with e | ⟨t, ids⟩
    · rfl
    · dsimp only
      rw [(List.cons.inj h3).1]
      rfl

theorem configsUpsertsM_chain (cfg : ConfigParam) (rest : List ConfigParam)
    (s s2 : SeedSt)
    (h1 : configsUpsertsM [cfg] s = Except.ok (s2, ())) :
    configsUpsertsM (cfg :: rest) s = configsUpsertsM rest s2 := by
  rw [configsUpsertsM] at h1 ⊢
  rw [bind_app] at h1 ⊢
  rcases hu : upsertM
      { table := "score_configs", whereId := some cfg.id,
        createId := some cfg.id, updId := some cfg.id } s with e | ⟨sB, rB⟩
  · rw [hu] at h1
    exact absurd h1 (by simp)
  · rw [hu] at h1
    dsimp only at h1 ⊢
    rw [show configsUpsertsM [] = (fun st => Except.ok (st, ())) from rfl] at h1
    have h2 : sB = s2 := congrArg Prod.fst (Except.ok.inj h1)
    rw [h2]

theorem datasetRunsLoopM_chain (re : RandEnv) (pid ds : String) (n rn : Nat)
    (s s2 : SeedSt)
    (h1 : datasetRunsLoopM re [] pid ds [] 1 rn s = Except.ok (s2, ())) :
    datasetRunsLoopM re [] pid ds [] (n + 1) rn s =
      datasetRunsLoopM re [] pid ds [] n (rn + 1) s2 := by
  rw [datasetRunsLoopM] at h1 ⊢
  rw [bind_app, drawM_app] at h1 ⊢
  dsimp only at h1 ⊢
  rw [bind_app] at h1 ⊢
  rcases hu : upsertM
      { table := "dataset_runs",
        whereUkey := some (ukey3 ds pid ("demo-dataset-run-" ++ toString rn)),
        createUkey := ukey3 ds pid ("demo-dataset-run-" ++ toString rn) }
      { s with c := ⟨s.c.r + 1, s.c.u⟩ } with e | ⟨sB, rB⟩
  · rw [hu] at h1
    exact absurd h1 (by simp)
  · rw [hu] at h1
    dsimp only at h1 ⊢
    rw [show runItemsLoopM re [] pid [] = (fun st => Except.ok (st, ())) from rfl,
      bind_app] at h1 ⊢
    dsimp only at h1 ⊢
    rw [show datasetRunsLoopM re [] pid ds [] 0 (rn + 1) =
      (fun st => Except.ok (st, ())) from rfl] at h1
    have h2 : sB = s2 := congrArg Prod.fst (Except.ok.inj h1)
    rw [h2]

theorem createDashboardsM_chain (re : RandEnv) (p : Proj) (rest : List Proj)
    (s s2 : SeedSt)
    (h1 : createDashboardsM re [p] s = Except.ok (s2, ())) :
    createDashboardsM re (p :: rest) s = createDashboardsM re rest s2 := by
  rw [createDashboardsM] at h1 ⊢
  rw [bind_app] at h1 ⊢
  rcases hu : dashboardsOneM re s with e | ⟨sB, rB⟩
  · rw [hu] at h1
    exact absurd h1 (by simp)
  · rw [hu] at h1
    dsimp only at h1 ⊢
    rw [show createDashboardsM re [] = (fun st => Except.ok (st, ())) from rfl] at h1
    have h2 : sB = s2 := congrArg Prod.fst (Except.ok.inj h1)
    rw [h2]


theorem manyVersionsLoopM_chain2 (re : RandEnv) (p : Proj) (n m i : Nat)
    (hn : n = m + 1) (s s2 : SeedSt) (rid : String)
    (h1 : manyVersionsLoopM re p 1 i s = Except.ok (s2, [rid])) :
    manyVersionsLoopM re p n i s =
      match manyVersionsLoopM re p m (i + 1) s2 with
      | Except.ok (t, ids) => Except.ok (t, rid :: ids)
      | Except.error e => Except.error e := by
  subst hn
  exact manyVersionsLoopM_chain re p m i s s2 rid h1


/-! ### Concrete evaluation of the two seed runs of the C1 counterexample -/

theorem evBase : baselineSeed ⟨emptyDB, ⟨0, 0⟩⟩ = Except.ok (stS1, ()) := rfl

theorem evPre : examplesPrefix stS1 = Except.ok (stS2, ()) := rfl

theorem evCfgA : generateConfigsM reA projA stS2 = Except.ok (stS3, cfgLitA) := rfl

theorem evCfgB : generateConfigsM reA projB stS3 = Except.ok (stS4, cfgLitB) := rfl

theorem evQA : generateQueuesM reA projA stS4 = Except.ok (stS5, ["queue-a6"]) := rfl

theorem evQB : generateQueuesM reA projB stS5 = Except.ok (stS6, ["queue-a7"]) := rfl

theorem evSpA_7 : seedPromptsLoopM projA [] stPA7 = Except.ok (stPA7, []) := rfl

theorem evSpA_6 : seedPromptsLoopM projA [⟨"folder-prompt-1", "folder/prompt-1", 1⟩] stPA6 = Except.ok (stPA7, ["folder-prompt-1"]) := by
  rw [seedPromptsLoopM]
  refine bind_eval (show upsertM
    { table := "prompts",
      whereId := some ("folder-prompt-1" ++ projA.id),
      whereUkey := some (ukey3 ("folder-prompt-1" ++ projA.id) "folder/prompt-1" (toString 1)),
      createId := some ("folder-prompt-1" ++ projA.id),
      createUkey := ukey3 projA.id "folder/prompt-1" (toString 1) } stPA6 =
    Except.ok (stPA7, "folder-prompt-1" ++ projA.id) from rfl) ?_
  refine bind_eval evSpA_7 ?_
  rfl

theorem evSpA_5 : seedPromptsLoopM projA [⟨"folder-customer-prompt-2", "folder/customer/prompt-2", 1⟩, ⟨"folder-prompt-1", "folder/prompt-1", 1⟩] stPA5 = Except.ok (stPA7, ["folder-customer-prompt-2", "folder-prompt-1"]) := by
  rw [seedPromptsLoopM]
  refine bind_eval (show upsertM
    { table := "prompts",
      whereId := some ("folder-customer-prompt-2" ++ projA.id),
      whereUkey := some (ukey3 ("folder-customer-prompt-2" ++ projA.id) "folder/customer/prompt-2" (toString 1)),
      createId := some ("folder-customer-prompt-2" ++ projA.id),
      createUkey := ukey3 projA.id "folder/customer/prompt-2" (toString 1) } stPA5 =
    Except.ok (stPA6, "folder-customer-prompt-2" ++ projA.id) from rfl) ?_
  refine bind_eval evSpA_6 ?_
  rfl

theorem evSpA_4 : seedPromptsLoopM projA [⟨"folder-customer-prompt-1", "folder/customer/prompt-1", 1⟩, ⟨"folder-customer-prompt-2", "folder/customer/prompt-2", 1⟩, ⟨"folder-prompt-1", "folder/prompt-1", 1⟩] stPA4 = Except.ok (stPA7, ["folder-customer-prompt-1", "folder-customer-prompt-2", "folder-prompt-1"]) := by
  rw [seedPromptsLoopM]
  refine bind_eval (show upsertM
    { table := "prompts",
      whereId := some ("folder-customer-prompt-1" ++ projA.id),
      whereUkey := some (ukey3 ("folder-customer-prompt-1" ++ projA.id) "folder/customer/prompt-1" (toString 1)),
      createId := some ("folder-customer-prompt-1" ++ projA.id),
      createUkey := ukey3 projA.id "folder/customer/prompt-1" (toString 1) } stPA4 =
    Except.ok (stPA5, "folder-customer-prompt-1" ++ projA.id) from rfl) ?_
  refine bind_eval evSpA_5 ?_
  rfl

theorem evSpA_3 : seedPromptsLoopM projA [⟨"prompt-abc", "Prompt 4", 1⟩, ⟨"folder-customer-prompt-1", "folder/customer/prompt-1", 1⟩, ⟨"folder-customer-prompt-2", "folder/customer/prompt-2", 1⟩, ⟨"folder-prompt-1", "folder/prompt-1", 1⟩] stPA3 = Except.ok (stPA7, ["prompt-abc", "folder-customer-prompt-1", "folder-customer-prompt-2", "folder-prompt-1"]) := by
  rw [seedPromptsLoopM]
  refine bind_eval (show upsertM
    { table := "prompts",
      whereId := some ("prompt-abc" ++ projA.id),
      whereUkey := some (ukey3 ("prompt-abc" ++ projA.id) "Prompt 4" (toString 1)),
      createId := some ("prompt-abc" ++ projA.id),
      createUkey := ukey3 projA.id "Prompt 4" (toString 1) } stPA3 =
    Except.ok (stPA4, "prompt-abc" ++ projA.id) from rfl) ?_
  refine bind_eval evSpA_4 ?_
  rfl

theorem evSpA_2 : seedPromptsLoopM projA [⟨"prompt-789", "Prompt 3 by API", 1⟩, ⟨"prompt-abc", "Prompt 4", 1⟩, ⟨"folder-customer-prompt-1", "folder/customer/prompt-1", 1⟩, ⟨"folder-customer-prompt-2", "folder/customer/prompt-2", 1⟩, ⟨"folder-prompt-1", "folder/prompt-1", 1⟩] stPA2 = Except.ok (stPA7, ["prompt-789", "prompt-abc", "folder-customer-prompt-1", "folder-customer-prompt-2", "folder-prompt-1"]) := by
  rw [seedPromptsLoopM]
  refine bind_eval (show upsertM
    { table := "prompts",
      whereId := some ("prompt-789" ++ projA.id),
      whereUkey := some (ukey3 ("prompt-789" ++ projA.id) "Prompt 3 by API" (toString 1)),
      createId := some ("prompt-789" ++ projA.id),
      createUkey := ukey3 projA.id "Prompt 3 by API" (toString 1) } stPA2 =
    Except.ok (stPA3, "prompt-789" ++ projA.id) from rfl) ?_
  refine bind_eval evSpA_3 ?_
  rfl

theorem evSpA_1 : seedPromptsLoopM projA [⟨"prompt-456", "Prompt 2", 1⟩, ⟨"prompt-789", "Prompt 3 by API", 1⟩, ⟨"prompt-abc", "Prompt 4", 1⟩, ⟨"folder-customer-prompt-1", "folder/customer/prompt-1", 1⟩, ⟨"folder-customer-prompt-2", "folder/customer/prompt-2", 1⟩, ⟨"folder-prompt-1", "folder/prompt-1", 1⟩] stPA1 = Except.ok (stPA7, ["prompt-456", "prompt-789", "prompt-abc", "folder-customer-prompt-1", "folder-customer-prompt-2", "folder-prompt-1"]) := by
  rw [seedPromptsLoopM]
  refine bind_eval (show upsertM
    { table := "prompts",
      whereId := some ("prompt-456" ++ projA.id),
      whereUkey := some (ukey3 ("prompt-456" ++ projA.id) "Prompt 2" (toString 1)),
      createId := some ("prompt-456" ++ projA.id),
      createUkey := ukey3 projA.id "Prompt 2" (toString 1) } stPA1 =
    Except.ok (stPA2, "prompt-456" ++ projA.id) from rfl) ?_
  refine bind_eval evSpA_2 ?_
  rfl

theorem evSpA_0 : seedPromptsLoopM projA SEED_PROMPTS stS6 = Except.ok (stPA7, ["prompt-123", "prompt-456", "prompt-789", "prompt-abc", "folder-customer-prompt-1", "folder-customer-prompt-2", "folder-prompt-1"]) := by
  rw [show SEED_PROMPTS = [⟨"prompt-123", "Prompt 1", 1⟩, ⟨"prompt-456", "Prompt 2", 1⟩, ⟨"prompt-789", "Prompt 3 by API", 1⟩, ⟨"prompt-abc", "Prompt 4", 1⟩, ⟨"folder-customer-prompt-1", "folder/customer/prompt-1", 1⟩, ⟨"folder-customer-prompt-2", "folder/customer/prompt-2", 1⟩, ⟨"folder-prompt-1", "folder/prompt-1", 1⟩] from rfl]
  rw [seedPromptsLoopM]
  refine bind_eval (show upsertM
    { table := "prompts",
      whereId := some ("prompt-123" ++ projA.id),
      whereUkey := some (ukey3 ("prompt-123" ++ projA.id) "Prompt 1" (toString 1)),
      createId := some ("prompt-123" ++ projA.id),
      createUkey := ukey3 projA.id "Prompt 1" (toString 1) } stS6 =
    Except.ok (stPA1, "prompt-123" ++ projA.id) from rfl) ?_
  refine bind_eval evSpA_1 ?_
  rfl

theorem evPvA_3 : promptVersionsLoopM projA [] stVA3 = Except.ok (stVA3, []) := rfl

theorem evPvA_2 : promptVersionsLoopM projA [("prompt-" ++ "a10", 3)] stVA2 = Except.ok (stVA3, ["prompt-a10"]) := by
  rw [promptVersionsLoopM]
  refine bind_eval (show upsertM
    { table := "prompts",
      whereId := some ("prompt-" ++ "a10"),
      whereUkey := some (ukey3 projA.id "Prompt 4 with variable and config" (toString 3)),
      createId := some ("prompt-" ++ "a10"),
      createUkey := ukey3 projA.id "Prompt 4 with variable and config" (toString 3),
      updId := some ("prompt-" ++ "a10") } stVA2 =
    Except.ok (stVA3, "prompt-a10") from rfl) ?_
  refine bind_eval evPvA_3 ?_
  rfl

theorem evPvA_1 : promptVersionsLoopM projA [("prompt-" ++ "a9", 2), ("prompt-" ++ "a10", 3)] stVA1 = Except.ok (stVA3, ["prompt-a9", "prompt-a10"]) := by
  rw [promptVersionsLoopM]
  refine bind_eval (show upsertM
    { table := "prompts",
      whereId := some ("prompt-" ++ "a9"),
      whereUkey := some (ukey3 projA.id "Prompt 4 with variable and config" (toString 2)),
      createId := some ("prompt-" ++ "a9"),
      createUkey := ukey3 projA.id "Prompt 4 with variable and config" (toString 2),
      updId := some ("prompt-" ++ "a9") } stVA1 =
    Except.ok (stVA2, "prompt-a9") from rfl) ?_
  refine bind_eval evPvA_2 ?_
  rfl

theorem evPvA_0 : promptVersionsLoopM projA [("prompt-" ++ "a8", 1), ("prompt-" ++ "a9", 2), ("prompt-" ++ "a10", 3)] stPDA3 = Except.ok (stVA3, ["prompt-a8", "prompt-a9", "prompt-a10"]) := by
  rw [promptVersionsLoopM]
  refine bind_eval (show upsertM
    { table := "prompts",
      whereId := some ("prompt-" ++ "a8"),
      whereUkey := some (ukey3 projA.id "Prompt 4 with variable and config" (toString 1)),
      createId := some ("prompt-" ++ "a8"),
      createUkey := ukey3 projA.id "Prompt 4 with variable and config" (toString 1),
      updId := some ("prompt-" ++ "a8") } stPDA3 =
    Except.ok (stVA1, "prompt-a8") from rfl) ?_
  refine bind_eval evPvA_1 ?_
  rfl

theorem evMvA_20 : manyVersionsLoopM reA projA 0 21 stMA20 = Except.ok (stMA20, []) := rfl

theorem evMvA_19 : manyVersionsLoopM reA projA 1 20 stMA19 = Except.ok (stMA20, ["prompt-a30"]) := by
  rw [manyVersionsLoopM]
  refine bind_eval (show drawUM reA stMA19 = Except.ok (⟨stMA19.db, ⟨0, 31⟩⟩, "a30") from rfl) ?_
  refine bind_eval (show upsertM
    { table := "prompts",
      whereId := some ("prompt-" ++ "a30"),
      whereUkey := some (ukey3 projA.id "Prompt with many versions" (toString 20)),
      createId := some ("prompt-" ++ "a30"),
      createUkey := ukey3 projA.id "Prompt with many versions" (toString 20),
      updId := some ("prompt-" ++ "a30") } ⟨stMA19.db, ⟨0, 31⟩⟩ =
    Except.ok (stMA20, "prompt-a30") from rfl) ?_
  refine bind_eval evMvA_20 ?_
  rfl

theorem evMvA_18 : manyVersionsLoopM reA projA 2 19 stMA18 = Except.ok (stMA20, ["prompt-a29", "prompt-a30"]) := by
  rw [manyVersionsLoopM]
  refine bind_eval (show drawUM reA stMA18 = Except.ok (⟨stMA18.db, ⟨0, 30⟩⟩, "a29") from rfl) ?_
  refine bind_eval (show upsertM
    { table := "prompts",
      whereId := some ("prompt-" ++ "a29"),
      whereUkey := some (ukey3 projA.id "Prompt with many versions" (toString 19)),
      createId := some ("prompt-" ++ "a29"),
      createUkey := ukey3 projA.id "Prompt with many versions" (toString 19),
      updId := some ("prompt-" ++ "a29") } ⟨stMA18.db, ⟨0, 30⟩⟩ =
    Except.ok (stMA19, "prompt-a29") from rfl) ?_
  refine bind_eval evMvA_19 ?_
  rfl

theorem evMvA_17 : manyVersionsLoopM reA projA 3 18 stMA17 = Except.ok (stMA20, ["prompt-a28", "prompt-a29", "prompt-a30"]) := by
  rw [manyVersionsLoopM]
  refine bind_eval (show drawUM reA stMA17 = Except.ok (⟨stMA17.db, ⟨0, 29⟩⟩, "a28") from rfl) ?_
  refine bind_eval (show upsertM
    { table := "prompts",
      whereId := some ("prompt-" ++ "a28"),
      whereUkey := some (ukey3 projA.id "Prompt with many versions" (toString 18)),
      createId := some ("prompt-" ++ "a28"),
      createUkey := ukey3 projA.id "Prompt with many versions" (toString 18),
      updId := some ("prompt-" ++ "a28") } ⟨stMA17.db, ⟨0, 29⟩⟩ =
    Except.ok (stMA18, "prompt-a28") from rfl) ?_
  refine bind_eval evMvA_18 ?_
  rfl

theorem evMvA_16 : manyVersionsLoopM reA projA 4 17 stMA16 = Except.ok (stMA20, ["prompt-a27", "prompt-a28", "prompt-a29", "prompt-a30"]) := by
  rw [manyVersionsLoopM]
  refine bind_eval (show drawUM reA stMA16 = Except.ok (⟨stMA16.db, ⟨0, 28⟩⟩, "a27") from rfl) ?_
  refine bind_eval (show upsertM
    { table := "prompts",
      whereId := some ("prompt-" ++ "a27"),
      whereUkey := some (ukey3 projA.id "Prompt with many versions" (toString 17)),
      createId := some ("prompt-" ++ "a27"),
      createUkey := ukey3 projA.id "Prompt with many versions" (toString 17),
      updId := some ("prompt-" ++ "a27") } ⟨stMA16.db, ⟨0, 28⟩⟩ =
    Except.ok (stMA17, "prompt-a27") from rfl) ?_
  refine bind_eval evMvA_17 ?_
  rfl

theorem evMvA_15 : manyVersionsLoopM reA projA 5 16 stMA15 = Except.ok (stMA20, ["prompt-a26", "prompt-a27", "prompt-a28", "prompt-a29", "prompt-a30"]) := by
  rw [manyVersionsLoopM]
  refine bind_eval (show drawUM reA stMA15 = Except.ok (⟨stMA15.db, ⟨0, 27⟩⟩, "a26") from rfl) ?_
  refine bind_eval (show upsertM
    { table := "prompts",
      whereId := some ("prompt-" ++ "a26"),
      whereUkey := some (ukey3 projA.id "Prompt with many versions" (toString 16)),
      createId := some ("prompt-" ++ "a26"),
      createUkey := ukey3 projA.id "Prompt with many versions" (toString 16),
      updId := some ("prompt-" ++ "a26") } ⟨stMA15.db, ⟨0, 27⟩⟩ =
    Except.ok (stMA16, "prompt-a26") from rfl) ?_
  refine bind_eval evMvA_16 ?_
  rfl

theorem evMvA_14 : manyVersionsLoopM reA projA 6 15 stMA14 = Except.ok (stMA20, ["prompt-a25", "prompt-a26", "prompt-a27", "prompt-a28", "prompt-a29", "prompt-a30"]) := by
  rw [manyVersionsLoopM]
  refine bind_eval (show drawUM reA stMA14 = Except.ok (⟨stMA14.db, ⟨0, 26⟩⟩, "a25") from rfl) ?_
  refine bind_eval (show upsertM
    { table := "prompts",
      whereId := some ("prompt-" ++ "a25"),
      whereUkey := some (ukey3 projA.id "Prompt with many versions" (toString 15)),
      createId := some ("prompt-" ++ "a25"),
      createUkey := ukey3 projA.id "Prompt with many versions" (toString 15),
      updId := some ("prompt-" ++ "a25") } ⟨stMA14.db, ⟨0, 26⟩⟩ =
    Except.ok (stMA15, "prompt-a25") from rfl) ?_
  refine bind_eval evMvA_15 ?_
  rfl

theorem evMvA_13 : manyVersionsLoopM reA projA 7 14 stMA13 = Except.ok (stMA20, ["prompt-a24", "prompt-a25", "prompt-a26", "prompt-a27", "prompt-a28", "prompt-a29", "prompt-a30"]) := by
  rw [manyVersionsLoopM]
  refine bind_eval (show drawUM reA stMA13 = Except.ok (⟨stMA13.db, ⟨0, 25⟩⟩, "a24") from rfl) ?_
  refine bind_eval (show upsertM
    { table := "prompts",
      whereId := some ("prompt-" ++ "a24"),
      whereUkey := some (ukey3 projA.id "Prompt with many versions" (toString 14)),
      createId := some ("prompt-" ++ "a24"),
      createUkey := ukey3 projA.id "Prompt with many versions" (toString 14),
      updId := some ("prompt-" ++ "a24") } ⟨stMA13.db, ⟨0, 25⟩⟩ =
    Except.ok (stMA14, "prompt-a24") from rfl) ?_
  refine bind_eval evMvA_14 ?_
  rfl

theorem evMvA_12 : manyVersionsLoopM reA projA 8 13 stMA12 = Except.ok (stMA20, ["prompt-a23", "prompt-a24", "prompt-a25", "prompt-a26", "prompt-a27", "prompt-a28", "prompt-a29", "prompt-a30"]) := by
  rw [manyVersionsLoopM]
  refine bind_eval (show drawUM reA stMA12 = Except.ok (⟨stMA12.db, ⟨0, 24⟩⟩, "a23") from rfl) ?_
  refine bind_eval (show upsertM
    { table := "prompts",
      whereId := some ("prompt-" ++ "a23"),
      whereUkey := some (ukey3 projA.id "Prompt with many versions" (toString 13)),
      createId := some ("prompt-" ++ "a23"),
      createUkey := ukey3 projA.id "Prompt with many versions" (toString 13),
      updId := some ("prompt-" ++ "a23") } ⟨stMA12.db, ⟨0, 24⟩⟩ =
    Except.ok (stMA13, "prompt-a23") from rfl) ?_
  refine bind_eval evMvA_13 ?_
  rfl

theorem evMvA_11 : manyVersionsLoopM reA projA 9 12 stMA11 = Except.ok (stMA20, ["prompt-a22", "prompt-a23", "prompt-a24", "prompt-a25", "prompt-a26", "prompt-a27", "prompt-a28", "prompt-a29", "prompt-a30"]) := by
  rw [manyVersionsLoopM]
  refine bind_eval (show drawUM reA stMA11 = Except.ok (⟨stMA11.db, ⟨0, 23⟩⟩, "a22") from rfl) ?_
  refine bind_eval (show upsertM
    { table := "prompts",
      whereId := some ("prompt-" ++ "a22"),
      whereUkey := some (ukey3 projA.id "Prompt with many versions" (toString 12)),
      createId := some ("prompt-" ++ "a22"),
      createUkey := ukey3 projA.id "Prompt with many versions" (toString 12),
      updId := some ("prompt-" ++ "a22") } ⟨stMA11.db, ⟨0, 23⟩⟩ =
    Except.ok (stMA12, "prompt-a22") from rfl) ?_
  refine bind_eval evMvA_12 ?_
  rfl

theorem evMvA_10 : manyVersionsLoopM reA projA 10 11 stMA10 = Except.ok (stMA20, ["prompt-a21", "prompt-a22", "prompt-a23", "prompt-a24", "prompt-a25", "prompt-a26", "prompt-a27", "prompt-a28", "prompt-a29", "prompt-a30"]) := by
  rw [manyVersionsLoopM]
  refine bind_eval (show drawUM reA stMA10 = Except.ok (⟨stMA10.db, ⟨0, 22⟩⟩, "a21") from rfl) ?_
  refine bind_eval (show upsertM
    { table := "prompts",
      whereId := some ("prompt-" ++ "a21"),
      whereUkey := some (ukey3 projA.id "Prompt with many versions" (toString 11)),
      createId := some ("prompt-" ++ "a21"),
      createUkey := ukey3 projA.id "Prompt with many versions" (toString 11),
      updId := some ("prompt-" ++ "a21") } ⟨stMA10.db, ⟨0, 22⟩⟩ =
    Except.ok (stMA11, "prompt-a21") from rfl) ?_
  refine bind_eval evMvA_11 ?_
  rfl

theorem evMvA_9 : manyVersionsLoopM reA projA 11 10 stMA9 = Except.ok (stMA20, ["prompt-a20", "prompt-a21", "prompt-a22", "prompt-a23", "prompt-a24", "prompt-a25", "prompt-a26", "prompt-a27", "prompt-a28", "prompt-a29", "prompt-a30"]) := by
  rw [manyVersionsLoopM]
  refine bind_eval (show drawUM reA stMA9 = Except.ok (⟨stMA9.db, ⟨0, 21⟩⟩, "a20") from rfl) ?_
  refine bind_eval (show upsertM
    { table := "prompts",
      whereId := some ("prompt-" ++ "a20"),
      whereUkey := some (ukey3 projA.id "Prompt with many versions" (toString 10)),
      createId := some ("prompt-" ++ "a20"),
      createUkey := ukey3 projA.id "Prompt with many versions" (toString 10),
      updId := some ("prompt-" ++ "a20") } ⟨stMA9.db, ⟨0, 21⟩⟩ =
    Except.ok (stMA10, "prompt-a20") from rfl) ?_
  refine bind_eval evMvA_10 ?_
  rfl

theorem evMvA_8 : manyVersionsLoopM reA projA 12 9 stMA8 = Except.ok (stMA20, ["prompt-a19", "prompt-a20", "prompt-a21", "prompt-a22", "prompt-a23", "prompt-a24", "prompt-a25", "prompt-a26", "prompt-a27", "prompt-a28", "prompt-a29", "prompt-a30"]) := by
  rw [manyVersionsLoopM]
  refine bind_eval (show drawUM reA stMA8 = Except.ok (⟨stMA8.db, ⟨0, 20⟩⟩, "a19") from rfl) ?_
  refine bind_eval (show upsertM
    { table := "prompts",
      whereId := some ("prompt-" ++ "a19"),
      whereUkey := some (ukey3 projA.id "Prompt with many versions" (toString 9)),
      createId := some ("prompt-" ++ "a19"),
      createUkey := ukey3 projA.id "Prompt with many versions" (toString 9),
      updId := some ("prompt-" ++ "a19") } ⟨stMA8.db, ⟨0, 20⟩⟩ =
    Except.ok (stMA9, "prompt-a19") from rfl) ?_
  refine bind_eval evMvA_9 ?_
  rfl

theorem evMvA_7 : manyVersionsLoopM reA projA 13 8 stMA7 = Except.ok (stMA20, ["prompt-a18", "prompt-a19", "prompt-a20", "prompt-a21", "prompt-a22", "prompt-a23", "prompt-a24", "prompt-a25", "prompt-a26", "prompt-a27", "prompt-a28", "prompt-a29", "prompt-a30"]) := by
  rw [manyVersionsLoopM]
  refine bind_eval (show drawUM reA stMA7 = Except.ok (⟨stMA7.db, ⟨0, 19⟩⟩, "a18") from rfl) ?_
  refine bind_eval (show upsertM
    { table := "prompts",
      whereId := some ("prompt-" ++ "a18"),
      whereUkey := some (ukey3 projA.id "Prompt with many versions" (toString 8)),
      createId := some ("prompt-" ++ "a18"),
      createUkey := ukey3 projA.id "Prompt with many versions" (toString 8),
      updId := some ("prompt-" ++ "a18") } ⟨stMA7.db, ⟨0, 19⟩⟩ =
    Except.ok (stMA8, "prompt-a18") from rfl) ?_
  refine bind_eval evMvA_8 ?_
  rfl

theorem evMvA_6 : manyVersionsLoopM reA projA 14 7 stMA6 = Except.ok (stMA20, ["prompt-a17", "prompt-a18", "prompt-a19", "prompt-a20", "prompt-a21", "prompt-a22", "prompt-a23", "prompt-a24", "prompt-a25", "prompt-a26", "prompt-a27", "prompt-a28", "prompt-a29", "prompt-a30"]) := by
  rw [manyVersionsLoopM]
  refine bind_eval (show drawUM reA stMA6 = Except.ok (⟨stMA6.db, ⟨0, 18⟩⟩, "a17") from rfl) ?_
  refine bind_eval (show upsertM
    { table := "prompts",
      whereId := some ("prompt-" ++ "a17"),
      whereUkey := some (ukey3 projA.id "Prompt with many versions" (toString 7)),
      createId := some ("prompt-" ++ "a17"),
      createUkey := ukey3 projA.id "Prompt with many versions" (toString 7),
      updId := some ("prompt-" ++ "a17") } ⟨stMA6.db, ⟨0, 18⟩⟩ =
    Except.ok (stMA7, "prompt-a17") from rfl) ?_
  refine bind_eval evMvA_7 ?_
  rfl

theorem evMvA_5 : manyVersionsLoopM reA projA 15 6 stMA5 = Except.ok (stMA20, ["prompt-a16", "prompt-a17", "prompt-a18", "prompt-a19", "prompt-a20", "prompt-a21", "prompt-a22", "prompt-a23", "prompt-a24", "prompt-a25", "prompt-a26", "prompt-a27", "prompt-a28", "prompt-a29", "prompt-a30"]) := by
  rw [manyVersionsLoopM]
  refine bind_eval (show drawUM reA stMA5 = Except.ok (⟨stMA5.db, ⟨0, 17⟩⟩, "a16") from rfl) ?_
  refine bind_eval (show upsertM
    { table := "prompts",
      whereId := some ("prompt-" ++ "a16"),
      whereUkey := some (ukey3 projA.id "Prompt with many versions" (toString 6)),
      createId := some ("prompt-" ++ "a16"),
      createUkey := ukey3 projA.id "Prompt with many versions" (toString 6),
      updId := some ("prompt-" ++ "a16") } ⟨stMA5.db, ⟨0, 17⟩⟩ =
    Except.ok (stMA6, "prompt-a16") from rfl) ?_
  refine bind_eval evMvA_6 ?_
  rfl

theorem evMvA_4 : manyVersionsLoopM reA projA 16 5 stMA4 = Except.ok (stMA20, ["prompt-a15", "prompt-a16", "prompt-a17", "prompt-a18", "prompt-a19", "prompt-a20", "prompt-a21", "prompt-a22", "prompt-a23", "prompt-a24", "prompt-a25", "prompt-a26", "prompt-a27", "prompt-a28", "prompt-a29", "prompt-a30"]) := by
  rw [manyVersionsLoopM]
  refine bind_eval (show drawUM reA stMA4 = Except.ok (⟨stMA4.db, ⟨0, 16⟩⟩, "a15") from rfl) ?_
  refine bind_eval (show upsertM
    { table := "prompts",
      whereId := some ("prompt-" ++ "a15"),
      whereUkey := some (ukey3 projA.id "Prompt with many versions" (toString 5)),
      createId := some ("prompt-" ++ "a15"),
      createUkey := ukey3 projA.id "Prompt with many versions" (toString 5),
      updId := some ("prompt-" ++ "a15") } ⟨stMA4.db, ⟨0, 16⟩⟩ =
    Except.ok (stMA5, "prompt-a15") from rfl) ?_
  refine bind_eval evMvA_5 ?_
  rfl

theorem evMvA_3 : manyVersionsLoopM reA projA 17 4 stMA3 = Except.ok (stMA20, ["prompt-a14", "prompt-a15", "prompt-a16", "prompt-a17", "prompt-a18", "prompt-a19", "prompt-a20", "prompt-a21", "prompt-a22", "prompt-a23", "prompt-a24", "prompt-a25", "prompt-a26", "prompt-a27", "prompt-a28", "prompt-a29", "prompt-a30"]) := by
  rw [manyVersionsLoopM]
  refine bind_eval (show drawUM reA stMA3 = Except.ok (⟨stMA3.db, ⟨0, 15⟩⟩, "a14") from rfl) ?_
  refine bind_eval (show upsertM
    { table := "prompts",
      whereId := some ("prompt-" ++ "a14"),
      whereUkey := some (ukey3 projA.id "Prompt with many versions" (toString 4)),
      createId := some ("prompt-" ++ "a14"),
      createUkey := ukey3 projA.id "Prompt with many versions" (toString 4),
      updId := some ("prompt-" ++ "a14") } ⟨stMA3.db, ⟨0, 15⟩⟩ =
    Except.ok (stMA4, "prompt-a14") from rfl) ?_
  refine bind_eval evMvA_4 ?_
  rfl

theorem evMvA_2 : manyVersionsLoopM reA projA 18 3 stMA2 = Except.ok (stMA20, ["prompt-a13", "prompt-a14", "prompt-a15", "prompt-a16", "prompt-a17", "prompt-a18", "prompt-a19", "prompt-a20", "prompt-a21", "prompt-a22", "prompt-a23", "prompt-a24", "prompt-a25", "prompt-a26", "prompt-a27", "prompt-a28", "prompt-a29", "prompt-a30"]) := by
  rw [manyVersionsLoopM]
  refine bind_eval (show drawUM reA stMA2 = Except.ok (⟨stMA2.db, ⟨0, 14⟩⟩, "a13") from rfl) ?_
  refine bind_eval (show upsertM
    { table := "prompts",
      whereId := some ("prompt-" ++ "a13"),
      whereUkey := some (ukey3 projA.id "Prompt with many versions" (toString 3)),
      createId := some ("prompt-" ++ "a13"),
      createUkey := ukey3 projA.id "Prompt with many versions" (toString 3),
      updId := some ("prompt-" ++ "a13") } ⟨stMA2.db, ⟨0, 14⟩⟩ =
    Except.ok (stMA3, "prompt-a13") from rfl) ?_
  refine bind_eval evMvA_3 ?_
  rfl

theorem evMvA_1 : manyVersionsLoopM reA projA 19 2 stMA1 = Except.ok (stMA20, ["prompt-a12", "prompt-a13", "prompt-a14", "prompt-a15", "prompt-a16", "prompt-a17", "prompt-a18", "prompt-a19", "prompt-a20", "prompt-a21", "prompt-a22", "prompt-a23", "prompt-a24", "prompt-a25", "prompt-a26", "prompt-a27", "prompt-a28", "prompt-a29", "prompt-a30"]) := by
  rw [manyVersionsLoopM]
  refine bind_eval (show drawUM reA stMA1 = Except.ok (⟨stMA1.db, ⟨0, 13⟩⟩, "a12") from rfl) ?_
  refine bind_eval (show upsertM
    { table := "prompts",
      whereId := some ("prompt-" ++ "a12"),
      whereUkey := some (ukey3 projA.id "Prompt with many versions" (toString 2)),
      createId := some ("prompt-" ++ "a12"),
      createUkey := ukey3 projA.id "Prompt with many versions" (toString 2),
      updId := some ("prompt-" ++ "a12") } ⟨stMA1.db, ⟨0, 13⟩⟩ =
    Except.ok (stMA2, "prompt-a12") from rfl) ?_
  refine bind_eval evMvA_2 ?_
  rfl

theorem evMvA_0 : manyVersionsLoopM reA projA 20 1 stVA3 = Except.ok (stMA20, ["prompt-a11", "prompt-a12", "prompt-a13", "prompt-a14", "prompt-a15", "prompt-a16", "prompt-a17", "prompt-a18", "prompt-a19", "prompt-a20", "prompt-a21", "prompt-a22", "prompt-a23", "prompt-a24", "prompt-a25", "prompt-a26", "prompt-a27", "prompt-a28", "prompt-a29", "prompt-a30"]) := by
  rw [manyVersionsLoopM]
  refine bind_eval (show drawUM reA stVA3 = Except.ok (⟨stVA3.db, ⟨0, 12⟩⟩, "a11") from rfl) ?_
  refine bind_eval (show upsertM
    { table := "prompts",
      whereId := some ("prompt-" ++ "a11"),
      whereUkey := some (ukey3 projA.id "Prompt with many versions" (toString 1)),
      createId := some ("prompt-" ++ "a11"),
      createUkey := ukey3 projA.id "Prompt with many versions" (toString 1),
      updId := some ("prompt-" ++ "a11") } ⟨stVA3.db, ⟨0, 12⟩⟩ =
    Except.ok (stMA1, "prompt-a11") from rfl) ?_
  refine bind_eval evMvA_1 ?_
  rfl

theorem evPrA : generatePromptsM reA projA stS6 = Except.ok (stMA20, ["prompt-123", "prompt-456", "prompt-789", "prompt-abc", "folder-customer-prompt-1", "folder-customer-prompt-2", "folder-prompt-1", "prompt-a8", "prompt-a9", "prompt-a10", "prompt-a11", "prompt-a12", "prompt-a13", "prompt-a14", "prompt-a15", "prompt-a16", "prompt-a17", "prompt-a18", "prompt-a19", "prompt-a20", "prompt-a21", "prompt-a22", "prompt-a23", "prompt-a24", "prompt-a25", "prompt-a26", "prompt-a27", "prompt-a28", "prompt-a29", "prompt-a30"]) := by
  rw [generatePromptsM]
  refine bind_eval evSpA_0 ?_
  refine bind_eval (show drawUM reA stPA7 = Except.ok (stPDA1, "a8") from rfl) ?_
  refine bind_eval (show drawUM reA stPDA1 = Except.ok (stPDA2, "a9") from rfl) ?_
  refine bind_eval (show drawUM reA stPDA2 = Except.ok (stPDA3, "a10") from rfl) ?_
  refine bind_eval evPvA_0 ?_
  refine bind_eval evMvA_0 ?_
  rfl

theorem evSpB_7 : seedPromptsLoopM projB [] stPB7 = Except.ok (stPB7, []) := rfl

theorem evSpB_6 : seedPromptsLoopM projB [⟨"folder-prompt-1", "folder/prompt-1", 1⟩] stPB6 = Except.ok (stPB7, ["folder-prompt-1"]) := by
  rw [seedPromptsLoopM]
  refine bind_eval (show upsertM
    { table := "prompts",
      whereId := some ("folder-prompt-1" ++ projB.id),
      whereUkey := some (ukey3 ("folder-prompt-1" ++ projB.id) "folder/prompt-1" (toString 1)),
      createId := some ("folder-prompt-1" ++ projB.id),
      createUkey := ukey3 projB.id "folder/prompt-1" (toString 1) } stPB6 =
    Except.ok (stPB7, "folder-prompt-1" ++ projB.id) from rfl) ?_
  refine bind_eval evSpB_7 ?_
  rfl

theorem evSpB_5 : seedPromptsLoopM projB [⟨"folder-customer-prompt-2", "folder/customer/prompt-2", 1⟩, ⟨"folder-prompt-1", "folder/prompt-1", 1⟩] stPB5 = Except.ok (stPB7, ["folder-customer-prompt-2", "folder-prompt-1"]) := by
  rw [seedPromptsLoopM]
  refine bind_eval (show upsertM
    { table := "prompts",
      whereId := some ("folder-customer-prompt-2" ++ projB.id),
      whereUkey := some (ukey3 ("folder-customer-prompt-2" ++ projB.id) "folder/customer/prompt-2" (toString 1)),
      createId := some ("folder-customer-prompt-2" ++ projB.id),
      createUkey := ukey3 projB.id "folder/customer/prompt-2" (toString 1) } stPB5 =
    Except.ok (stPB6, "folder-customer-prompt-2" ++ projB.id) from rfl) ?_
  refine bind_eval evSpB_6 ?_
  rfl

theorem evSpB_4 : seedPromptsLoopM projB [⟨"folder-customer-prompt-1", "folder/customer/prompt-1", 1⟩, ⟨"folder-customer-prompt-2", "folder/customer/prompt-2", 1⟩, ⟨"folder-prompt-1", "folder/prompt-1", 1⟩] stPB4 = Except.ok (stPB7, ["folder-customer-prompt-1", "folder-customer-prompt-2", "folder-prompt-1"]) := by
  rw [seedPromptsLoopM]
  refine bind_eval (show upsertM
    { table := "prompts",
      whereId := some ("folder-customer-prompt-1" ++ projB.id),
      whereUkey := some (ukey3 ("folder-customer-prompt-1" ++ projB.id) "folder/customer/prompt-1" (toString 1)),
      createId := some ("folder-customer-prompt-1" ++ projB.id),
      createUkey := ukey3 projB.id "folder/customer/prompt-1" (toString 1) } stPB4 =
    Except.ok (stPB5, "folder-customer-prompt-1" ++ projB.id) from rfl) ?_
  refine bind_eval evSpB_5 ?_
  rfl

theorem evSpB_3 : seedPromptsLoopM projB [⟨"prompt-abc", "Prompt 4", 1⟩, ⟨"folder-customer-prompt-1", "folder/customer/prompt-1", 1⟩, ⟨"folder-customer-prompt-2", "folder/customer/prompt-2", 1⟩, ⟨"folder-prompt-1", "folder/prompt-1", 1⟩] stPB3 = Except.ok (stPB7, ["prompt-abc", "folder-customer-prompt-1", "folder-customer-prompt-2", "folder-prompt-1"]) := by
  rw [seedPromptsLoopM]
  refine bind_eval (show upsertM
    { table := "prompts",
      whereId := some ("prompt-abc" ++ projB.id),
      whereUkey := some (ukey3 ("prompt-abc" ++ projB.id) "Prompt 4" (toString 1)),
      createId := some ("prompt-abc" ++ projB.id),
      createUkey := ukey3 projB.id "Prompt 4" (toString 1) } stPB3 =
    Except.ok (stPB4, "prompt-abc" ++ projB.id) from rfl) ?_
  refine bind_eval evSpB_4 ?_
  rfl

theorem evSpB_2 : seedPromptsLoopM projB [⟨"prompt-789", "Prompt 3 by API", 1⟩, ⟨"prompt-abc", "Prompt 4", 1⟩, ⟨"folder-customer-prompt-1", "folder/customer/prompt-1", 1⟩, ⟨"folder-customer-prompt-2", "folder/customer/prompt-2", 1⟩, ⟨"folder-prompt-1", "folder/prompt-1", 1⟩] stPB2 = Except.ok (stPB7, ["prompt-789", "prompt-abc", "folder-customer-prompt-1", "folder-customer-prompt-2", "folder-prompt-1"]) := by
  rw [seedPromptsLoopM]
  refine bind_eval (show upsertM
    { table := "prompts",
      whereId := some ("prompt-789" ++ projB.id),
      whereUkey := some (ukey3 ("prompt-789" ++ projB.id) "Prompt 3 by API" (toString 1)),
      createId := some ("prompt-789" ++ projB.id),
      createUkey := ukey3 projB.id "Prompt 3 by API" (toString 1) } stPB2 =
    Except.ok (stPB3, "prompt-789" ++ projB.id) from rfl) ?_
  refine bind_eval evSpB_3 ?_
  rfl

theorem evSpB_1 : seedPromptsLoopM projB [⟨"prompt-456", "Prompt 2", 1⟩, ⟨"prompt-789", "Prompt 3 by API", 1⟩, ⟨"prompt-abc", "Prompt 4", 1⟩, ⟨"folder-customer-prompt-1", "folder/customer/prompt-1", 1⟩, ⟨"folder-customer-prompt-2", "folder/customer/prompt-2", 1⟩, ⟨"folder-prompt-1", "folder/prompt-1", 1⟩] stPB1 = Except.ok (stPB7, ["prompt-456", "prompt-789", "prompt-abc", "folder-customer-prompt-1", "folder-customer-prompt-2", "folder-prompt-1"]) := by
  rw [seedPromptsLoopM]
  refine bind_eval (show upsertM
    { table := "prompts",
      whereId := some ("prompt-456" ++ projB.id),
      whereUkey := some (ukey3 ("prompt-456" ++ projB.id) "Prompt 2" (toString 1)),
      createId := some ("prompt-456" ++ projB.id),
      createUkey := ukey3 projB.id "Prompt 2" (toString 1) } stPB1 =
    Except.ok (stPB2, "prompt-456" ++ projB.id) from rfl) ?_
  refine bind_eval evSpB_2 ?_
  rfl

theorem evSpB_0 : seedPromptsLoopM projB SEED_PROMPTS stMA20 = Except.ok (stPB7, ["prompt-123", "prompt-456", "prompt-789", "prompt-abc", "folder-customer-prompt-1", "folder-customer-prompt-2", "folder-prompt-1"]) := by
  rw [show SEED_PROMPTS = [⟨"prompt-123", "Prompt 1", 1⟩, ⟨"prompt-456", "Prompt 2", 1⟩, ⟨"prompt-789", "Prompt 3 by API", 1⟩, ⟨"prompt-abc", "Prompt 4", 1⟩, ⟨"folder-customer-prompt-1", "folder/customer/prompt-1", 1⟩, ⟨"folder-customer-prompt-2", "folder/customer/prompt-2", 1⟩, ⟨"folder-prompt-1", "folder/prompt-1", 1⟩] from rfl]
  rw [seedPromptsLoopM]
  refine bind_eval (show upsertM
    { table := "prompts",
      whereId := some ("prompt-123" ++ projB.id),
      whereUkey := some (ukey3 ("prompt-123" ++ projB.id) "Prompt 1" (toString 1)),
      createId := some ("prompt-123" ++ projB.id),
      createUkey := ukey3 projB.id "Prompt 1" (toString 1) } stMA20 =
    Except.ok (stPB1, "prompt-123" ++ projB.id) from rfl) ?_
  refine bind_eval evSpB_1 ?_
  rfl

theorem evPvB_3 : promptVersionsLoopM projB [] stVB3 = Except.ok (stVB3, []) := rfl

theorem evPvB_2 : promptVersionsLoopM projB [("prompt-" ++ "a33", 3)] stVB2 = Except.ok (stVB3, ["prompt-a33"]) := by
  rw [promptVersionsLoopM]
  refine bind_eval (show upsertM
    { table := "prompts",
      whereId := some ("prompt-" ++ "a33"),
      whereUkey := some (ukey3 projB.id "Prompt 4 with variable and config" (toString 3)),
      createId := some ("prompt-" ++ "a33"),
      createUkey := ukey3 projB.id "Prompt 4 with variable and config" (toString 3),
      updId := some ("prompt-" ++ "a33") } stVB2 =
    Except.ok (stVB3, "prompt-a33") from rfl) ?_
  refine bind_eval evPvB_3 ?_
  rfl

theorem evPvB_1 : promptVersionsLoopM projB [("prompt-" ++ "a32", 2), ("prompt-" ++ "a33", 3)] stVB1 = Except.ok (stVB3, ["prompt-a32", "prompt-a33"]) := by
  rw [promptVersionsLoopM]
  refine bind_eval (show upsertM
    { table := "prompts",
      whereId := some ("prompt-" ++ "a32"),
      whereUkey := some (ukey3 projB.id "Prompt 4 with variable and config" (toString 2)),
      createId := some ("prompt-" ++ "a32"),
      createUkey := ukey3 projB.id "Prompt 4 with variable and config" (toString 2),
      updId := some ("prompt-" ++ "a32") } stVB1 =
    Except.ok (stVB2, "prompt-a32") from rfl) ?_
  refine bind_eval evPvB_2 ?_
  rfl

theorem evPvB_0 : promptVersionsLoopM projB [("prompt-" ++ "a31", 1), ("prompt-" ++ "a32", 2), ("prompt-" ++ "a33", 3)] stPDB3 = Except.ok (stVB3, ["prompt-a31", "prompt-a32", "prompt-a33"]) := by
  rw [promptVersionsLoopM]
  refine bind_eval (show upsertM
    { table := "prompts",
      whereId := some ("prompt-" ++ "a31"),
      whereUkey := some (ukey3 projB.id "Prompt 4 with variable and config" (toString 1)),
      createId := some ("prompt-" ++ "a31"),
      createUkey := ukey3 projB.id "Prompt 4 with variable and config" (toString 1),
      updId := some ("prompt-" ++ "a31") } stPDB3 =
    Except.ok (stVB1, "prompt-a31") from rfl) ?_
  refine bind_eval evPvB_1 ?_
  rfl

theorem evMvB_20 : manyVersionsLoopM reA projB 0 21 stMB20 = Except.ok (stMB20, []) := rfl

theorem evMvB_19 : manyVersionsLoopM reA projB 1 20 stMB19 = Except.ok (stMB20, ["prompt-a53"]) := by
  rw [manyVersionsLoopM]
  refine bind_eval (show drawUM reA stMB19 = Except.ok (⟨stMB19.db, ⟨0, 54⟩⟩, "a53") from rfl) ?_
  refine bind_eval (show upsertM
    { table := "prompts",
      whereId := some ("prompt-" ++ "a53"),
      whereUkey := some (ukey3 projB.id "Prompt with many versions" (toString 20)),
      createId := some ("prompt-" ++ "a53"),
      createUkey := ukey3 projB.id "Prompt with many versions" (toString 20),
      updId := some ("prompt-" ++ "a53") } ⟨stMB19.db, ⟨0, 54⟩⟩ =
    Except.ok (stMB20, "prompt-a53") from rfl) ?_
  refine bind_eval evMvB_20 ?_
  rfl

theorem evMvB_18 : manyVersionsLoopM reA projB 2 19 stMB18 = Except.ok (stMB20, ["prompt-a52", "prompt-a53"]) := by
  rw [manyVersionsLoopM]
  refine bind_eval (show drawUM reA stMB18 = Except.ok (⟨stMB18.db, ⟨0, 53⟩⟩, "a52") from rfl) ?_
  refine bind_eval (show upsertM
    { table := "prompts",
      whereId := some ("prompt-" ++ "a52"),
      whereUkey := some (ukey3 projB.id "Prompt with many versions" (toString 19)),
      createId := some ("prompt-" ++ "a52"),
      createUkey := ukey3 projB.id "Prompt with many versions" (toString 19),
      updId := some ("prompt-" ++ "a52") } ⟨stMB18.db, ⟨0, 53⟩⟩ =
    Except.ok (stMB19, "prompt-a52") from rfl) ?_
  refine bind_eval evMvB_19 ?_
  rfl

theorem evMvB_17 : manyVersionsLoopM reA projB 3 18 stMB17 = Except.ok (stMB20, ["prompt-a51", "prompt-a52", "prompt-a53"]) := by
  rw [manyVersionsLoopM]
  refine bind_eval (show drawUM reA stMB17 = Except.ok (⟨stMB17.db, ⟨0, 52⟩⟩, "a51") from rfl) ?_
  refine bind_eval (show upsertM
    { table := "prompts",
      whereId := some ("prompt-" ++ "a51"),
      whereUkey := some (ukey3 projB.id "Prompt with many versions" (toString 18)),
      createId := some ("prompt-" ++ "a51"),
      createUkey := ukey3 projB.id "Prompt with many versions" (toString 18),
      updId := some ("prompt-" ++ "a51") } ⟨stMB17.db, ⟨0, 52⟩⟩ =
    Except.ok (stMB18, "prompt-a51") from rfl) ?_
  refine bind_eval evMvB_18 ?_
  rfl

theorem evMvB_16 : manyVersionsLoopM reA projB 4 17 stMB16 = Except.ok (stMB20, ["prompt-a50", "prompt-a51", "prompt-a52", "prompt-a53"]) := by
  rw [manyVersionsLoopM]
  refine bind_eval (show drawUM reA stMB16 = Except.ok (⟨stMB16.db, ⟨0, 51⟩⟩, "a50") from rfl) ?_
  refine bind_eval (show upsertM
    { table := "prompts",
      whereId := some ("prompt-" ++ "a50"),
      whereUkey := some (ukey3 projB.id "Prompt with many versions" (toString 17)),
      createId := some ("prompt-" ++ "a50"),
      createUkey := ukey3 projB.id "Prompt with many versions" (toString 17),
      updId := some ("prompt-" ++ "a50") } ⟨stMB16.db, ⟨0, 51⟩⟩ =
    Except.ok (stMB17, "prompt-a50") from rfl) ?_
  refine bind_eval evMvB_17 ?_
  rfl

theorem evMvB_15 : manyVersionsLoopM reA projB 5 16 stMB15 = Except.ok (stMB20, ["prompt-a49", "prompt-a50", "prompt-a51", "prompt-a52", "prompt-a53"]) := by
  rw [manyVersionsLoopM]
  refine bind_eval (show drawUM reA stMB15 = Except.ok (⟨stMB15.db, ⟨0, 50⟩⟩, "a49") from rfl) ?_
  refine bind_eval (show upsertM
    { table := "prompts",
      whereId := some ("prompt-" ++ "a49"),
      whereUkey := some (ukey3 projB.id "Prompt with many versions" (toString 16)),
      createId := some ("prompt-" ++ "a49"),
      createUkey := ukey3 projB.id "Prompt with many versions" (toString 16),
      updId := some ("prompt-" ++ "a49") } ⟨stMB15.db, ⟨0, 50⟩⟩ =
    Except.ok (stMB16, "prompt-a49") from rfl) ?_
  refine bind_eval evMvB_16 ?_
  rfl

theorem evMvB_14 : manyVersionsLoopM reA projB 6 15 stMB14 = Except.ok (stMB20, ["prompt-a48", "prompt-a49", "prompt-a50", "prompt-a51", "prompt-a52", "prompt-a53"]) := by
  rw [manyVersionsLoopM]
  refine bind_eval (show drawUM reA stMB14 = Except.ok (⟨stMB14.db, ⟨0, 49⟩⟩, "a48") from rfl) ?_
  refine bind_eval (show upsertM
    { table := "prompts",
      whereId := some ("prompt-" ++ "a48"),
      whereUkey := some (ukey3 projB.id "Prompt with many versions" (toString 15)),
      createId := some ("prompt-" ++ "a48"),
      createUkey := ukey3 projB.id "Prompt with many versions" (toString 15),
      updId := some ("prompt-" ++ "a48") } ⟨stMB14.db, ⟨0, 49⟩⟩ =
    Except.ok (stMB15, "prompt-a48") from rfl) ?_
  refine bind_eval evMvB_15 ?_
  rfl

theorem evMvB_13 : manyVersionsLoopM reA projB 7 14 stMB13 = Except.ok (stMB20, ["prompt-a47", "prompt-a48", "prompt-a49", "prompt-a50", "prompt-a51", "prompt-a52", "prompt-a53"]) := by
  rw [manyVersionsLoopM]
  refine bind_eval (show drawUM reA stMB13 = Except.ok (⟨stMB13.db, ⟨0, 48⟩⟩, "a47") from rfl) ?_
  refine bind_eval (show upsertM
    { table := "prompts",
      whereId := some ("prompt-" ++ "a47"),
      whereUkey := some (ukey3 projB.id "Prompt with many versions" (toString 14)),
      createId := some ("prompt-" ++ "a47"),
      createUkey := ukey3 projB.id "Prompt with many versions" (toString 14),
      updId := some ("prompt-" ++ "a47") } ⟨stMB13.db, ⟨0, 48⟩⟩ =
    Except.ok (stMB14, "prompt-a47") from rfl) ?_
  refine bind_eval evMvB_14 ?_
  rfl

theorem evMvB_12 : manyVersionsLoopM reA projB 8 13 stMB12 = Except.ok (stMB20, ["prompt-a46", "prompt-a47", "prompt-a48", "prompt-a49", "prompt-a50", "prompt-a51", "prompt-a52", "prompt-a53"]) := by
  rw [manyVersionsLoopM]
  refine bind_eval (show drawUM reA stMB12 = Except.ok (⟨stMB12.db, ⟨0, 47⟩⟩, "a46") from rfl) ?_
  refine bind_eval (show upsertM
    { table := "prompts",
      whereId := some ("prompt-" ++ "a46"),
      whereUkey := some (ukey3 projB.id "Prompt with many versions" (toString 13)),
      createId := some ("prompt-" ++ "a46"),
      createUkey := ukey3 projB.id "Prompt with many versions" (toString 13),
      updId := some ("prompt-" ++ "a46") } ⟨stMB12.db, ⟨0, 47⟩⟩ =
    Except.ok (stMB13, "prompt-a46") from rfl) ?_
  refine bind_eval evMvB_13 ?_
  rfl

theorem evMvB_11 : manyVersionsLoopM reA projB 9 12 stMB11 = Except.ok (stMB20, ["prompt-a45", "prompt-a46", "prompt-a47", "prompt-a48", "prompt-a49", "prompt-a50", "prompt-a51", "prompt-a52", "prompt-a53"]) := by
  rw [manyVersionsLoopM]
  refine bind_eval (show drawUM reA stMB11 = Except.ok (⟨stMB11.db, ⟨0, 46⟩⟩, "a45") from rfl) ?_
  refine bind_eval (show upsertM
    { table := "prompts",
      whereId := some ("prompt-" ++ "a45"),
      whereUkey := some (ukey3 projB.id "Prompt with many versions" (toString 12)),
      createId := some ("prompt-" ++ "a45"),
      createUkey := ukey3 projB.id "Prompt with many versions" (toString 12),
      updId := some ("prompt-" ++ "a45") } ⟨stMB11.db, ⟨0, 46⟩⟩ =
    Except.ok (stMB12, "prompt-a45") from rfl) ?_
  refine bind_eval evMvB_12 ?_
  rfl

theorem evMvB_10 : manyVersionsLoopM reA projB 10 11 stMB10 = Except.ok (stMB20, ["prompt-a44", "prompt-a45", "prompt-a46", "prompt-a47", "prompt-a48", "prompt-a49", "prompt-a50", "prompt-a51", "prompt-a52", "prompt-a53"]) := by
  rw [manyVersionsLoopM]
  refine bind_eval (show drawUM reA stMB10 = Except.ok (⟨stMB10.db, ⟨0, 45⟩⟩, "a44") from rfl) ?_
  refine bind_eval (show upsertM
    { table := "prompts",
      whereId := some ("prompt-" ++ "a44"),
      whereUkey := some (ukey3 projB.id "Prompt with many versions" (toString 11)),
      createId := some ("prompt-" ++ "a44"),
      createUkey := ukey3 projB.id "Prompt with many versions" (toString 11),
      updId := some ("prompt-" ++ "a44") } ⟨stMB10.db, ⟨0, 45⟩⟩ =
    Except.ok (stMB11, "prompt-a44") from rfl) ?_
  refine bind_eval evMvB_11 ?_
  rfl

theorem evMvB_9 : manyVersionsLoopM reA projB 11 10 stMB9 = Except.ok (stMB20, ["prompt-a43", "prompt-a44", "prompt-a45", "prompt-a46", "prompt-a47", "prompt-a48", "prompt-a49", "prompt-a50", "prompt-a51", "prompt-a52", "prompt-a53"]) := by
  rw [manyVersionsLoopM]
  refine bind_eval (show drawUM reA stMB9 = Except.ok (⟨stMB9.db, ⟨0, 44⟩⟩, "a43") from rfl) ?_
  refine bind_eval (show upsertM
    { table := "prompts",
      whereId := some ("prompt-" ++ "a43"),
      whereUkey := some (ukey3 projB.id "Prompt with many versions" (toString 10)),
      createId := some ("prompt-" ++ "a43"),
      createUkey := ukey3 projB.id "Prompt with many versions" (toString 10),
      updId := some ("prompt-" ++ "a43") } ⟨stMB9.db, ⟨0, 44⟩⟩ =
    Except.ok (stMB10, "prompt-a43") from rfl) ?_
  refine bind_eval evMvB_10 ?_
  rfl

theorem evMvB_8 : manyVersionsLoopM reA projB 12 9 stMB8 = Except.ok (stMB20, ["prompt-a42", "prompt-a43", "prompt-a44", "prompt-a45", "prompt-a46", "prompt-a47", "prompt-a48", "prompt-a49", "prompt-a50", "prompt-a51", "prompt-a52", "prompt-a53"]) := by
  rw [manyVersionsLoopM]
  refine bind_eval (show drawUM reA stMB8 = Except.ok (⟨stMB8.db, ⟨0, 43⟩⟩, "a42") from rfl) ?_
  refine bind_eval (show upsertM
    { table := "prompts",
      whereId := some ("prompt-" ++ "a42"),
      whereUkey := some (ukey3 projB.id "Prompt with many versions" (toString 9)),
      createId := some ("prompt-" ++ "a42"),
      createUkey := ukey3 projB.id "Prompt with many versions" (toString 9),
      updId := some ("prompt-" ++ "a42") } ⟨stMB8.db, ⟨0, 43⟩⟩ =
    Except.ok (stMB9, "prompt-a42") from rfl) ?_
  refine bind_eval evMvB_9 ?_
  rfl

theorem evMvB_7 : manyVersionsLoopM reA projB 13 8 stMB7 = Except.ok (stMB20, ["prompt-a41", "prompt-a42", "prompt-a43", "prompt-a44", "prompt-a45", "prompt-a46", "prompt-a47", "prompt-a48", "prompt-a49", "prompt-a50", "prompt-a51", "prompt-a52", "prompt-a53"]) := by
  rw [manyVersionsLoopM]
  refine bind_eval (show drawUM reA stMB7 = Except.ok (⟨stMB7.db, ⟨0, 42⟩⟩, "a41") from rfl) ?_
  refine bind_eval (show upsertM
    { table := "prompts",
      whereId := some ("prompt-" ++ "a41"),
      whereUkey := some (ukey3 projB.id "Prompt with many versions" (toString 8)),
      createId := some ("prompt-" ++ "a41"),
      createUkey := ukey3 projB.id "Prompt with many versions" (toString 8),
      updId := some ("prompt-" ++ "a41") } ⟨stMB7.db, ⟨0, 42⟩⟩ =
    Except.ok (stMB8, "prompt-a41") from rfl) ?_
  refine bind_eval evMvB_8 ?_
  rfl

theorem evMvB_6 : manyVersionsLoopM reA projB 14 7 stMB6 = Except.ok (stMB20, ["prompt-a40", "prompt-a41", "prompt-a42", "prompt-a43", "prompt-a44", "prompt-a45", "prompt-a46", "prompt-a47", "prompt-a48", "prompt-a49", "prompt-a50", "prompt-a51", "prompt-a52", "prompt-a53"]) := by
  rw [manyVersionsLoopM]
  refine bind_eval (show drawUM reA stMB6 = Except.ok (⟨stMB6.db, ⟨0, 41⟩⟩, "a40") from rfl) ?_
  refine bind_eval (show upsertM
    { table := "prompts",
      whereId := some ("prompt-" ++ "a40"),
      whereUkey := some (ukey3 projB.id "Prompt with many versions" (toString 7)),
      createId := some ("prompt-" ++ "a40"),
      createUkey := ukey3 projB.id "Prompt with many versions" (toString 7),
      updId := some ("prompt-" ++ "a40") } ⟨stMB6.db, ⟨0, 41⟩⟩ =
    Except.ok (stMB7, "prompt-a40") from rfl) ?_
  refine bind_eval evMvB_7 ?_
  rfl

theorem evMvB_5 : manyVersionsLoopM reA projB 15 6 stMB5 = Except.ok (stMB20, ["prompt-a39", "prompt-a40", "prompt-a41", "prompt-a42", "prompt-a43", "prompt-a44", "prompt-a45", "prompt-a46", "prompt-a47", "prompt-a48", "prompt-a49", "prompt-a50", "prompt-a51", "prompt-a52", "prompt-a53"]) := by
  rw [manyVersionsLoopM]
  refine bind_eval (show drawUM reA stMB5 = Except.ok (⟨stMB5.db, ⟨0, 40⟩⟩, "a39") from rfl) ?_
  refine bind_eval (show upsertM
    { table := "prompts",
      whereId := some ("prompt-" ++ "a39"),
      whereUkey := some (ukey3 projB.id "Prompt with many versions" (toString 6)),
      createId := some ("prompt-" ++ "a39"),
      createUkey := ukey3 projB.id "Prompt with many versions" (toString 6),
      updId := some ("prompt-" ++ "a39") } ⟨stMB5.db, ⟨0, 40⟩⟩ =
    Except.ok (stMB6, "prompt-a39") from rfl) ?_
  refine bind_eval evMvB_6 ?_
  rfl

theorem evMvB_4 : manyVersionsLoopM reA projB 16 5 stMB4 = Except.ok (stMB20, ["prompt-a38", "prompt-a39", "prompt-a40", "prompt-a41", "prompt-a42", "prompt-a43", "prompt-a44", "prompt-a45", "prompt-a46", "prompt-a47", "prompt-a48", "prompt-a49", "prompt-a50", "prompt-a51", "prompt-a52", "prompt-a53"]) := by
  rw [manyVersionsLoopM]
  refine bind_eval (show drawUM reA stMB4 = Except.ok (⟨stMB4.db, ⟨0, 39⟩⟩, "a38") from rfl) ?_
  refine bind_eval (show upsertM
    { table := "prompts",
      whereId := some ("prompt-" ++ "a38"),
      whereUkey := some (ukey3 projB.id "Prompt with many versions" (toString 5)),
      createId := some ("prompt-" ++ "a38"),
      createUkey := ukey3 projB.id "Prompt with many versions" (toString 5),
      updId := some ("prompt-" ++ "a38") } ⟨stMB4.db, ⟨0, 39⟩⟩ =
    Except.ok (stMB5, "prompt-a38") from rfl) ?_
  refine bind_eval evMvB_5 ?_
  rfl

theorem evMvB_3 : manyVersionsLoopM reA projB 17 4 stMB3 = Except.ok (stMB20, ["prompt-a37", "prompt-a38", "prompt-a39", "prompt-a40", "prompt-a41", "prompt-a42", "prompt-a43", "prompt-a44", "prompt-a45", "prompt-a46", "prompt-a47", "prompt-a48", "prompt-a49", "prompt-a50", "prompt-a51", "prompt-a52", "prompt-a53"]) := by
  rw [manyVersionsLoopM]
  refine bind_eval (show drawUM reA stMB3 = Except.ok (⟨stMB3.db, ⟨0, 38⟩⟩, "a37") from rfl) ?_
  refine bind_eval (show upsertM
    { table := "prompts",
      whereId := some ("prompt-" ++ "a37"),
      whereUkey := some (ukey3 projB.id "Prompt with many versions" (toString 4)),
      createId := some ("prompt-" ++ "a37"),
      createUkey := ukey3 projB.id "Prompt with many versions" (toString 4),
      updId := some ("prompt-" ++ "a37") } ⟨stMB3.db, ⟨0, 38⟩⟩ =
    Except.ok (stMB4, "prompt-a37") from rfl) ?_
  refine bind_eval evMvB_4 ?_
  rfl

theorem evMvB_2 : manyVersionsLoopM reA projB 18 3 stMB2 = Except.ok (stMB20, ["prompt-a36", "prompt-a37", "prompt-a38", "prompt-a39", "prompt-a40", "prompt-a41", "prompt-a42", "prompt-a43", "prompt-a44", "prompt-a45", "prompt-a46", "prompt-a47", "prompt-a48", "prompt-a49", "prompt-a50", "prompt-a51", "prompt-a52", "prompt-a53"]) := by
  rw [manyVersionsLoopM]
  refine bind_eval (show drawUM reA stMB2 = Except.ok (⟨stMB2.db, ⟨0, 37⟩⟩, "a36") from rfl) ?_
  refine bind_eval (show upsertM
    { table := "prompts",
      whereId := some ("prompt-" ++ "a36"),
      whereUkey := some (ukey3 projB.id "Prompt with many versions" (toString 3)),
      createId := some ("prompt-" ++ "a36"),
      createUkey := ukey3 projB.id "Prompt with many versions" (toString 3),
      updId := some ("prompt-" ++ "a36") } ⟨stMB2.db, ⟨0, 37⟩⟩ =
    Except.ok (stMB3, "prompt-a36") from rfl) ?_
  refine bind_eval evMvB_3 ?_
  rfl

theorem evMvB_1 : manyVersionsLoopM reA projB 19 2 stMB1 = Except.ok (stMB20, ["prompt-a35", "prompt-a36", "prompt-a37", "prompt-a38", "prompt-a39", "prompt-a40", "prompt-a41", "prompt-a42", "prompt-a43", "prompt-a44", "prompt-a45", "prompt-a46", "prompt-a47", "prompt-a48", "prompt-a49", "prompt-a50", "prompt-a51", "prompt-a52", "prompt-a53"]) := by
  rw [manyVersionsLoopM]
  refine bind_eval (show drawUM reA stMB1 = Except.ok (⟨stMB1.db, ⟨0, 36⟩⟩, "a35") from rfl) ?_
  refine bind_eval (show upsertM
    { table := "prompts",
      whereId := some ("prompt-" ++ "a35"),
      whereUkey := some (ukey3 projB.id "Prompt with many versions" (toString 2)),
      createId := some ("prompt-" ++ "a35"),
      createUkey := ukey3 projB.id "Prompt with many versions" (toString 2),
      updId := some ("prompt-" ++ "a35") } ⟨stMB1.db, ⟨0, 36⟩⟩ =
    Except.ok (stMB2, "prompt-a35") from rfl) ?_
  refine bind_eval evMvB_2 ?_
  rfl

theorem evMvB_0 : manyVersionsLoopM reA projB 20 1 stVB3 = Except.ok (stMB20, ["prompt-a34", "prompt-a35", "prompt-a36", "prompt-a37", "prompt-a38", "prompt-a39", "prompt-a40", "prompt-a41", "prompt-a42", "prompt-a43", "prompt-a44", "prompt-a45", "prompt-a46", "prompt-a47", "prompt-a48", "prompt-a49", "prompt-a50", "prompt-a51", "prompt-a52", "prompt-a53"]) := by
  rw [manyVersionsLoopM]
  refine bind_eval (show drawUM reA stVB3 = Except.ok (⟨stVB3.db, ⟨0, 35⟩⟩, "a34") from rfl) ?_
  refine bind_eval (show upsertM
    { table := "prompts",
      whereId := some ("prompt-" ++ "a34"),
      whereUkey := some (ukey3 projB.id "Prompt with many versions" (toString 1)),
      createId := some ("prompt-" ++ "a34"),
      createUkey := ukey3 projB.id "Prompt with many versions" (toString 1),
      updId := some ("prompt-" ++ "a34") } ⟨stVB3.db, ⟨0, 35⟩⟩ =
    Except.ok (stMB1, "prompt-a34") from rfl) ?_
  refine bind_eval evMvB_1 ?_
  rfl

theorem evPrB : generatePromptsM reA projB stMA20 = Except.ok (stMB20, ["prompt-123", "prompt-456", "prompt-789", "prompt-abc", "folder-customer-prompt-1", "folder-customer-prompt-2", "folder-prompt-1", "prompt-a31", "prompt-a32", "prompt-a33", "prompt-a34", "prompt-a35", "prompt-a36", "prompt-a37", "prompt-a38", "prompt-a39", "prompt-a40", "prompt-a41", "prompt-a42", "prompt-a43", "prompt-a44", "prompt-a45", "prompt-a46", "prompt-a47", "prompt-a48", "prompt-a49", "prompt-a50", "prompt-a51", "prompt-a52", "prompt-a53"]) := by
  rw [generatePromptsM]
  refine bind_eval evSpB_0 ?_
  refine bind_eval (show drawUM reA stPB7 = Except.ok (stPDB1, "a31") from rfl) ?_
  refine bind_eval (show drawUM reA stPDB1 = Except.ok (stPDB2, "a32") from rfl) ?_
  refine bind_eval (show drawUM reA stPDB2 = Except.ok (stPDB3, "a33") from rfl) ?_
  refine bind_eval evPvB_0 ?_
  refine bind_eval evMvB_0 ?_
  rfl

theorem evDs1 : datasetOneM reA [] 0 projA.id stT2 = Except.ok (stRN1, ()) := by
  rw [datasetOneM]
  refine bind_eval (show findIdByUkeyM "datasets" (ukey2 projA.id ("demo-dataset-" ++ toString 0)) stT2 = Except.ok (stT2, (none : Option String)) from rfl) ?_
  dsimp only
  refine bind_eval (show createAutoM "datasets" (ukey2 projA.id ("demo-dataset-" ++ toString 0)) stT2 = Except.ok (stCA1, "auto-6") from rfl) ?_
  refine bind_eval (show datasetItemsLoopM reA [] 18 stCA1 = Except.ok (stIT1x, ([] : List String)) from rfl) ?_
  exact (rfl : datasetRunsLoopM reA [] projA.id "auto-6" [] 5 0 stIT1x = Except.ok (stRN1, ()))

theorem evDs2 : datasetOneM reA [] 0 projB.id stRN1 = Except.ok (stRN2, ()) := by
  rw [datasetOneM]
  refine bind_eval (show findIdByUkeyM "datasets" (ukey2 projB.id ("demo-dataset-" ++ toString 0)) stRN1 = Except.ok (stRN1, (none : Option String)) from rfl) ?_
  dsimp only
  refine bind_eval (show createAutoM "datasets" (ukey2 projB.id ("demo-dataset-" ++ toString 0)) stRN1 = Except.ok (stCA2, "auto-12") from rfl) ?_
  refine bind_eval (show datasetItemsLoopM reA [] 18 stCA2 = Except.ok (stIT2x, ([] : List String)) from rfl) ?_
  exact (rfl : datasetRunsLoopM reA [] projB.id "auto-12" [] 5 0 stIT2x = Except.ok (stRN2, ()))

theorem evDs3 : datasetOneM reA [] 1 projA.id stRN2 = Except.ok (stRN3, ()) := by
  rw [datasetOneM]
  refine bind_eval (show findIdByUkeyM "datasets" (ukey2 projA.id ("demo-dataset-" ++ toString 1)) stRN2 = Except.ok (stRN2, (none : Option String)) from rfl) ?_
  dsimp only
  refine bind_eval (show createAutoM "datasets" (ukey2 projA.id ("demo-dataset-" ++ toString 1)) stRN2 = Except.ok (stCA3, "auto-18") from rfl) ?_
  refine bind_eval (show datasetItemsLoopM reA [] 18 stCA3 = Except.ok (stIT3x, ([] : List String)) from rfl) ?_
  exact (rfl : datasetRunsLoopM reA [] projA.id "auto-18" [] 5 0 stIT3x = Except.ok (stRN3, ()))

theorem evDs4 : datasetOneM reA [] 1 projB.id stRN3 = Except.ok (stRN4, ()) := by
  rw [datasetOneM]
  refine bind_eval (show findIdByUkeyM "datasets" (ukey2 projB.id ("demo-dataset-" ++ toString 1)) stRN3 = Except.ok (stRN3, (none : Option String)) from rfl) ?_
  dsimp only
  refine bind_eval (show createAutoM "datasets" (ukey2 projB.id ("demo-dataset-" ++ toString 1)) stRN3 = Except.ok (stCA4, "auto-24") from rfl) ?_
  refine bind_eval (show datasetItemsLoopM reA [] 18 stCA4 = Except.ok (stIT4x, ([] : List String)) from rfl) ?_
  exact (rfl : datasetRunsLoopM reA [] projB.id "auto-24" [] 5 0 stIT4x = Except.ok (stRN4, ()))

theorem evDash : createDashboardsM reA [projA, projB] stRN4 = Except.ok (stDB2, ()) := by
  rw [createDashboardsM]
  refine bind_eval (show dashboardsOneM reA stRN4 = Except.ok (stDB1, ()) from rfl) ?_
  rw [createDashboardsM]
  refine bind_eval (show dashboardsOneM reA stDB1 = Except.ok (stDB2, ()) from rfl) ?_
  rfl

theorem evDatasets : createDatasetsM reA projA projB [] stT2 = Except.ok (stRN4, ()) := by
  rw [createDatasetsM]
  refine bind_eval evDs1 ?_
  refine bind_eval evDs2 ?_
  refine bind_eval evDs3 ?_
  exact evDs4

theorem evTail : examplesTail reA false [] stMB20 = Except.ok (stSF, ()) := by
  rw [examplesTail]
  dsimp only
  rw [if_neg (by simp)]
  refine bind_eval (show (pure () : SeedM Unit) stMB20 = Except.ok (stMB20, ()) from rfl) ?_
  refine bind_eval (show upsertM
      { table := "eval_templates",
        whereUkey := some (ukey3 projA.id "toxicity-template" "1"),
        createUkey := ukey3 projA.id "toxicity-template" "1" } stMB20 =
      Except.ok (stT1, "auto-5") from rfl) ?_
  refine bind_eval (show upsertM
      { table := "job_configurations", whereId := some "toxicity-job",
        createId := some "toxicity-job" } stT1 =
      Except.ok (stT2, "toxicity-job") from rfl) ?_
  refine bind_eval evDatasets ?_
  refine bind_eval evDash ?_
  exact (rfl : createManyM "llm_schemas" 2 stDB2 = Except.ok (stSF, ()))

theorem evRun1 : seedMainLite "examples" reA false ⟨emptyDB, ⟨0, 0⟩⟩ =
    Except.ok (stSF, ()) := by
  rw [seedMainLite]
  refine bind_eval evBase ?_
  rw [if_pos (show extendedEnv "examples" = true from rfl)]
  rw [examplesLite]
  refine bind_eval evPre ?_
  refine bind_eval evCfgA ?_
  refine bind_eval evCfgB ?_
  refine bind_eval evQA ?_
  refine bind_eval evQB ?_
  refine bind_eval evPrA ?_
  refine bind_eval evPrB ?_
  exact evTail


theorem evBase2 : baselineSeed stR0 = Except.ok (stR0, ()) := by
  rw [baselineSeed]
  refine bind_eval (show upsertM
    { table := "users", whereId := some "user-1",
      createId := some "user-1", createUkey := "demo@langfuse.com",
      updUkey := some "demo@langfuse.com" } stR0 =
    Except.ok (stR0, "user-1") from rfl) ?_
  refine bind_eval (show upsertM
    { table := "users", whereId := some "user-2",
      createId := some "user-2", createUkey := "member@langfuse.com",
      updUkey := some "member@langfuse.com" } stR0 =
    Except.ok (stR0, "user-2") from rfl) ?_
  refine bind_eval (show upsertM
    { table := "organizations", whereId := some "seed-org-id",
      createId := some "seed-org-id" } stR0 =
    Except.ok (stR0, "seed-org-id") from rfl) ?_
  refine bind_eval (show upsertM
    { table := "projects", whereId := some projA.id,
      createId := some projA.id } stR0 =
    Except.ok (stR0, projA.id) from rfl) ?_
  refine bind_eval (show upsertM
    { table := "organization_memberships",
      whereUkey := some (ukey2 "seed-org-id" "user-1"),
      createUkey := ukey2 "seed-org-id" "user-1" } stR0 =
    Except.ok (stR0, "auto-0") from rfl) ?_
  refine bind_eval (show upsertM
    { table := "organization_memberships",
      whereUkey := some (ukey2 "seed-org-id" "user-2"),
      createUkey := ukey2 "seed-org-id" "user-2" } stR0 =
    Except.ok (stR0, "auto-1") from rfl) ?_
  refine bind_eval (show upsertM
    { table := "project_memberships",
      whereUkey := some (ukey2 projA.id "user-2"),
      createUkey := ukey2 projA.id "user-2" } stR0 =
    Except.ok (stR0, "auto-2") from rfl) ?_
  refine bind_eval (show upsertM
    { table := "prompts",
      whereUkey := some (ukey3 projA.id "summary-prompt" "1"),
      createUkey := ukey3 projA.id "summary-prompt" "1" } stR0 =
    Except.ok (stR0, "auto-3") from rfl) ?_
  refine bind_eval (show findByIdM "api_keys" "seed-api-key" stR0 =
    Except.ok (stR0, true) from rfl) ?_
  rfl

theorem evPre2 : examplesPrefix stR0 = Except.ok (stR0, ()) := by
  rw [examplesPrefix]
  refine bind_eval (show upsertM
    { table := "organizations", whereId := some "demo-org-id",
      createId := some "demo-org-id" } stR0 =
    Except.ok (stR0, "demo-org-id") from rfl) ?_
  refine bind_eval (show upsertM
    { table := "projects", whereId := some projB.id,
      createId := some projB.id } stR0 =
    Except.ok (stR0, projB.id) from rfl) ?_
  refine bind_eval (show upsertM
    { table := "organization_memberships",
      whereUkey := some (ukey2 "demo-org-id" "user-1"),
      createUkey := ukey2 "demo-org-id" "user-1" } stR0 =
    Except.ok (stR0, "auto-4") from rfl) ?_
  refine bind_eval (show findByIdM "api_keys" "seed-api-key-2" stR0 =
    Except.ok (stR0, true) from rfl) ?_
  rfl

theorem evCfgA2 : generateConfigsM reB projA stR0 = Except.ok (stRC1, cfgLitA2) := rfl

theorem evCfgB2 : generateConfigsM reB projB stRC1 = Except.ok (stRC2, cfgLitB2) := rfl

theorem evQA2 : generateQueuesM reB projA stRC2 = Except.ok (stRQ1, ["queue-b6"]) := rfl

theorem evQB2 : generateQueuesM reB projB stRQ1 = Except.ok (stRQ2, ["queue-b7"]) := rfl

theorem evSpErr2 : seedPromptsLoopM projA SEED_PROMPTS stRQ2 =
    Except.error stRQ2 := by
  rw [show SEED_PROMPTS = (⟨"prompt-123", "Prompt 1", 1⟩ : SeedPrompt) ::
    [⟨"prompt-456", "Prompt 2", 1⟩,
     ⟨"prompt-789", "Prompt 3 by API", 1⟩,
     ⟨"prompt-abc", "Prompt 4", 1⟩,
     ⟨"folder-customer-prompt-1", "folder/customer/prompt-1", 1⟩,
     ⟨"folder-customer-prompt-2", "folder/customer/prompt-2", 1⟩,
     ⟨"folder-prompt-1", "folder/prompt-1", 1⟩] from rfl]
  exact seedPromptsLoopM_chain_err projA ⟨"prompt-123", "Prompt 1", 1⟩ _ stRQ2 stRQ2 rfl

theorem evPrErr2 : generatePromptsM reB projA stRQ2 = Except.error stRQ2 := by
  rw [generatePromptsM]
  exact bind_eval_err evSpErr2

theorem evRun2 : seedMainLite "examples" reB false stR0 = Except.error stRQ2 := by
  rw [seedMainLite]
  refine bind_eval evBase2 ?_
  rw [if_pos (show extendedEnv "examples" = true from rfl)]
  rw [examplesLite]
  refine bind_eval evPre2 ?_
  refine bind_eval evCfgA2 ?_
  refine bind_eval evCfgB2 ?_
  refine bind_eval evQA2 ?_
  refine bind_eval evQB2 ?_
  exact bind_eval_err evPrErr2

theorem rowKeyOk_swap {a b : Row} (h : rowKeyOk a b) : rowKeyOk b a :=
  fun ht h1 h2 => Ne.symm (h ht.symm h2 h1)

theorem rowKeyOk_self {r : Row} (h : rowKeyOk r r) : r.ukey = "" := by
  by_contra hne
  exact h rfl hne hne rfl

theorem mem_replaceRow {l : List Row} {r r' y : Row}
    (h : y ∈ replaceRow l r r') : y ∈ l ∨ y = r' := by
  induction l with
  | nil => simp [replaceRow] at h
  | cons x xs ih =>
    rw [replaceRow] at h
    by_cases hx : x = r
    · rw [if_pos hx] at h
      rcases List.mem_cons.1 h with h | h
      · exact Or.inr h
      · exact Or.inl (List.mem_cons_of_mem _ h)
    · rw [if_neg hx] at h
      rcases List.mem_cons.1 h with h | h
      · exact Or.inl (h ▸ List.mem_cons_self _ _)
      · rcases ih h with h | h
        · exact Or.inl (List.mem_cons_of_mem _ h)
        · exact Or.inr h

theorem replaceRow_pairwise {l : List Row} {r r' : Row}
    (hp : l.Pairwise rowKeyOk)
    (h1 : ∀ x ∈ l, x ≠ r → rowKeyOk x r')
    (h2 : r.ukey = "" → rowKeyOk r' r) :
    (replaceRow l r r').Pairwise rowKeyOk := by
  induction l with
  | nil => exact List.Pairwise.nil
  | cons x xs ih =>
    rcases List.pairwise_cons.1 hp with ⟨hx, hxs⟩
    rw [replaceRow]
    by_cases hxr : x = r
    · rw [if_pos hxr]
      refine List.pairwise_cons.2 ⟨?_, hxs⟩
      intro y hy
      by_cases hyr : y = r
      · have hxy := hx y hy
        rw [hxr, hyr] at hxy
        rw [hyr]
        exact h2 (rowKeyOk_self hxy)
      · exact rowKeyOk_swap (h1 y (List.mem_cons_of_mem _ hy) hyr)
    · rw [if_neg hxr]
      refine List.pairwise_cons.2 ⟨?_, ih hxs (fun z hz => h1 z (List.mem_cons_of_mem _ hz))⟩
      intro y hy
      rcases mem_replaceRow hy with h | h
      · exact hx y h
      · exact h ▸ h1 x (List.mem_cons_self _ _) hxr

theorem dbCreate_keeps {db : DB} {t i u : String} {db2 : DB}
    (h : dbUkeysOk db) (he : dbCreate db t i u = some db2) : dbUkeysOk db2 := by
  rw [dbCreate] at he
  by_cases hc : dbConflict db t i u
  · rw [if_pos hc] at he
    exact absurd he (by simp)
  · rw [if_neg hc] at he
    have he2 := Option.some.inj he
    subst he2
    refine List.pairwise_append.2 ⟨h, List.pairwise_singleton _ _, ?_⟩
    intro a ha b hb
    rw [List.mem_singleton] at hb
    subst hb
    intro ht h1 h2 heq
    rw [dbConflict] at hc
    refine hc ?_
    rw [List.any_eq_true]
    refine ⟨a, ha, ?_⟩
    simp only [Bool.and_eq_true, Bool.or_eq_true, beq_iff_eq, bne_iff_ne]
    exact ⟨ht, Or.inr ⟨fun hu => h2 hu, by simp [heq]⟩⟩

theorem dbCreateAuto_keeps {db : DB} {t u : String} {db2 : DB} {rid : String}
    (h : dbUkeysOk db) (he : dbCreateAuto db t u = some (db2, rid)) :
    dbUkeysOk db2 := by
  rw [dbCreateAuto] at he
  by_cases hc : db.rows.any (fun r => r.table == t && u != "" && r.ukey == u)
  · rw [if_pos hc] at he
    exact absurd he (by simp)
  · rw [if_neg hc] at he
    have he2 := congrArg Prod.fst (Option.some.inj he)
    dsimp only at he2
    subst he2
    refine List.pairwise_append.2 ⟨h, List.pairwise_singleton _ _, ?_⟩
    intro a ha b hb
    rw [List.mem_singleton] at hb
    subst hb
    intro ht h1 h2 heq
    refine hc ?_
    rw [List.any_eq_true]
    refine ⟨a, ha, ?_⟩
    simp only [Bool.and_eq_true, beq_iff_eq, bne_iff_ne]
    exact ⟨⟨ht, fun hu => h2 hu⟩, heq⟩

theorem dbCreateMany_keeps {db : DB} {t : String} {n : Nat}
    (h : dbUkeysOk db) : dbUkeysOk (dbCreateMany db t n) := by
  rw [dbCreateMany]
  refine List.pairwise_append.2 ⟨h, ?_, ?_⟩
  · refine List.pairwise_iff_forall_sublist.2 ?_
    intro a b hs
    have ha : a ∈ (List.range n).map
        (fun k => (⟨t, autoId (db.fresh + k), ""⟩ : Row)) := hs.subset (by simp)
    rcases List.mem_map.1 ha with ⟨k, _, hk⟩
    intro _ h1 _
    exact absurd (congrArg Row.ukey hk.symm) h1
  · intro a _ b hb
    rcases List.mem_map.1 hb with ⟨k, _, hk⟩
    intro _ _ h2
    exact absurd (congrArg Row.ukey hk.symm) h2

theorem dbUpsert_keeps {db : DB} {a : UpsertArgs} {db2 : DB} {rid : String}
    (h : dbUkeysOk db) (he : dbUpsert db a = some (db2, rid)) :
    dbUkeysOk db2 := by
  rw [dbUpsert] at he
  rcases hf : db.rows.find? (rowMatches a.table a.whereId a.whereUkey) with - | r
  · rw [hf] at he
    rcases hci : a.createId with - | cid
    · rw [hci] at he
      exact dbCreateAuto_keeps h he
    · rw [hci] at he
      dsimp only at he
      rcases hcr : dbCreate db a.table cid a.createUkey with - | dbc
      · rw [hcr] at he
        exact absurd he (by simp)
      · rw [hcr] at he
        have he2 := congrArg Prod.fst (Option.some.inj he)
        dsimp only at he2
        subst he2
        exact dbCreate_keeps h hcr
  · rw [hf] at he
    dsimp only at he
    by_cases hg : ((a.updUkey.getD r.ukey) != r.ukey && (a.updUkey.getD r.ukey) != "" &&
        db.rows.any (fun r2 => r2 != r && r2.table == a.table &&
          r2.ukey == (a.updUkey.getD r.ukey))) ||
       ((a.updId.getD r.id) != r.id &&
        db.rows.any (fun r2 => r2 != r && r2.table == a.table &&
          r2.id == (a.updId.getD r.id)))
    · rw [if_pos hg] at he
      exact absurd he (by simp)
    · rw [if_neg hg] at he
      have he2 := congrArg Prod.fst (Option.some.inj he)
      dsimp only at he2
      subst he2
      have hrmem : r ∈ db.rows := List.mem_of_find?_eq_some hf
      have hrt : r.table = a.table := by
        have h3 := List.find?_some hf
        simp only [rowMatches.eq_def, Bool.and_eq_true, beq_iff_eq] at h3
        exact h3.1.1
      refine replaceRow_pairwise h ?_ ?_
      · intro x hx hxr ht h1 h2 heq
        by_cases hsame : (a.updUkey.getD r.ukey) = r.ukey
        · have hpw : rowKeyOk x r :=
            List.Pairwise.forall (fun a1 b1 hab => rowKeyOk_swap hab) h hx hrmem hxr
          exact hpw ht h1 (hsame ▸ h2) (heq.trans hsame)
        · refine hg ?_
          rw [Bool.or_eq_true]
          refine Or.inl ?_
          simp only [Bool.and_eq_true, bne_iff_ne, List.any_eq_true, beq_iff_eq]
          exact ⟨⟨hsame, h2⟩, x, hx, ⟨hxr, ht.trans hrt⟩, heq⟩
      · intro hre ht h1 h2
        exact absurd hre h2
theorem ok_state {α : Type} {s1 s2 : SeedSt} {a b : α}
    (heq : (Except.ok (s1, a) : Except SeedSt (SeedSt × α)) = Except.ok (s2, b)) :
    s1 = s2 :=
  congrArg Prod.fst (Except.ok.inj heq)

theorem keeps_pure {α : Type} (a : α) : KeepsKeys (pure a : SeedM α) := by
  intro s hs
  constructor
  · intro s2 b heq
    exact ok_state heq ▸ hs
  · intro e heq
    exact absurd heq (fun hc => Except.noConfusion hc)

theorem keeps_bind {α β : Type} {m : SeedM α} {k : α → SeedM β}
    (hm : KeepsKeys m) (hk : ∀ a, KeepsKeys (k a)) : KeepsKeys (m >>= k) := by
  intro s hs
  have hb : (m >>= k) s = match m s with
      | Except.ok (s1, a) => k a s1
      | Except.error e => Except.error e := rfl
  constructor
  · intro s2 b heq
    rw [hb] at heq
    rcases hm1 : m s with e | ⟨s1, a⟩
    · rw [hm1] at heq
      exact absurd heq (fun hc => Except.noConfusion hc)
    · rw [hm1] at heq
      exact ((hk a) s1 ((hm s hs).1 s1 a hm1)).1 s2 b heq
  · intro e heq
    rw [hb] at heq
    rcases hm1 : m s with e1 | ⟨s1, a⟩
    · rw [hm1] at heq
      have h2 := Except.error.inj heq
      exact h2 ▸ (hm s hs).2 e1 hm1
    · rw [hm1] at heq
      exact ((hk a) s1 ((hm s hs).1 s1 a hm1)).2 e heq

theorem keeps_ite {α : Type} (c : Prop) [Decidable c] {m1 m2 : SeedM α}
    (h1 : KeepsKeys m1) (h2 : KeepsKeys m2) :
    KeepsKeys (if c then m1 else m2) := by
  by_cases hc : c
  · rw [if_pos hc]; exact h1
  · rw [if_neg hc]; exact h2

theorem keeps_upsertM (a : UpsertArgs) : KeepsKeys (upsertM a) := by
  intro s hs
  rw [upsertM]
  constructor
  · intro s2 b heq
    rcases hu : dbUpsert s.db a with - | ⟨db2, rid⟩
    · rw [hu] at heq
      exact absurd heq (fun hc => Except.noConfusion hc)
    · rw [hu] at heq
      dsimp only at heq
      rw [← ok_state heq]
      exact dbUpsert_keeps hs hu
  · intro e heq
    rcases hu : dbUpsert s.db a with - | ⟨db2, rid⟩
    · rw [hu] at heq
      have h2 := Except.error.inj heq
      exact h2 ▸ hs
    · rw [hu] at heq
      exact absurd heq (fun hc => Except.noConfusion hc)

theorem keeps_createM (t i u : String) : KeepsKeys (createM t i u) := by
  intro s hs
  rw [createM]
  constructor
  · intro s2 b heq
    rcases hu : dbCreate s.db t i u with - | db2
    · rw [hu] at heq
      exact absurd heq (fun hc => Except.noConfusion hc)
    · rw [hu] at heq
      dsimp only at heq
      rw [← ok_state heq]
      exact dbCreate_keeps hs hu
  · intro e heq
    rcases hu : dbCreate s.db t i u with - | db2
    · rw [hu] at heq
      have h2 := Except.error.inj heq
      exact h2 ▸ hs
    · rw [hu] at heq
      exact absurd heq (fun hc => Except.noConfusion hc)

theorem keeps_createAutoM (t u : String) : KeepsKeys (createAutoM t u) := by
  intro s hs
  rw [createAutoM]
  constructor
  · intro s2 b heq
    rcases hu : dbCreateAuto s.db t u with - | ⟨db2, rid⟩
    · rw [hu] at heq
      exact absurd heq (fun hc => Except.noConfusion hc)
    · rw [hu] at heq
      dsimp only at heq
      rw [← ok_state heq]
      exact dbCreateAuto_keeps hs hu
  · intro e heq
    rcases hu : dbCreateAuto s.db t u with - | ⟨db2, rid⟩
    · rw [hu] at heq
      have h2 := Except.error.inj heq
      exact h2 ▸ hs
    · rw [hu] at heq
      exact absurd heq (fun hc => Except.noConfusion hc)

theorem keeps_createManyM (t : String) (n : Nat) : KeepsKeys (createManyM t n) := by
  intro s hs
  rw [createManyM]
  constructor
  · intro s2 b heq
    rw [← ok_state heq]
    exact dbCreateMany_keeps hs
  · intro e heq
    exact absurd heq (fun hc => Except.noConfusion hc)

theorem keeps_findByIdM (t i : String) : KeepsKeys (findByIdM t i) := by
  intro s hs
  constructor
  · intro s2 b heq
    exact ok_state heq ▸ hs
  · intro e heq
    exact absurd heq (fun hc => Except.noConfusion hc)

theorem keeps_findIdByUkeyM (t u : String) : KeepsKeys (findIdByUkeyM t u) := by
  intro s hs
  constructor
  · intro s2 b heq
    exact ok_state heq ▸ hs
  · intro e heq
    exact absurd heq (fun hc => Except.noConfusion hc)

theorem keeps_liftRand {α : Type} (f : Ctr → α × Ctr) : KeepsKeys (liftRand f) := by
  intro s hs
  constructor
  · intro s2 b heq
    exact ok_state heq ▸ hs
  · intro e heq
    exact absurd heq (fun hc => Except.noConfusion hc)

theorem keeps_drawM (re : RandEnv) : KeepsKeys (drawM re) := keeps_liftRand _

theorem keeps_drawUM (re : RandEnv) : KeepsKeys (drawUM re) := keeps_liftRand _

theorem keeps_baselineSeed : KeepsKeys baselineSeed := by
  rw [baselineSeed]
  refine keeps_bind (keeps_upsertM _) (fun _ => ?_)
  refine keeps_bind (keeps_upsertM _) (fun _ => ?_)
  refine keeps_bind (keeps_upsertM _) (fun _ => ?_)
  refine keeps_bind (keeps_upsertM _) (fun _ => ?_)
  refine keeps_bind (keeps_upsertM _) (fun _ => ?_)
  refine keeps_bind (keeps_upsertM _) (fun _ => ?_)
  refine keeps_bind (keeps_upsertM _) (fun _ => ?_)
  refine keeps_bind (keeps_upsertM _) (fun _ => ?_)
  refine keeps_bind (keeps_findByIdM _ _) (fun ex => ?_)
  refine keeps_ite _ (keeps_pure _) ?_
  exact keeps_bind (keeps_createM _ _ _) (fun _ => keeps_pure _)

theorem keeps_examplesPrefix : KeepsKeys examplesPrefix := by
  rw [examplesPrefix]
  refine keeps_bind (keeps_upsertM _) (fun _ => ?_)
  refine keeps_bind (keeps_upsertM _) (fun _ => ?_)
  refine keeps_bind (keeps_upsertM _) (fun _ => ?_)
  refine keeps_bind (keeps_findByIdM _ _) (fun ex => ?_)
  refine keeps_ite _ (keeps_pure _) ?_
  exact keeps_bind (keeps_createM _ _ _) (fun _ => keeps_pure _)

theorem keeps_configsUpsertsM (l : List ConfigParam) :
    KeepsKeys (configsUpsertsM l) := by
  induction l with
  | nil => exact keeps_pure _
  | cons c rest ih =>
    rw [configsUpsertsM]
    exact keeps_bind (keeps_upsertM _) (fun _ => ih)

theorem keeps_generateConfigsM (re : RandEnv) (p : Proj) :
    KeepsKeys (generateConfigsM re p) := by
  rw [generateConfigsM]
  refine keeps_bind (keeps_drawUM re) (fun u1 => ?_)
  refine keeps_bind (keeps_drawUM re) (fun u2 => ?_)
  refine keeps_bind (keeps_drawUM re) (fun u3 => ?_)
  exact keeps_bind (keeps_configsUpsertsM _) (fun _ => keeps_pure _)

theorem keeps_generateQueuesM (re : RandEnv) (p : Proj) :
    KeepsKeys (generateQueuesM re p) := by
  rw [generateQueuesM]
  refine keeps_bind (keeps_drawUM re) (fun u => ?_)
  exact keeps_bind (keeps_upsertM _) (fun _ => keeps_pure _)

theorem keeps_seedPromptsLoopM (p : Proj) (l : List SeedPrompt) :
    KeepsKeys (seedPromptsLoopM p l) := by
  induction l with
  | nil => exact keeps_pure _
  | cons sp rest ih =>
    rw [seedPromptsLoopM]
    refine keeps_bind (keeps_upsertM _) (fun _ => ?_)
    exact keeps_bind ih (fun _ => keeps_pure _)

theorem keeps_promptVersionsLoopM (p : Proj) (l : List (String × Nat)) :
    KeepsKeys (promptVersionsLoopM p l) := by
  induction l with
  | nil => exact keeps_pure _
  | cons v rest ih =>
    rcases v with ⟨vid, ver⟩
    rw [promptVersionsLoopM]
    refine keeps_bind (keeps_upsertM _) (fun _ => ?_)
    exact keeps_bind ih (fun _ => keeps_pure _)

theorem keeps_manyVersionsLoopM (re : RandEnv) (p : Proj) (n i : Nat) :
    KeepsKeys (manyVersionsLoopM re p n i) := by
  induction n generalizing i with
  | zero => exact keeps_pure _
  | succ n ih =>
    rw [manyVersionsLoopM]
    refine keeps_bind (keeps_drawUM re) (fun u => ?_)
    refine keeps_bind (keeps_upsertM _) (fun _ => ?_)
    exact keeps_bind (ih (i + 1)) (fun _ => keeps_pure _)

theorem keeps_generatePromptsM (re : RandEnv) (p : Proj) :
    KeepsKeys (generatePromptsM re p) := by
  rw [generatePromptsM]
  refine keeps_bind (keeps_seedPromptsLoopM p _) (fun _ => ?_)
  refine keeps_bind (keeps_drawUM re) (fun v1 => ?_)
  refine keeps_bind (keeps_drawUM re) (fun v2 => ?_)
  refine keeps_bind (keeps_drawUM re) (fun v3 => ?_)
  refine keeps_bind (keeps_promptVersionsLoopM p _) (fun _ => ?_)
  exact keeps_bind (keeps_manyVersionsLoopM re p 20 1) (fun _ => keeps_pure _)

theorem keeps_sessionsUploadM (l : List Session) :
    KeepsKeys (sessionsUploadM l) := by
  induction l with
  | nil => exact keeps_pure _
  | cons sess rest ih =>
    rw [sessionsUploadM]
    exact keeps_bind (keeps_upsertM _) (fun _ => ih)

theorem keeps_uploadObjectsM (sessions : List Session) (comments : List CommentObj)
    (queueItems : List QueueItemObj) :
    KeepsKeys (uploadObjectsM sessions comments queueItems) := by
  rw [uploadObjectsM]
  refine keeps_bind (keeps_sessionsUploadM _) (fun _ => ?_)
  exact keeps_bind (keeps_createManyM _ _) (fun _ => keeps_createManyM _ _)

theorem keeps_datasetItemsLoopM (re : RandEnv) (obs : List Obs) (n : Nat) :
    KeepsKeys (datasetItemsLoopM re obs n) := by
  induction n with
  | zero => exact keeps_pure _
  | succ n ih =>
    rw [datasetItemsLoopM]
    refine keeps_bind (keeps_drawM re) (fun r1 => ?_)
    refine keeps_ite _ ?_ ?_
    · refine keeps_bind (keeps_drawM re) (fun rIdx => ?_)
      refine keeps_bind (keeps_pure _) (fun y => ?_)
      rcases y with - | o
      · exact ih
      · refine keeps_bind (keeps_drawM re) (fun _ => ?_)
        refine keeps_bind (keeps_drawM re) (fun _ => ?_)
        refine keeps_bind (keeps_drawM re) (fun _ => ?_)
        refine keeps_bind (keeps_drawM re) (fun _ => ?_)
        refine keeps_bind (keeps_createAutoM _ _) (fun _ => ?_)
        exact keeps_bind ih (fun _ => keeps_pure _)
    · refine keeps_bind (keeps_pure _) (fun y => ?_)
      rcases y with - | o
      · exact ih
      · refine keeps_bind (keeps_drawM re) (fun _ => ?_)
        refine keeps_bind (keeps_drawM re) (fun _ => ?_)
        refine keeps_bind (keeps_drawM re) (fun _ => ?_)
        refine keeps_bind (keeps_drawM re) (fun _ => ?_)
        refine keeps_bind (keeps_createAutoM _ _) (fun _ => ?_)
        exact keeps_bind ih (fun _ => keeps_pure _)

theorem keeps_runItemsLoopM (re : RandEnv) (obs : List Obs) (pid : String)
    (l : List String) : KeepsKeys (runItemsLoopM re obs pid l) := by
  induction l with
  | nil => exact keeps_pure _
  | cons x rest ih =>
    rw [runItemsLoopM]
    refine keeps_bind (keeps_drawM re) (fun rIdx => ?_)
    rcases hj : jsGet (obs.filter (fun o => o.projectId == pid))
        (jsFloor (qMul rIdx ((obs.filter (fun o => o.projectId == pid)).length : ℚ))) with - | o
    · rw [hj]
      exact ih
    · rw [hj]
      refine keeps_bind (keeps_drawM re) (fun _ => ?_)
      exact keeps_bind (keeps_createAutoM _ _) (fun _ => ih)

theorem keeps_datasetRunsLoopM (re : RandEnv) (obs : List Obs)
    (pid datasetId : String) (itemIds : List String) (n rn : Nat) :
    KeepsKeys (datasetRunsLoopM re obs pid datasetId itemIds n rn) := by
  induction n generalizing rn with
  | zero => exact keeps_pure _
  | succ n ih =>
    rw [datasetRunsLoopM]
    refine keeps_bind (keeps_drawM re) (fun _ => ?_)
    refine keeps_bind (keeps_upsertM _) (fun _ => ?_)
    exact keeps_bind (keeps_runItemsLoopM re obs pid itemIds) (fun _ => ih (rn + 1))

theorem keeps_datasetOneM (re : RandEnv) (obs : List Obs) (dn : Nat)
    (pid : String) : KeepsKeys (datasetOneM re obs dn pid) := by
  rw [datasetOneM]
  refine keeps_bind (keeps_findIdByUkeyM _ _) (fun found => ?_)
  rcases found with - | i <;> dsimp only
  · refine keeps_bind (keeps_createAutoM _ _) (fun dsId => ?_)
    refine keeps_bind (keeps_datasetItemsLoopM re obs 18) (fun itemIds => ?_)
    exact keeps_datasetRunsLoopM re obs pid dsId itemIds 5 0
  · refine keeps_bind (keeps_pure _) (fun dsId => ?_)
    refine keeps_bind (keeps_datasetItemsLoopM re obs 18) (fun itemIds => ?_)
    exact keeps_datasetRunsLoopM re obs pid dsId itemIds 5 0

theorem keeps_createDatasetsM (re : RandEnv) (p1 p2 : Proj) (obs : List Obs) :
    KeepsKeys (createDatasetsM re p1 p2 obs) := by
  rw [createDatasetsM]
  refine keeps_bind (keeps_datasetOneM _ _ _ _) (fun _ => ?_)
  refine keeps_bind (keeps_datasetOneM _ _ _ _) (fun _ => ?_)
  exact keeps_bind (keeps_datasetOneM _ _ _ _) (fun _ => keeps_datasetOneM _ _ _ _)

theorem keeps_dashboardsOneM (re : RandEnv) : KeepsKeys (dashboardsOneM re) := by
  rw [dashboardsOneM]
  refine keeps_bind (keeps_upsertM _) (fun _ => ?_)
  refine keeps_bind (keeps_upsertM _) (fun _ => ?_)
  refine keeps_bind (keeps_drawUM re) (fun _ => ?_)
  refine keeps_bind (keeps_drawUM re) (fun _ => ?_)
  exact keeps_bind (keeps_upsertM _) (fun _ => keeps_pure _)

theorem keeps_createDashboardsM (re : RandEnv) (ps : List Proj) :
    KeepsKeys (createDashboardsM re ps) := by
  induction ps with
  | nil => exact keeps_pure _
  | cons p rest ih =>
    rw [createDashboardsM]
    exact keeps_bind (keeps_dashboardsOneM re) (fun _ => ih)

theorem keeps_examplesTail (re : RandEnv) (hk : Bool) (obs : List Obs) :
    KeepsKeys (examplesTail re hk obs) := by
  rw [examplesTail]
  refine keeps_ite _ ?_ ?_
  · refine keeps_bind (keeps_createAutoM _ _) (fun _ => ?_)
    refine keeps_bind (keeps_pure _) (fun y => ?_)
    refine keeps_bind (keeps_upsertM _) (fun _ => ?_)
    refine keeps_bind (keeps_upsertM _) (fun _ => ?_)
    refine keeps_bind (keeps_createDatasetsM _ _ _ _) (fun _ => ?_)
    exact keeps_bind (keeps_createDashboardsM _ _) (fun _ => keeps_createManyM _ _)
  · refine keeps_bind (keeps_pure _) (fun y => ?_)
    refine keeps_bind (keeps_upsertM _) (fun _ => ?_)
    refine keeps_bind (keeps_upsertM _) (fun _ => ?_)
    refine keeps_bind (keeps_createDatasetsM _ _ _ _) (fun _ => ?_)
    exact keeps_bind (keeps_createDashboardsM _ _) (fun _ => keeps_createManyM _ _)

theorem keeps_examplesSeed (re : RandEnv) (env : String) (hk : Bool) :
    KeepsKeys (examplesSeed re env hk) := by
  rw [examplesSeed]
  refine keeps_bind keeps_examplesPrefix (fun _ => ?_)
  refine keeps_bind (keeps_generateConfigsM _ _) (fun cfg1 => ?_)
  refine keeps_bind (keeps_generateConfigsM _ _) (fun cfg2 => ?_)
  refine keeps_bind (keeps_generateQueuesM _ _) (fun q1 => ?_)
  refine keeps_bind (keeps_generateQueuesM _ _) (fun q2 => ?_)
  refine keeps_bind (keeps_generatePromptsM _ _) (fun pr1 => ?_)
  refine keeps_bind (keeps_generatePromptsM _ _) (fun pr2 => ?_)
  refine keeps_bind (keeps_liftRand _) (fun out => ?_)
  refine keeps_bind (keeps_uploadObjectsM _ _ _) (fun _ => ?_)
  exact keeps_examplesTail _ _ _

theorem keeps_seedMain (env : String) (re : RandEnv) (hk : Bool) :
    KeepsKeys (seedMain env re hk) := by
  rw [seedMain]
  refine keeps_bind keeps_baselineSeed (fun _ => ?_)
  exact keeps_ite _ (keeps_examplesSeed re env hk) (keeps_pure _)

theorem mainRun_keeps (env : String) (re : RandEnv) (hk : Bool) (db : DB)
    (h : dbUkeysOk db) : dbUkeysOk (mainRun env re hk db).1 := by
  rw [mainRun]
  rcases hr : seedMain env re hk ⟨db, ⟨0, 0⟩⟩ with e | ⟨s2, a⟩
  · exact (keeps_seedMain env re hk ⟨db, ⟨0, 0⟩⟩ h).2 e hr
  · exact (keeps_seedMain env re hk ⟨db, ⟨0, 0⟩⟩ h).1 s2 a hr

theorem runSeeds_keeps (runs : List (String × RandEnv × Bool)) (db : DB)
    (h : dbUkeysOk db) : dbUkeysOk (runSeeds runs db) := by
  induction runs generalizing db with
  | nil => exact h
  | cons r rest ih =>
    rcases r with ⟨env, re, hk⟩
    rw [runSeeds]
    exact ih _ (mainRun_keeps env re hk db h)

theorem pairwise_filter_le_one (l : List Row) (hp : l.Pairwise rowKeyOk)
    (t k : String) (hk : k ≠ "") :
    (l.filter (fun r => r.table == t && r.ukey == k)).length ≤ 1 := by
  induction l with
  | nil => simp
  | cons x xs ih =>
    rcases List.pairwise_cons.1 hp with ⟨hx, hxs⟩
    rw [List.filter_cons]
    by_cases hpx : (x.table == t && x.ukey == k) = true
    · rw [if_pos hpx]
      simp only [Bool.and_eq_true, beq_iff_eq] at hpx
      have hnil : xs.filter (fun r => r.table == t && r.ukey == k) = [] := by
        rw [List.filter_eq_nil_iff]
        intro y hy hpy
        simp only [Bool.and_eq_true, beq_iff_eq] at hpy
        exact hx y hy (hpx.1.trans hpy.1.symm) (hpx.2.trans_ne hk)
          (hpy.2.trans_ne hk) (hpx.2.trans hpy.2.symm)
      rw [List.length_cons, hnil]
      simp
    · rw [if_neg hpx]
      exact ih hxs

/-- C7: after any sequence of seed runs from an empty database, there is
at most one prompt row per serialized `(projectId, name, version)`
triple. -/
theorem claim_C7_prompt_uniqueness (runs : List (String × RandEnv × Bool))
    (pid nm ver : String) :
    ((runSeeds runs emptyDB).rows.filter
      (fun r => r.table == "prompts" && r.ukey == ukey3 pid nm ver)).length ≤ 1 := by
  have hempty : dbUkeysOk emptyDB := List.Pairwise.nil
  have hkeys := runSeeds_keeps runs emptyDB hempty
  refine pairwise_filter_le_one _ hkeys _ _ ?_
  intro hc
  have hlen := congrArg String.length hc
  rw [ukey3] at hlen
  simp [String.length_append] at hlen
  exact absurd hlen.1.1.1.2 (by decide)

theorem c5a (db : ScimDb) (req : ScimReq) (h1 : req.method ≠ "GET")
    (h2 : req.method ≠ "POST") :
    scimHandler db req =
      (⟨405, .error [scimErrSchema] "Method not allowed" 405⟩, db) := by
  rw [scimHandler, if_pos ⟨h1, h2⟩]

theorem c5b (db : ScimDb) (req : ScimReq)
    (h1 : req.method = "GET" ∨ req.method = "POST")
    (h2 : req.auth.validKey = false) :
    scimHandler db req =
      (⟨401, .error [scimErrSchema] req.auth.error 401⟩, db) := by
  rw [scimHandler, if_neg (by rcases h1 with h | h <;> simp [h]),
    if_pos (by simp [h2])]

theorem c5c (db : ScimDb) (req : ScimReq)
    (h1 : req.method = "GET" ∨ req.method = "POST")
    (h2 : req.auth.validKey = true)
    (h3 : req.auth.scope.accessLevel ≠ "organization" ∨
      jsTruthyOpt req.auth.scope.orgId = false) :
    scimHandler db req =
      (⟨403, .error [scimErrSchema]
        "Invalid API key. Organization-scoped API key required for this operation."
        403⟩, db) := by
  rw [scimHandler, if_neg (by rcases h1 with h | h <;> simp [h]),
    if_neg (by simp [h2]),
    if_pos (by rcases h3 with h | h; exact Or.inl h; exact Or.inr (by simp [h]))]

theorem c5post (db : ScimDb) (req : ScimReq) (oid : String)
    (h1 : req.method = "POST") (h2 : req.auth.validKey = true)
    (h3 : req.auth.scope.accessLevel = "organization")
    (h4 : req.auth.scope.orgId = some oid) (h5 : oid ≠ "") :
    scimHandler db req = scimPost db req.body oid := by
  rw [scimHandler, if_neg (by simp [h1]), if_neg (by simp [h2]),
    if_neg (by push_neg; exact ⟨h3, by simp [h4, jsTruthyOpt, jsTruthyStr, h5]⟩)]
  dsimp only
  rw [if_neg (by simp [h1]), h4]
  rfl

theorem c5get (db : ScimDb) (req : ScimReq) (oid : String)
    (h1 : req.method = "GET") (h2 : req.auth.validKey = true)
    (h3 : req.auth.scope.accessLevel = "organization")
    (h4 : req.auth.scope.orgId = some oid) (h5 : oid ≠ "") :
    scimHandler db req = (scimGet db req.query oid, db) := by
  rw [scimHandler, if_neg (by simp [h1]), if_neg (by simp [h2]),
    if_neg (by push_neg; exact ⟨h3, by simp [h4, jsTruthyOpt, jsTruthyStr, h5]⟩)]
  dsimp only
  rw [if_pos h1, h4]
  rfl

/-- C5: the SCIM handler maps every failure to an HTTP status with a
SCIM error-schema body: a method other than GET/POST yields 405; (for
GET/POST) an invalid API key yields 401; a valid key that is not
organization-scoped yields 403; a POST with unparseable JSON, a missing
(or JS-falsy) `userName`, or an invalid nonempty roles array yields 400 -
each response body carrying the schema
`urn:ietf:params:scim:api:messages:2.0:Error` and a `status` field equal
to the HTTP status, with the database untouched. -/
theorem claim_C5_error_status_mapping :
    (∀ db req, req.method ≠ "GET" → req.method ≠ "POST" →
      scimHandler db req =
        (⟨405, .error [scimErrSchema] "Method not allowed" 405⟩, db)) ∧
    (∀ db req, (req.method = "GET" ∨ req.method = "POST") →
      req.auth.validKey = false →
      scimHandler db req =
        (⟨401, .error [scimErrSchema] req.auth.error 401⟩, db)) ∧
    (∀ db req, (req.method = "GET" ∨ req.method = "POST") →
      req.auth.validKey = true →
      req.auth.scope.accessLevel ≠ "organization" ∨
        jsTruthyOpt req.auth.scope.orgId = false →
      scimHandler db req =
        (⟨403, .error [scimErrSchema]
          "Invalid API key. Organization-scoped API key required for this operation."
          403⟩, db)) ∧
    (∀ db req oid, req.method = "POST" → req.auth.validKey = true →
      req.auth.scope.accessLevel = "organization" →
      req.auth.scope.orgId = some oid → oid ≠ "" →
      req.body = .malformed →
      scimHandler db req =
        (⟨400, .error [scimErrSchema] "Invalid JSON body" 400⟩, db)) ∧
    (∀ db req oid un nf dn pw rl, req.method = "POST" →
      req.auth.validKey = true →
      req.auth.scope.accessLevel = "organization" →
      req.auth.scope.orgId = some oid → oid ≠ "" →
      req.body = .fields un nf dn pw rl → jsTruthyOpt un = false →
      scimHandler db req =
        (⟨400, .error [scimErrSchema] "userName is required" 400⟩, db)) ∧
    (∀ db req oid un nf dn pw xs, req.method = "POST" →
      req.auth.validKey = true →
      req.auth.scope.accessLevel = "organization" →
      req.auth.scope.orgId = some oid → oid ≠ "" →
      req.body = .fields un nf dn pw (.arr xs) → jsTruthyOpt un = true →
      xs.isEmpty = false → xs.all (fun r => roleNames.contains r) = false →
      scimHandler db req =
        (⟨400, .error [scimErrSchema]
          ("Invalid roles provided: " ++ jsonStringifyArr xs ++
            ", must be one of OWNER, ADMIN, MEMBER, VIEWER, NONE") 400⟩, db)) := by
  refine ⟨c5a, c5b, c5c, ?_, ?_, ?_⟩
  · intro db req oid h1 h2 h3 h4 h5 hb
    rw [c5post db req oid h1 h2 h3 h4 h5, hb]
    rfl
  · intro db req oid un nf dn pw rl h1 h2 h3 h4 h5 hb hu
    rw [c5post db req oid h1 h2 h3 h4 h5, hb, scimPost.eq_def]
    dsimp only
    rw [if_pos (by simp [hu])]
  · intro db req oid un nf dn pw xs h1 h2 h3 h4 h5 hb hu he hr
    rw [c5post db req oid h1 h2 h3 h4 h5, hb, scimPost.eq_def]
    dsimp only
    rw [if_neg (by simp [hu])]
    rw [scimRoleOk]
    rw [if_neg (by rw [he]; decide), if_neg (by rw [hr]; decide)]

theorem scimRoleOk_valid (rl : RolesField) (h : rolesValid rl) :
    scimRoleOk rl = Sum.inl (scimChosenRole rl) := by
  cases rl with
  | absent => rfl
  | notArray => rfl
  | arr xs =>
    rcases h with h | h
    · rw [scimRoleOk, if_pos h, scimChosenRole, if_pos h]
    · rw [scimRoleOk, scimChosenRole]
      by_cases he : xs.isEmpty
      · rw [if_pos he, if_pos he]
      · rw [if_neg he, if_neg he, if_pos h]

/-- C4 (amended): for a SCIM POST with a valid organization key, a
truthy `userName` and a valid roles field: a membership matching the raw
`userName` in the organization gives 409 and no change; otherwise the
user is looked up by the lowercased userName, and (a) a membership clash
for an existing user gives 500 and no change, (b) an existing free user
is reused with exactly one membership created (201), (c) a fresh user is
created (lowercased email, `name.formatted || displayName`) with exactly
one membership (201). -/
theorem claim_C4_amended (db : ScimDb) (req : ScimReq) (oid un : String)
    (nf dn pw : Option String) (rl : RolesField)
    (h1 : req.method = "POST") (h2 : req.auth.validKey = true)
    (h3 : req.auth.scope.accessLevel = "organization")
    (h4 : req.auth.scope.orgId = some oid) (h5 : oid ≠ "")
    (hb : req.body = .fields (some un) nf dn pw rl) (hun : un ≠ "")
    (hrl : rolesValid rl) :
    ((db.memberships.filter (memMatches db oid (some un))).isEmpty = false →
      scimHandler db req =
        (⟨409, .error [scimErrSchema] "User with this userName already exists" 409⟩,
          db)) ∧
    (∀ u, (db.memberships.filter (memMatches db oid (some un))).isEmpty = true →
      findUserByEmail db (jsToLower un) = some u →
      (db.memberships.any (fun m => m.orgId == oid && m.userId == u.id)) = true →
      scimHandler db req =
        (⟨500, .error [scimErrSchema] "Internal server error" 500⟩, db)) ∧
    (∀ u, (db.memberships.filter (memMatches db oid (some un))).isEmpty = true →
      findUserByEmail db (jsToLower un) = some u →
      (db.memberships.any (fun m => m.orgId == oid && m.userId == u.id)) = false →
      scimHandler db req =
        (⟨201, .userResponse (scimUserOf u)⟩,
          ⟨db.users,
            db.memberships ++
              [⟨"mem-" ++ toString db.nextId, oid, u.id, scimChosenRole rl⟩],
            db.nextId + 1⟩)) ∧
    ((db.memberships.filter (memMatches db oid (some un))).isEmpty = true →
      findUserByEmail db (jsToLower un) = none →
      (db.memberships.any (fun m => m.orgId == oid &&
        m.userId == ("user-" ++ toString db.nextId))) = false →
      scimHandler db req =
        (⟨201, .userResponse
            (scimUserOf ⟨"user-" ++ toString db.nextId, (jsToLower un), jsOrOpt nf dn⟩)⟩,
          ⟨db.users ++ [⟨"user-" ++ toString db.nextId, (jsToLower un), jsOrOpt nf dn⟩],
            db.memberships ++
              [⟨"mem-" ++ toString (db.nextId + 1), oid,
                "user-" ++ toString db.nextId, scimChosenRole rl⟩],
            db.nextId + 2⟩)) := by
  have hpost : scimHandler db req =
      scimPost db (.fields (some un) nf dn pw rl) oid := by
    rw [c5post db req oid h1 h2 h3 h4 h5, hb]
  have hstep : scimPost db (.fields (some un) nf dn pw rl) oid =
      (if ¬ (db.memberships.filter (memMatches db oid (some un))).isEmpty then
        (⟨409, .error [scimErrSchema] "User with this userName already exists" 409⟩,
          db)
      else
        match findUserByEmail db (jsToLower un) with
        | some u =>
          if db.memberships.any (fun m => m.orgId == oid && m.userId == u.id) then
            (⟨500, .error [scimErrSchema] "Internal server error" 500⟩, db)
          else
            (⟨201, .userResponse (scimUserOf u)⟩,
              ⟨db.users,
                db.memberships ++
                  [⟨"mem-" ++ toString db.nextId, oid, u.id, scimChosenRole rl⟩],
                db.nextId + 1⟩)
        | none =>
          if db.memberships.any (fun m => m.orgId == oid &&
              m.userId == ("user-" ++ toString db.nextId)) then
            (⟨500, .error [scimErrSchema] "Internal server error" 500⟩,
              ⟨db.users ++ [⟨"user-" ++ toString db.nextId, (jsToLower un), jsOrOpt nf dn⟩],
                db.memberships, db.nextId + 1⟩)
          else
            (⟨201, .userResponse
                (scimUserOf ⟨"user-" ++ toString db.nextId, (jsToLower un), jsOrOpt nf dn⟩)⟩,
              ⟨db.users ++ [⟨"user-" ++ toString db.nextId, (jsToLower un), jsOrOpt nf dn⟩],
                db.memberships ++
                  [⟨"mem-" ++ toString (db.nextId + 1), oid,
                    "user-" ++ toString db.nextId, scimChosenRole rl⟩],
                db.nextId + 2⟩)) := by
    rw [scimPost.eq_def]
    dsimp only
    rw [if_neg (by simp [jsTruthyOpt, jsTruthyStr, hun])]
    rw [scimRoleOk_valid rl hrl]
    dsimp only [Option.getD]
  refine ⟨?_, ?_, ?_, ?_⟩
  · intro hx
    rw [hpost, hstep, if_pos (by simp [hx])]
  · intro u hx hf ha
    rw [hpost, hstep, if_neg (by simp [hx]), hf]
    dsimp only
    rw [if_pos ha]
  · intro u hx hf ha
    rw [hpost, hstep, if_neg (by simp [hx]), hf]
    dsimp only
    rw [if_neg (by simp [ha])]
  · intro hx hf ha
    rw [hpost, hstep, if_neg (by simp [hx]), hf]
    dsimp only
    rw [if_neg (by simp [ha])]

/-- C4: the claim's "otherwise" branch fails on case: with a stored user
`alice@x.com` holding a membership in the caller's organization, a POST
for `Alice@x.com` has no membership under the verbatim userName, so the
claim demands a 201 with one more membership; the handler's existence
check misses (it compares the raw userName), the user upsert lowercases
and reuses the stored user, and the membership create then violates the
`(orgId, userId)` unique constraint: a 500, with no membership added. -/
theorem claim_C4_counterexample :
    ¬ ∀ (db : ScimDb) (req : ScimReq) (oid un : String),
        req.method = "POST" → req.auth.validKey = true →
        req.auth.scope.accessLevel = "organization" →
        req.auth.scope.orgId = some oid → oid ≠ "" →
        req.body = .fields (some un) none none none .absent → un ≠ "" →
        ((db.memberships.any (fun m => m.orgId == oid &&
            (findUserById db m.userId).any (fun u => u.email == un))) = false →
          (scimHandler db req).1.status = 201 ∧
          ((scimHandler db req).2.memberships.filter
              (fun m => m.orgId == oid)).length =
            (db.memberships.filter (fun m => m.orgId == oid)).length + 1) := by
  intro h
  have h2 := h c4db c4req "org-1" "Alice@x.com" rfl rfl rfl rfl (by decide) rfl
    (by decide)
  revert h2
  decide

/-- C4 (witness): the fresh-user branch at a concrete request: a POST of
`Bob@x.com` against an empty database creates `bob@x.com` and exactly one
`NONE`-role membership, returning 201. -/
theorem claim_C4_witness :
    scimHandler ⟨[], [], 0⟩
        ⟨"POST", ⟨true, "", ⟨"organization", some "org-1"⟩⟩, {},
          .fields (some "Bob@x.com") none none none .absent⟩ =
      (⟨201, .userResponse (scimUserOf ⟨"user-0", "bob@x.com", none⟩)⟩,
        ⟨[⟨"user-0", "bob@x.com", none⟩],
          [⟨"mem-1", "org-1", "user-0", "NONE"⟩], 2⟩) :=
  (claim_C4_amended ⟨[], [], 0⟩
    ⟨"POST", ⟨true, "", ⟨"organization", some "org-1"⟩⟩, {},
      .fields (some "Bob@x.com") none none none .absent⟩
    "org-1" "Bob@x.com" none none none .absent
    rfl rfl rfl rfl (by decide) rfl (by decide) trivial).2.2.2
    (by decide) (by decide) (by decide)

/-- C10 (amended): for a SCIM GET with a valid organization key whose
parsed `startIndex` (with the code's `parseInt(x) || 1` semantics, which
also defaults on `0`) is at least 1: the response is a 200 list whose
`totalResults` counts the memberships matching the filter, `startIndex`
echoes the parsed value, `Resources` is the drop/take page of the
matching memberships, and `itemsPerPage` its length; when the parsed
`count` is non-negative at most `count` users are returned.  (A
`startIndex` below 1 makes Prisma reject the negative `skip` - a 500.) -/
theorem claim_C10_amended (db : ScimDb) (req : ScimReq) (oid : String)
    (h1 : req.method = "GET") (h2 : req.auth.validKey = true)
    (h3 : req.auth.scope.accessLevel = "organization")
    (h4 : req.auth.scope.orgId = some oid) (h5 : oid ≠ "")
    (hs : 1 ≤ jsParseOr req.query.startIndex 1) :
    scimHandler db req =
      (⟨200, .listResponse [scimListSchema]
        (db.memberships.filter
          (memMatches db oid (scimWhereEmail req.query.filter))).length
        (jsParseOr req.query.startIndex 1)
        ((prismaTake (jsParseOr req.query.count 100)
          ((db.memberships.filter
            (memMatches db oid (scimWhereEmail req.query.filter))).drop
              (jsParseOr req.query.startIndex 1 - 1).toNat)).map
          (fun m => scimUserOf ((findUserById db m.userId).getD ⟨"", "", none⟩))).length
        ((prismaTake (jsParseOr req.query.count 100)
          ((db.memberships.filter
            (memMatches db oid (scimWhereEmail req.query.filter))).drop
              (jsParseOr req.query.startIndex 1 - 1).toNat)).map
          (fun m => scimUserOf ((findUserById db m.userId).getD ⟨"", "", none⟩)))⟩,
        db) ∧
    (0 ≤ jsParseOr req.query.count 100 →
      (respResources (scimHandler db req).1).length ≤
        (jsParseOr req.query.count 100).toNat) := by
  have hg := c5get db req oid h1 h2 h3 h4 h5
  have hget : scimGet db req.query oid =
      ⟨200, .listResponse [scimListSchema]
        (db.memberships.filter
          (memMatches db oid (scimWhereEmail req.query.filter))).length
        (jsParseOr req.query.startIndex 1)
        ((prismaTake (jsParseOr req.query.count 100)
          ((db.memberships.filter
            (memMatches db oid (scimWhereEmail req.query.filter))).drop
              (jsParseOr req.query.startIndex 1 - 1).toNat)).map
          (fun m => scimUserOf ((findUserById db m.userId).getD ⟨"", "", none⟩))).length
        ((prismaTake (jsParseOr req.query.count 100)
          ((db.memberships.filter
            (memMatches db oid (scimWhereEmail req.query.filter))).drop
              (jsParseOr req.query.startIndex 1 - 1).toNat)).map
          (fun m => scimUserOf ((findUserById db m.userId).getD ⟨"", "", none⟩)))⟩ := by
    rw [scimGet]
    rw [if_neg (by omega)]
  refine ⟨by rw [hg, hget], ?_⟩
  intro hc
  rw [hg, hget]
  dsimp only [respResources]
  rw [List.length_map, prismaTake, if_pos hc]
  exact List.length_take_le _ _

/-- C10: the claim's parsing ("count defaults to 100 when absent or
non-numeric") is wrong for `count=0`: `parseInt` yields the numeric 0,
but `0 || 100` still defaults, so a database with one matching membership
returns 1 resource where the claim allows at most 0. -/
theorem claim_C10_counterexample :
    ¬ ∀ (db : ScimDb) (req : ScimReq) (oid : String),
        req.method = "GET" → req.auth.validKey = true →
        req.auth.scope.accessLevel = "organization" →
        req.auth.scope.orgId = some oid → oid ≠ "" →
        (respResources (scimHandler db req).1).length ≤
          (specParseDefault req.query.count 100).toNat := by
  intro h
  have h2 := h c10db c10req "org-1" rfl rfl rfl rfl (by decide)
  revert h2
  decide

/-- C10 (witness): the amended statement at a concrete database and
request (`count=0`, parsed to 100 by `||`): the full one-membership page
comes back. -/
theorem claim_C10_witness :
    scimHandler c10db c10req =
      (⟨200, .listResponse [scimListSchema] 1 1 1
        [scimUserOf ⟨"u1", "alice@x.com", none⟩]⟩, c10db) ∧
    (0 ≤ jsParseOr c10req.query.count 100 →
      (respResources (scimHandler c10db c10req).1).length ≤
        (jsParseOr c10req.query.count 100).toNat) :=
  claim_C10_amended c10db c10req "org-1" rfl rfl rfl rfl (by decide) (by decide)

theorem evBaseS1 : baselineSeed ⟨stS1.db, ⟨0, 0⟩⟩ =
    Except.ok (⟨stS1.db, ⟨0, 0⟩⟩, ()) := by
  rw [baselineSeed]
  refine bind_eval (show upsertM
    { table := "users", whereId := some "user-1",
      createId := some "user-1", createUkey := "demo@langfuse.com",
      updUkey := some "demo@langfuse.com" } ⟨stS1.db, ⟨0, 0⟩⟩ =
    Except.ok (⟨stS1.db, ⟨0, 0⟩⟩, "user-1") from rfl) ?_
  refine bind_eval (show upsertM
    { table := "users", whereId := some "user-2",
      createId := some "user-2", createUkey := "member@langfuse.com",
      updUkey := some "member@langfuse.com" } ⟨stS1.db, ⟨0, 0⟩⟩ =
    Except.ok (⟨stS1.db, ⟨0, 0⟩⟩, "user-2") from rfl) ?_
  refine bind_eval (show upsertM
    { table := "organizations", whereId := some "seed-org-id",
      createId := some "seed-org-id" } ⟨stS1.db, ⟨0, 0⟩⟩ =
    Except.ok (⟨stS1.db, ⟨0, 0⟩⟩, "seed-org-id") from rfl) ?_
  refine bind_eval (show upsertM
    { table := "projects", whereId := some projA.id,
      createId := some projA.id } ⟨stS1.db, ⟨0, 0⟩⟩ =
    Except.ok (⟨stS1.db, ⟨0, 0⟩⟩, projA.id) from rfl) ?_
  refine bind_eval (show upsertM
    { table := "organization_memberships",
      whereUkey := some (ukey2 "seed-org-id" "user-1"),
      createUkey := ukey2 "seed-org-id" "user-1" } ⟨stS1.db, ⟨0, 0⟩⟩ =
    Except.ok (⟨stS1.db, ⟨0, 0⟩⟩, "auto-0") from rfl) ?_
  refine bind_eval (show upsertM
    { table := "organization_memberships",
      whereUkey := some (ukey2 "seed-org-id" "user-2"),
      createUkey := ukey2 "seed-org-id" "user-2" } ⟨stS1.db, ⟨0, 0⟩⟩ =
    Except.ok (⟨stS1.db, ⟨0, 0⟩⟩, "auto-1") from rfl) ?_
  refine bind_eval (show upsertM
    { table := "project_memberships",
      whereUkey := some (ukey2 projA.id "user-2"),
      createUkey := ukey2 projA.id "user-2" } ⟨stS1.db, ⟨0, 0⟩⟩ =
    Except.ok (⟨stS1.db, ⟨0, 0⟩⟩, "auto-2") from rfl) ?_
  refine bind_eval (show upsertM
    { table := "prompts",
      whereUkey := some (ukey3 projA.id "summary-prompt" "1"),
      createUkey := ukey3 projA.id "summary-prompt" "1" } ⟨stS1.db, ⟨0, 0⟩⟩ =
    Except.ok (⟨stS1.db, ⟨0, 0⟩⟩, "auto-3") from rfl) ?_
  refine bind_eval (show findByIdM "api_keys" "seed-api-key" ⟨stS1.db, ⟨0, 0⟩⟩ =
    Except.ok (⟨stS1.db, ⟨0, 0⟩⟩, true) from rfl) ?_
  rfl

/-- C1: the claim that re-running `main` with the same environment leaves
an already-seeded database unchanged is false: a first successful
"examples" run from an empty database yields `stSF.db`, and a second
"examples" run against it aborts (the `SEED_PROMPTS` upserts filter on
`projectId = prompt.id + project.id`, never match the rows they created,
and the retried create violates the prompt id constraint), after
rewriting the queue ids and inserting six new score-config rows. -/
theorem claim_C1_counterexample :
    ¬ ∀ (env : String) (re1 re2 : RandEnv) (hk1 hk2 : Bool) (db : DB),
        (mainRun env re1 hk1 db).2 = true →
        mainRun env re2 hk2 (mainRun env re1 hk1 db).1 =
          ((mainRun env re1 hk1 db).1, true) := by
  intro h
  have h1 : mainRun "examples" reA false emptyDB = (stSF.db, true) := by
    rw [mainRun_lite "examples" reA false emptyDB (fun _ => rfl), evRun1]
    rfl
  have h2 := h "examples" reA reB false false emptyDB (by rw [h1])
  rw [h1] at h2
  dsimp only at h2
  rw [mainRun_lite "examples" reB false stSF.db (fun _ => rfl)] at h2
  rw [show (⟨stSF.db, ⟨0, 0⟩⟩ : SeedSt) = stR0 from rfl, evRun2] at h2
  exact Bool.noConfusion (congrArg Prod.snd h2)

/-- C1 (amended): for environments outside `examples`/`load` the claim
holds: a second baseline run against the database a first baseline run
produced from empty performs only idempotent upserts and a guarded
create, completes, and leaves the database unchanged. -/
theorem claim_C1_amended (env1 env2 : String) (re1 re2 : RandEnv)
    (hk1 hk2 : Bool)
    (h1 : env1 ≠ "examples") (h2 : env1 ≠ "load")
    (h3 : env2 ≠ "examples") (h4 : env2 ≠ "load") :
    mainRun env2 re2 hk2 (mainRun env1 re1 hk1 emptyDB).1 =
      ((mainRun env1 re1 hk1 emptyDB).1, true) := by
  rw [mainRun_baseline env1 re1 hk1 emptyDB h1 h2]
  rw [show baselineRun emptyDB = (stS1.db, true) from by rw [baselineRun, evBase]; rfl]
  dsimp only
  rw [mainRun_baseline env2 re2 hk2 stS1.db h3 h4]
  rw [baselineRun, evBaseS1]
  rfl

/-- C1 (witness): the amended statement at `env = "development"` with two
different uuid streams. -/
theorem claim_C1_witness :
    mainRun "development" reB false
        (mainRun "development" reA false emptyDB).1 =
      ((mainRun "development" reA false emptyDB).1, true) :=
  claim_C1_amended "development" "development" reA reB false false
    (by decide) (by decide) (by decide) (by decide)

/-- C6: `main` runs the synthetic-dataset block only when the environment
argument is `examples` or `load` (any other value provisions exactly the
baseline set), and the trace volume handed to `createObjects` is 10000
for `load` and 100 for `examples`, which is exactly the number of traces
`createObjects` generates. -/
theorem claim_C6_environment_gating :
    (∀ env re hk db, env ≠ "examples" → env ≠ "load" →
      mainRun env re hk db = baselineRun db) ∧
    extendedEnv "examples" = true ∧ extendedEnv "load" = true ∧
    mainTraceVolume "load" = LOAD_TRACE_VOLUME ∧
    LOAD_TRACE_VOLUME = 10000 ∧
    mainTraceVolume "examples" = 100 ∧
    (∀ re env eT cT p1 p2 pids q cfg,
      (createObjects re (mainTraceVolume env) eT cT p1 p2 pids q cfg).traces.length
        = mainTraceVolume env) := by
  refine ⟨fun env re hk db h1 h2 => mainRun_baseline env re hk db h1 h2,
    rfl, rfl, rfl, rfl, rfl, ?_⟩
  intro re env eT cT p1 p2 pids q cfg
  rw [(createObjects_fields re (mainTraceVolume env) eT cT p1 p2 pids q cfg).1]
  exact createLoop_len re eT cT p1 p2 pids q cfg (mainTraceVolume env) 0 ⟨0, 0⟩
end Langfuse
